import Mathlib

/-!
Verification development for the DAR generator (`dar_logic.py`).

The Python source is shallowly embedded: Python strings are Lean `String`s,
Python dicts (the event buffer, the parsed report) are insertion-ordered
association lists, the few regular expressions of the source are expressed as
terms of a small backtracking regex engine (`RE`) mirroring CPython `re`
semantics on the constructs actually used (character classes, greedy/lazy
quantifiers, groups, alternation, anchors, word boundaries, IGNORECASE).
Fallible operations (dictionary indexing, which can raise `KeyError`) return
`Except`.  Each definition carries the name of the Python function it embeds.
-/

set_option maxRecDepth 100000

namespace Dar

/-! ## Python string primitives -/

/-- Python whitespace for `str.strip()` / `\s` (ASCII portion). -/
def isPySpace (c : Char) : Bool :=
  c == ' ' || c == '\t' || c == '\n' || c == '\r' || c == '\x0b' || c == '\x0c'

def isDigitC (c : Char) : Bool := '0' ≤ c && c ≤ '9'

def isAlphaC (c : Char) : Bool := ('a' ≤ c && c ≤ 'z') || ('A' ≤ c && c ≤ 'Z')

/-- `\w` : word character. -/
def isWordC (c : Char) : Bool := isAlphaC c || isDigitC c || c == '_'

def isUpperC (c : Char) : Bool := 'A' ≤ c && c ≤ 'Z'

def isLowerC (c : Char) : Bool := 'a' ≤ c && c ≤ 'z'

def lowerC (c : Char) : Char := if isUpperC c then Char.ofNat (c.toNat + 32) else c

def upperC (c : Char) : Char := if isLowerC c then Char.ofNat (c.toNat - 32) else c

def chars (s : String) : List Char := s.data

def ofChars (l : List Char) : String := String.mk l

/-- Python `s.lower()`. -/
def pyLower (s : String) : String := ofChars ((chars s).map lowerC)

/-- Python `s.upper()`. -/
def pyUpper (s : String) : String := ofChars ((chars s).map upperC)

def dropWhileL (p : Char → Bool) (l : List Char) : List Char := l.dropWhile p

/-- Python `s.strip(set)`: remove leading and trailing characters in `set`. -/
def pyStripSet (set : List Char) (s : String) : String :=
  let p := fun c => set.contains c
  ofChars (((((chars s).dropWhile p).reverse).dropWhile p).reverse)

/-- Python `s.strip()` (whitespace). -/
def pyStrip (s : String) : String :=
  ofChars (((((chars s).dropWhile isPySpace).reverse).dropWhile isPySpace).reverse)

/-- Python `s.rstrip(set)`. -/
def pyRStripSet (set : List Char) (s : String) : String :=
  let p := fun c => set.contains c
  ofChars ((((chars s).reverse).dropWhile p).reverse)

/-- Python `s.lstrip(set)`. -/
def pyLStripSet (set : List Char) (s : String) : String :=
  ofChars ((chars s).dropWhile (fun c => set.contains c))

/-- Substring occurrence test on character lists. -/
def listInfix (sub : List Char) : List Char → Bool
  | [] => sub.isEmpty
  | c :: rest => sub.isPrefixOf (c :: rest) || listInfix sub rest

/-- Python `sub in s` (substring containment). -/
def strIn (sub s : String) : Bool := listInfix (chars sub) (chars s)

/-- Python `s.startswith (t)`. -/
def pyStartsWith (s t : String) : Bool := (chars t).isPrefixOf (chars s)

/-- Python `s.endswith (t)`. -/
def pyEndsWith (s t : String) : Bool := (chars t).reverse.isPrefixOf (chars s).reverse

/-- Python `s.split()` : split on whitespace runs, dropping empty pieces.
`acc` is the reversed current word. -/
def splitWsGo : List Char → List Char → List (List Char)
  | [], acc => if acc.isEmpty then [] else [acc.reverse]
  | c :: cs, acc =>
    if isPySpace c then
      if acc.isEmpty then splitWsGo cs [] else acc.reverse :: splitWsGo cs []
    else splitWsGo cs (c :: acc)

def pySplitWsChars (l : List Char) : List (List Char) := splitWsGo l []

def pySplitWs (s : String) : List String := (pySplitWsChars (chars s)).map ofChars

/-- Python `sep.join (parts)`. -/
def pyJoin (sep : String) (parts : List String) : String :=
  match parts with
  | [] => ""
  | p :: ps => ps.foldl (fun acc q => acc ++ sep ++ q) p

/-- Python `s.split(sep)` (non-empty separator, keeps empty pieces).
`acc` is the reversed current piece; the fuel argument (≥ the number of
remaining characters, each step consumes at least one) makes the recursion
structural without changing the result. -/
def splitSepGo (s0 : Char) (srest : List Char) : Nat → List Char → List Char → List (List Char)
  | _, [], acc => [acc.reverse]
  | 0, _, acc => [acc.reverse]
  | fuel + 1, c :: cs, acc =>
    if c == s0 && srest.isPrefixOf cs then
      acc.reverse :: splitSepGo s0 srest fuel (cs.drop srest.length) []
    else
      splitSepGo s0 srest fuel cs (c :: acc)

def pySplitSep (sep s : String) : List String :=
  match chars sep with
  | [] => [s]
  | c :: rest => (splitSepGo c rest (chars s).length (chars s) []).map ofChars

/-- Python `ln.split(sep, 1)[-1]` : everything after the first occurrence of
`sep`, or the whole string when absent. -/
def afterFirst (sep s : String) : String :=
  match pySplitSep sep s with
  | [] => s
  | [x] => x
  | _ :: rest => pyJoin sep rest

/-- Python `s.replace (a, b)` (all occurrences, left to right; `a` non-empty).
The fuel argument (≥ the number of remaining characters) makes the recursion
structural without changing the result. -/
def replaceGo (a0 : Char) (arest b : List Char) : Nat → List Char → List Char
  | _, [] => []
  | 0, l => l
  | fuel + 1, c :: cs =>
    if c == a0 && arest.isPrefixOf cs then
      b ++ replaceGo a0 arest b fuel (cs.drop arest.length)
    else
      c :: replaceGo a0 arest b fuel cs

def pyReplace (s a b : String) : String :=
  match chars a with
  | [] => s
  | c :: rest => ofChars (replaceGo c rest (chars b) (chars s).length (chars s))

/-- Python `s.capitalize()` : first character upper-cased, rest lower-cased. -/
def pyCapitalize (s : String) : String :=
  match chars s with
  | [] => ""
  | c :: cs => ofChars (upperC c :: cs.map lowerC)

/-- Python `s.title()` : characters following non-alphabetic characters are
upper-cased, other cased characters lower-cased. -/
def pyTitleChars : List Char → Bool → List Char
  | [], _ => []
  | c :: cs, prevAlpha =>
    (if isAlphaC c then (if prevAlpha then lowerC c else upperC c) else c)
      :: pyTitleChars cs (isAlphaC c)

def pyTitle (s : String) : String := ofChars (pyTitleChars (chars s) false)

/-- Python `s.isupper()` : at least one cased character and no lower-case one. -/
def pyIsUpper (s : String) : Bool :=
  ((chars s).any (fun c => isUpperC c || isLowerC c)) && !((chars s).any isLowerC)

/-- Python `s.islower()`. -/
def pyIsLower (s : String) : Bool :=
  ((chars s).any (fun c => isUpperC c || isLowerC c)) && !((chars s).any isUpperC)

/-- Python `s[i:]`. -/
def sliceFrom (s : String) (i : Nat) : String := ofChars ((chars s).drop i)

/-- Python `s[:i]`. -/
def sliceTo (s : String) (i : Nat) : String := ofChars ((chars s).take i)

/-- Python `s[i:j]`. -/
def slice (s : String) (i j : Nat) : String := ofChars (((chars s).take j).drop i)

/-- Python `s[-n:]`. -/
def sliceLast (s : String) (n : Nat) : String :=
  ofChars (((chars s).reverse.take n).reverse)

def strLen (s : String) : Nat := (chars s).length

/-- Python `s.zfill (n)` (for plain digit strings, as used by the source). -/
def pyZfill (s : String) (n : Nat) : String :=
  if strLen s < n then ofChars (List.replicate (n - strLen s) '0') ++ s else s

/-- Parse a run of decimal digits as a number (`int(x)` on digit strings). -/
def digitsToNat (l : List Char) : Nat :=
  l.foldl (fun acc c => acc * 10 + (c.toNat - '0'.toNat)) 0

def strToNat (s : String) : Nat := digitsToNat (chars s)

/-- `int(x)` succeeding only on (optionally space-padded) non-empty digit
strings, as the `try: int(...)` sites of the source require. -/
def strToNatStrict (s : String) : Option Nat :=
  let t := chars (pyStrip s)
  if t ≠ [] && t.all isDigitC then some (digitsToNat t) else none

/-- `%02d` formatting. -/
def pad2 (n : Nat) : String :=
  if n < 10 then "0" ++ toString n else toString n

/-- Python truthiness of an optional string (`None` and `""` are falsy). -/
def truthy (o : Option String) : Bool :=
  match o with
  | none => false
  | some s => s ≠ ""

/-! ## Insertion-ordered dictionaries (Python `dict`) -/

/-- A Python dict with string keys: updating an existing key keeps its
position, a new key is appended (CPython 3.7+ insertion order). -/
abbrev Dict := List (String × String)

def dget (d : Dict) (k : String) : Option String :=
  (d.find? (fun kv => kv.1 == k)).map (·.2)

/-- `d.get(k, "")` / `d.get(k) or ""`. -/
def dgetD (d : Dict) (k : String) : String := (dget d k).getD ""

def dmem (d : Dict) (k : String) : Bool := d.any (fun kv => kv.1 == k)

def dset (d : Dict) (k v : String) : Dict :=
  if dmem d k then d.map (fun kv => if kv.1 == k then (k, v) else kv)
  else d ++ [(k, v)]

/-- `d.pop(k, None)`. -/
def dpop (d : Dict) (k : String) : Dict := d.filter (fun kv => kv.1 != k)

/-! ## Regex engine

A small backtracking matcher reproducing CPython `re` behaviour on the
constructs used by the source: single-character classes, concatenation,
ordered alternation, greedy and lazy `*` `+` `?` and counted repetitions,
capturing groups, `^` `$` `\b`, and `re.IGNORECASE` (folded into the
character predicates at pattern-construction time).  Backtracking explores
alternatives in the same order as CPython, so `search`, `match`, `sub`,
`findall` agree with CPython on the patterns of the source. -/

inductive RE where
  | eps
  | cls (p : Char → Bool)
  | seq (a b : RE)
  | alt (a b : RE)
  | star (lazy : Bool) (a : RE)
  | opt (lazy : Bool) (a : RE)
  | grp (i : Nat) (a : RE)
  | bol
  | eol
  | wb

/-- Captured group spans, most recent first: (index, start, stop). -/
abbrev Caps := List (Nat × Nat × Nat)

def charAt (s : List Char) (i : Nat) : Option Char := s.get? i

/-- Word character at position (for `\b`). -/
def wordAt (s : List Char) (i : Nat) : Bool :=
  match charAt s i with
  | some c => isWordC c
  | none => false

/-- CPS backtracking matcher.  `fuel` bounds recursion depth; every use below
supplies ample fuel so that the result agrees with CPython. -/
def reM (s : List Char) : Nat → RE → Nat → Caps → (Nat → Caps → Option (Nat × Caps)) →
    Option (Nat × Caps)
  | 0, _, _, _, _ => none
  | _ + 1, .eps, pos, caps, k => k pos caps
  | _ + 1, .cls p, pos, caps, k =>
    match charAt s pos with
    | some c => if p c then k (pos + 1) caps else none
    | none => none
  | fuel + 1, .seq a b, pos, caps, k =>
    reM s fuel a pos caps (fun p1 c1 => reM s fuel b p1 c1 k)
  | fuel + 1, .alt a b, pos, caps, k =>
    match reM s fuel a pos caps k with
    | some r => some r
    | none => reM s fuel b pos caps k
  | fuel + 1, .star lazy a, pos, caps, k =>
    if lazy then
      match k pos caps with
      | some r => some r
      | none =>
        reM s fuel a pos caps (fun p1 c1 =>
          if p1 = pos then none else reM s fuel (.star lazy a) p1 c1 k)
    else
      match reM s fuel a pos caps (fun p1 c1 =>
          if p1 = pos then none else reM s fuel (.star lazy a) p1 c1 k) with
      | some r => some r
      | none => k pos caps
  | fuel + 1, .opt lazy a, pos, caps, k =>
    if lazy then
      match k pos caps with
      | some r => some r
      | none => reM s fuel a pos caps k
    else
      match reM s fuel a pos caps k with
      | some r => some r
      | none => k pos caps
  | fuel + 1, .grp i a, pos, caps, k =>
    reM s fuel a pos caps (fun p1 c1 => k p1 ((i, pos, p1) :: c1))
  | _ + 1, .bol, pos, caps, k => if pos = 0 then k pos caps else none
  | _ + 1, .eol, pos, caps, k =>
    -- `$` : end of string, or just before a final newline
    if pos = s.length ∨ (pos + 1 = s.length ∧ charAt s pos = some '\n') then
      k pos caps
    else none
  | _ + 1, .wb, pos, caps, k =>
    let before := pos ≠ 0 && wordAt s (pos - 1)
    let after := wordAt s pos
    if before ≠ after then k pos caps else none

def reSize : RE → Nat
  | .eps | .cls _ | .bol | .eol | .wb => 1
  | .seq a b | .alt a b => reSize a + reSize b + 1
  | .star _ a | .opt _ a | .grp _ a => reSize a + 1

def bigFuel (re : RE) (s : List Char) : Nat :=
  (reSize re + 2) * (s.length + 3) + 64

/-- Anchored match attempt at `pos`; returns (end position, captures). -/
def reMatchAt (re : RE) (s : List Char) (pos : Nat) : Option (Nat × Caps) :=
  reM s (bigFuel re s) re pos [] (fun p c => some (p, c))

/-- `re.match`: anchored at the start. -/
def reMatch (re : RE) (s : String) : Option (Nat × Caps) :=
  reMatchAt re (chars s) 0

/-- `re.search`: leftmost match; returns (start, end, captures).  The fuel
argument (≥ the number of remaining start positions) makes the recursion
structural without changing the result. -/
def reSearchFrom (re : RE) (s : List Char) : Nat → Nat → Option (Nat × Nat × Caps)
  | fuel, pos =>
    match reMatchAt re s pos with
    | some (e, caps) => some (pos, e, caps)
    | none =>
      match fuel with
      | 0 => none
      | fuel + 1 => if pos < s.length then reSearchFrom re s fuel (pos + 1) else none

def reSearch (re : RE) (s : String) : Option (Nat × Nat × Caps) :=
  reSearchFrom re (chars s) (chars s).length 0

def reTest (re : RE) (s : String) : Bool := (reSearch re s).isSome

/-- `m.group (i)` : text of the most recent capture of group `i`. -/
def capGet (s : List Char) (caps : Caps) (i : Nat) : Option String :=
  ((caps.find? (fun g => g.1 == i)).map (fun g => ofChars ((s.take g.2.2).drop g.2.1)))

/-- Group text with missing group as `""` (Python `or ""` at call sites). -/
def capGetD (s : List Char) (caps : Caps) (i : Nat) : String := (capGet s caps i).getD ""

/-- The full matched text `m.group(0)` for a search result. -/
def matchedText (s : List Char) (st en : Nat) : String := ofChars ((s.take en).drop st)

/-- `re.sub` with a replacement built from the captures (non-overlapping,
left to right; an empty match emits one input character and advances). -/
def reSubGo (re : RE) (repl : List Char → Nat → Nat → Caps → String) (s : List Char) :
    Nat → Nat → String
  | pos, fuel =>
    match fuel with
    | 0 => ofChars (s.drop pos)
    | fuel + 1 =>
      if pos > s.length then "" else
      match reMatchAt re s pos with
      | some (e, caps) =>
        if e > pos then
          repl s pos e caps ++ reSubGo re repl s e fuel
        else
          repl s pos e caps ++
            (match charAt s pos with
             | some c => ofChars [c] ++ reSubGo re repl s (pos + 1) fuel
             | none => "")
      | none =>
        match charAt s pos with
        | some c => ofChars [c] ++ reSubGo re repl s (pos + 1) fuel
        | none => ""

def reSubF (re : RE) (repl : List Char → Nat → Nat → Caps → String) (s : String) : String :=
  reSubGo re repl (chars s) 0 ((chars s).length + 1)

/-- `re.sub` with a constant replacement. -/
def reSub (re : RE) (t : String) (s : String) : String :=
  reSubF re (fun _ _ _ _ => t) s

/-- `re.findall` for a pattern with exactly one capturing group (returns the
group-1 texts, as CPython does). -/
def reFindAllGo (re : RE) (s : List Char) : Nat → Nat → List String
  | _, 0 => []
  | pos, fuel + 1 =>
    if pos > s.length then [] else
    match reMatchAt re s pos with
    | some (e, caps) =>
      capGetD s caps 1 ::
        (if e > pos then reFindAllGo re s e fuel else reFindAllGo re s (pos + 1) fuel)
    | none =>
      if pos < s.length then reFindAllGo re s (pos + 1) fuel else []

def reFindAll (re : RE) (s : String) : List String :=
  reFindAllGo re (chars s) 0 ((chars s).length + 1)

/-- `re.split(pat, s, maxsplit=1)[0]` : the text before the first match. -/
def reSplitFirstPre (re : RE) (s : String) : String :=
  match reSearch re s with
  | some (st, _, _) => ofChars ((chars s).take st)
  | none => s

/-! ### Pattern combinators -/

def rchar (c : Char) : RE := .cls (fun x => x == c)

/-- Case-insensitive literal character. -/
def rcharI (c : Char) : RE := .cls (fun x => lowerC x == lowerC c)

def rseq (l : List RE) : RE := l.foldr .seq .eps

def rstr (t : String) : RE := rseq ((chars t).map rchar)

def rstrI (t : String) : RE := rseq ((chars t).map rcharI)

def ralt (l : List RE) : RE :=
  match l with
  | [] => .eps
  | [a] => a
  | a :: rest => .alt a (ralt rest)

def rd : RE := .cls isDigitC            -- `\d`
def rws : RE := .cls isPySpace          -- `\s`
def rw : RE := .cls isWordC             -- `\w`
def rDot : RE := .cls (fun c => c != '\n')  -- `.`
def rDotAll : RE := .cls (fun _ => true)    -- `.` with DOTALL

def rplus (lazy : Bool) (a : RE) : RE := .seq a (.star lazy a)

/-- `a{n}` -/
def rtimes (n : Nat) (a : RE) : RE := rseq (List.replicate n a)

/-- `a{0,n}` greedy. -/
def ratmost : Nat → RE → RE
  | 0, _ => .eps
  | n + 1, a => .opt false (.seq a (ratmost n a))

/-- `a{m,n}` greedy. -/
def rrange (m n : Nat) (a : RE) : RE := .seq (rtimes m a) (ratmost (n - m) a)

/-- `a{m,}` greedy. -/
def ratleast (m : Nat) (a : RE) : RE := .seq (rtimes m a) (.star false a)

/-- Character class from an explicit list. -/
def rof (cs : List Char) : RE := .cls (fun c => cs.contains c)

/-- Case-insensitive class from a list. -/
def rofI (cs : List Char) : RE := .cls (fun c => cs.contains (lowerC c) || cs.contains (upperC c))

/-! ## Global tables of `dar_logic.py` -/

/-- `SECTIONS` : the 14 report categories, in display order. -/
def SECTIONS : List String := [
  "Incident Reports (IR) / Alarms",
  "Elevator Entrapment Incidents",
  "SPD Presence/Emergency Response on Site",
  "Property Damage",
  "Tenant Issues",
  "Retail Issues",
  "Transient Removal",
  "Key Service (Lock & Unlock)",
  "Loading Dock Access (Lock & Unlock)",
  "Fire Panel Bypass/Online",
  "AES Phone Calls",
  "Work Orders",
  "Janitorial",
  "Additional Information"]

/-- `VERB_MAP` : past-tense normalization table. -/
def VERB_MAP : List (String × String) := [
  ("open", "opened"), ("unlock", "unlocked"), ("lock", "locked"),
  ("secure", "secured"), ("issue", "issued"), ("collect", "collected"),
  ("deliver", "delivered"), ("remove", "removed"), ("escort", "escorted"),
  ("close", "closed"), ("receive", "received"), ("call", "called"),
  ("handle", "handled"), ("extend", "extended"), ("bypass", "bypassed"),
  ("bring", "brought"), ("brought", "brought"), ("put", "put"), ("was", "was"),
  ("putted", "put"), ("puted", "put"), ("set", "set"), ("hit", "hit"),
  ("cut", "cut"), ("shut", "shut"), ("leave", "left")]

/-- `to_past_tense` : convert the leading verb to past tense. -/
def to_past_tense (text : String) : String :=
  if text = "" then text else
  match pySplitWs text with
  | [] => text
  | w :: rest =>
    let first := pyLower w
    let w' :=
      match (VERB_MAP.find? (fun kv => kv.1 == first)).map (·.2) with
      | some v => v
      | none =>
        if !pyEndsWith first "ed" then
          first ++ (if pyEndsWith first "e" then "d" else "ed")
        else w
    pyJoin " " (w' :: rest)

/-- regex `^(Officer|S/O)\s+` (IGNORECASE), used by `bold_officer`. -/
def rxOfficerLead : RE :=
  rseq [.bol, .grp 1 (ralt [rstrI "Officer", rstrI "S/O"]), rplus false rws]

/-- `bold_officer` : normalize an officer name to bolded `Officer First Last`. -/
def bold_officer (name : String) : String :=
  let n0 := pyStrip name
  if n0 = "" then "" else
  let n1 := reSub rxOfficerLead "" n0
  let parts := pySplitWs n1
  let n2 :=
    match parts with
    | [first, second] =>
      if pyIsUpper first && isUpperC ((chars second).headD ' ')
          && pyIsLower (sliceFrom second 1) then
        pyCapitalize second ++ " " ++ pyCapitalize first
      else
        pyCapitalize first ++ " " ++ pyCapitalize second
    | _ => pyJoin " " (parts.map pyCapitalize)
  "<b>Officer " ++ n2 ++ "</b>"

/-! ## `classify` -/

/-- regex `\bkey\s*(lock|unlock|service|issued|return|pickup|drop|set)?\b`. -/
def rxKeyAction : RE :=
  rseq [.wb, rstr "key", .star false rws,
    .opt false (.grp 1 (ralt [rstr "lock", rstr "unlock", rstr "service",
      rstr "issued", rstr "return", rstr "pickup", rstr "drop", rstr "set"])),
    .wb]

/-- regex `\b(ir|incident)\s*#\s*\d+`. -/
def rxIrNum : RE :=
  rseq [.wb, .grp 1 (ralt [rstr "ir", rstr "incident"]), .star false rws,
    rchar '#', .star false rws, rplus false rd]

/-- The explicit-category layer of `classify` (first matching rule wins;
`none` means fall through to the heuristics). -/
def classifyExplicit (buffer : Dict) : Option String :=
  let cat := pyLower (dgetD buffer "category")
  if strIn "aes phone call" cat then some "AES Phone Calls"
  else if (strIn "loading dock" cat || strIn "dock gate" cat)
      && !(strIn "abm" (pyLower (dgetD buffer "action"))) then
    some "Loading Dock Access (Lock & Unlock)"
  else if strIn "key service" cat || strIn "key" cat then
    some "Key Service (Lock & Unlock)"
  else if strIn "bypass online" cat || strIn "fire panel" cat
      || strIn "fire system online" cat || strIn "until" cat then
    some "Fire Panel Bypass/Online"
  else if strIn "transient" cat then some "Transient Removal"
  else if strIn "work order" cat then some "Work Orders"
  else if strIn "retail" cat then some "Retail Issues"
  else if strIn "incident report" cat || strIn "alarm" cat then
    some "Incident Reports (IR) / Alarms"
  else if strIn "janitorial" cat then some "Janitorial"
  else if strIn "other/miscellaneous" cat then some "Additional Information"
  else none

/-- The full-text heuristic layer of `classify`, applied to the lower-cased
concatenation `txt` (plus the raw buffer for the Janitorial category check). -/
def classifyHeuristic (buffer : Dict) (txt : String) : String :=
  if ["elevator entrapment incident", "stuck in elevator", "elevator incident",
      "got stuck in cap", "doors stayed closed", "kone technician",
      "otis elevator"].any (fun k => strIn k txt) then
    "Elevator Entrapment Incidents"
  else if strIn "tenant" txt
      && (["issue", "concern", "complaint", "problem", "request", "notify",
           "notified", "reported"].any (fun k => strIn k txt))
      && !(["elevator", "entrapment", "stuck in elevator", "kone",
            "otis"].any (fun n => strIn n txt)) then
    "Tenant Issues"
  else if (["damage", "damaged", "bent", "broken", "crack", "dent",
            "unable to close", "hit", "struck", "collision",
            "impact"].any (fun w => strIn w txt))
      && (["gate", "door", "frame", "lock", "glass", "loading dock",
           "dock gate"].any (fun n => strIn n txt)) then
    "Property Damage"
  else if (strIn "elevator" txt || strIn "entrapment" txt
        || strIn "stuck in elevator" txt) && !(strIn "tenant" txt) then
    "Elevator Entrapment Incidents"
  else if ["spd presence/emergency response on site", "spd presence",
           "emergency response on site", "spd response", "sfd medics",
           "911 called", "police responded", "medical emergency on site",
           "officer contacted spd", "security called 911",
           "security called spd"].any (fun k => strIn k txt) then
    "SPD Presence/Emergency Response on Site"
  else if (strIn "spd" txt && strIn "response" txt)
      || strIn "emergency response on site" txt then
    "SPD Presence/Emergency Response on Site"
  else if strIn "tenant" txt
      && (["issue", "concern", "complaint", "problem", "request", "notify",
           "notified", "reported"].any (fun k => strIn k txt))
      && !(["elevator", "entrapment",
            "stuck in elevator"].any (fun n => strIn n txt)) then
    "Tenant Issues"
  else if strIn "aes" txt || strIn "phone call" txt then
    "AES Phone Calls"
  else if (strIn "loading dock" txt || strIn "dock gate" txt)
      && !(["abm notified", "upload picture"].any (fun k => strIn k txt)) then
    "Loading Dock Access (Lock & Unlock)"
  else if strIn "key service" txt || reTest rxKeyAction txt then
    "Key Service (Lock & Unlock)"
  else if ["panel", "bypass", "trbl", "supv", "fire alarm", "alarm test",
           "hold"].any (fun k => strIn k txt) then
    "Fire Panel Bypass/Online"
  else if strIn "transient" txt || strIn "trespass" txt
      || (strIn "removed" txt && strIn "person" txt) then
    "Transient Removal"
  else if strIn "work order" txt || strIn "building engines" txt then
    "Work Orders"
  else if strIn "incident report" txt || reTest rxIrNum txt
      || (["police", "911", "injury", "assault", "theft",
           "robbery"].any (fun k => strIn k txt)) then
    "Incident Reports (IR) / Alarms"
  else if (pyLower (dgetD buffer "category") == "janitorial"
        || pyLower (dgetD buffer "category") == "seattle ambassadors")
      || strIn "janitorial" txt || strIn "abm notified" txt
      || strIn "upload picture" txt || strIn "abm" txt || strIn "clean" txt
      || strIn "trash" txt || strIn "garbage" txt || strIn "spill" txt
      || strIn "vacuum" txt || strIn "mop" txt || strIn "sweep" txt
      || strIn "ambassador" txt || strIn "mid call" txt
      || strIn "mid dispatch" txt || strIn "seattle ambassadors" txt then
    "Janitorial"
  else "Unclassified"

/-- The text joined by `classify` for the heuristic layer:
`" ".join([*labels, action, company, location, category]).lower()`.
`labels` is a Python set; CPython iterates it in a fixed (hash-determined)
order within a process — modelled here by insertion order with duplicates
removed at `add` time. -/
def classifyTxt (buffer : Dict) (labels : List String) : String :=
  pyLower (pyJoin " " (labels ++ [dgetD buffer "action", dgetD buffer "company",
    dgetD buffer "location", dgetD buffer "category"]))

/-- `classify (buffer, labels)` : category for a completed event buffer. -/
def classify (buffer : Dict) (labels : List String) : String :=
  match (if dmem buffer "category" then classifyExplicit buffer else none) with
  | some sec => sec
  | none => classifyHeuristic buffer (classifyTxt buffer labels)

/-! ## `_extract_dt` -/

def isLeap (y : Nat) : Bool := y % 4 == 0 && (y % 100 != 0 || y % 400 == 0)

def daysInMonth (y m : Nat) : Nat :=
  if m == 2 then (if isLeap y then 29 else 28)
  else if m == 4 || m == 6 || m == 9 || m == 11 then 30
  else 31

/-- Encoding of a `datetime` as a sort key. -/
def dtKey (y mo d h24 mi : Nat) : Nat := ((((y * 13 + mo) * 32 + d) * 24 + h24) * 60) + mi

/-- `datetime.max` sentinel : strictly larger than every parsed key. -/
def dtMax : Nat := dtKey 10000 12 31 23 59

/-- regex `^(\d{2}/\d{2}/\d{2})\s+(\d{1,2}:\d{2}\s*[AP]M)` (case-sensitive). -/
def rxBuiltLineDt : RE :=
  rseq [.bol,
    .grp 1 (rseq [rtimes 2 rd, rchar '/', rtimes 2 rd, rchar '/', rtimes 2 rd]),
    rplus false rws,
    .grp 2 (rseq [rrange 1 2 rd, rchar ':', rtimes 2 rd, .star false rws,
      rof ['A', 'P'], rchar 'M'])]

/-- `datetime.strptime(s, "%m/%d/%y %I:%M %p")` on the two captured pieces,
returning the key; `none` mirrors `ValueError`.  The `_strptime` directives
compile to digit-shape regexes — `%m`, `%d`, `%I` to one-or-two-digit
numbers, `%y` to exactly two digits, `%M` to a greedy one-or-two-digit
number — so those shape checks are part of parsing, alongside the value
bounds; whitespace in the format requires at least one whitespace character
before AM/PM. -/
def strptimeMDYhm (datePart timePart : String) : Option Nat :=
  match pySplitSep "/" datePart with
  | [ms, ds, ys] =>
    if (chars ms).all isDigitC && 1 ≤ strLen ms && strLen ms ≤ 2
        && (chars ds).all isDigitC && 1 ≤ strLen ds && strLen ds ≤ 2
        && (chars ys).all isDigitC && strLen ys == 2 then
      let mo := strToNat ms
      let d := strToNat ds
      let yy := strToNat ys
      let y := if yy ≤ 68 then 2000 + yy else 1900 + yy
      (match pySplitSep ":" timePart with
       | [hs, rest] =>
         let h := strToNat hs
         let mdigs := ((chars rest).takeWhile isDigitC).take 2
         let mi := digitsToNat mdigs
         let sep := ofChars ((chars rest).drop mdigs.length)
         let ws := pyStrip sep
         let hasWs := (chars sep).head? |>.elim false isPySpace
         if (chars hs).all isDigitC && 1 ≤ strLen hs && strLen hs ≤ 2
            && 1 ≤ mdigs.length
            && 1 ≤ mo && mo ≤ 12 && 1 ≤ d && d ≤ daysInMonth y mo
            && 1 ≤ h && h ≤ 12 && mi ≤ 59 && hasWs
            && (ws == "AM" || ws == "PM") then
           let h24 := if ws == "PM" then (if h == 12 then 12 else h + 12)
                      else (if h == 12 then 0 else h)
           some (dtKey y mo d h24 mi)
         else none
       | _ => none)
    else none
  | _ => none

/-- `_extract_dt` : sort key of a built event line (`datetime.max` when the
leading token is unparsable). -/
def _extract_dt (line : String) : Nat :=
  match reMatch rxBuiltLineDt line with
  | some (_, caps) =>
    match strptimeMDYhm (capGetD (chars line) caps 1) (capGetD (chars line) caps 2) with
    | some k => k
    | none => dtMax
  | none => dtMax

/-! ## `build_event_line` -/

/-- regex `(\d{1,2})/(\d{1,2})/(\d{4})\s+(\d{1,2}:\d{2}\s*[AP]M)` (IGNORECASE). -/
def rxDateLong : RE :=
  rseq [.grp 1 (rrange 1 2 rd), rchar '/', .grp 2 (rrange 1 2 rd), rchar '/',
    .grp 3 (rtimes 4 rd), rplus false rws,
    .grp 4 (rseq [rrange 1 2 rd, rchar ':', rtimes 2 rd, .star false rws,
      rofI ['a', 'p'], rcharI 'm'])]

/-- regex `\bClose\b` (case-sensitive). -/
def rxCloseWord : RE := rseq [.wb, rstr "Close", .wb]

/-- `build_event_line` : `'MM/DD/YY HH:MM AM – <b>Officer Name</b> action
[for Company] (Location)'`. -/
def build_event_line (buffer : Dict) : String :=
  let date0 := pyStrip (dgetD buffer "date")
  let date :=
    match reSearch rxDateLong date0 with
    | some (_, _, caps) =>
      let cs := chars date0
      pad2 (strToNat (capGetD cs caps 1)) ++ "/" ++
        pad2 (strToNat (capGetD cs caps 2)) ++ "/" ++
        sliceLast (capGetD cs caps 3) 2 ++ " " ++ pyUpper (capGetD cs caps 4)
    | none => date0
  let officer := bold_officer (dgetD buffer "officer")
  let action0 := pyStrip (dgetD buffer "action")
  let action := if action0 ≠ "" then pyStrip (reSub rxCloseWord "" (to_past_tense action0))
                else action0
  let company0 := pyStrip (dgetD buffer "company")
  let location := pyStrip (dgetD buffer "location")
  let company := if company0 ≠ "" && action ≠ ""
      && strIn (pyLower company0) (pyLower action) then "" else company0
  let parts : List String :=
    (if date ≠ "" then [date] else []) ++
    (if officer ≠ "" then [officer] else []) ++
    (if action ≠ "" then
        [action ++ (if company ≠ "" then " for " ++ company else "")] else []) ++
    (if location ≠ "" then ["(" ++ location ++ ")"] else [])
  pyStripSet [' ', '–'] (pyJoin " – " (parts.filter (fun p => p ≠ "")))

/-! ## `format_location_name`, `clean_shift_noise`, `smart_item_phrase` -/

/-- Maximal runs of whitespace/non-whitespace characters, tagged by whether
the run is whitespace. -/
def runsGo : List Char → Bool → List Char → List (Bool × List Char)
  | [], b, acc => [(b, acc.reverse)]
  | c :: cs, b, acc =>
    if isPySpace c == b then runsGo cs b (c :: acc)
    else (b, acc.reverse) :: runsGo cs (isPySpace c) [c]

/-- `re.split(r"(\s+)", s)` : split on whitespace runs, keeping the captured
separators; empty pieces appear at the ends when the string starts or ends
with whitespace. -/
def splitKeepWsChars (l : List Char) : List (List Char) :=
  match l with
  | [] => [[]]
  | c :: cs =>
    let runs := runsGo cs (isPySpace c) [c]
    ((if (runs.head?.map (·.1)).getD false then [[]] else []) ++
      runs.map (·.2) ++
      (if (runs.getLast?.map (·.1)).getD false then [[]] else []))

def splitKeepWs (s : String) : List String := (splitKeepWsChars (chars s)).map ofChars

/-- `format_location_name` : smart location capitalization. -/
def format_location_name (loc0 : String) : String :=
  if loc0 = "" then "" else
  let loc := pyStrip loc0
  let words := splitKeepWs loc
  let skip := ["and", "or", "of", "the", "to", "from", "at", "in"]
  let pieces := (words.enum).map (fun wi =>
    let word := wi.2
    let i := wi.1
    if pyStrip word = "" then word
    else if pyIsUpper word && strLen word > 1 then word
    else
      let w := pyLower word
      if i == 0 || !(skip.contains w) then pyCapitalize w else w)
  pyJoin "" pieces

/-- The four handover-noise regexes of `clean_shift_noise` (IGNORECASE). -/
def rxNoise1 : RE :=
  rseq [.wb, .grp 1 (ralt [rstrI "yes", rstrI "no"]), .star false rws, rchar '-',
    .star false rws, rstrI "new", .star false rws, rstrI "emails", .star false rws,
    rstrI "received", .star false rws, rstrI "during", .star false rws,
    rstrI "shift", .star false rws, rstrI "communicated", .star false rws,
    rstrI "to", .star false rws, rstrI "the", .star false rws, rstrI "next",
    .opt false (rchar '?'), .star false rws, .opt false (rchar ':'),
    .star false rws, .opt false (.grp 2 (ralt [rstrI "yes", rstrI "no"]))]

def rxNoise2 : RE :=
  rseq [.wb, rstrI "new", .star false rws, rstrI "emails", .star false rws,
    rstrI "received", .star false rws, rstrI "during", .star false rws,
    rstrI "shift", .star false rws, rstrI "communicated", .star false rws,
    rstrI "to", .star false rws, rstrI "the", .star false rws, rstrI "next",
    .opt false (rchar '?'), .star false rws, .opt false (rchar ':'),
    .star false rws, .opt false (.grp 1 (ralt [rstrI "yes", rstrI "no"]))]

def rxNoise3 : RE :=
  rseq [.wb, rstrI "new", .star false rws, rstrI "work", .star false rws,
    rstrI "orders", .star false rws, rstrI "communicated", .star false rws,
    rstrI "to", .star false rws, rstrI "the", .star false rws, rstrI "next",
    .star false rws, rstrI "shift", .opt false (rchar '?'), .star false rws,
    .opt false (rchar ':'), .star false rws,
    .opt false (.grp 1 (ralt [rstrI "yes", rstrI "no"]))]

def rxNoise4 : RE :=
  rseq [.wb, rstrI "important", .star false rws, rstrI "info", .star false rws,
    rstrI "passed", .star false rws, rstrI "down", .star false rws, rstrI "for",
    .star false rws, rstrI "the", .star false rws, rstrI "shift",
    .star false rws, .opt false (rchar ':'), .star false rws,
    .opt false (.grp 1 (ralt [rstrI "yes", rstrI "no"]))]

/-- regex `\s+`. -/
def rxWsRun : RE := rplus false rws

/-- regex `\bthe\s+yes\b` (IGNORECASE). -/
def rxTheYes : RE := rseq [.wb, rstrI "the", rplus false rws, rstrI "yes", .wb]

/-- regex `\bthe\s+no\b` (IGNORECASE). -/
def rxTheNo : RE := rseq [.wb, rstrI "the", rplus false rws, rstrI "no", .wb]

/-- regex `\b(yes|no)[,.\s]+\b` (IGNORECASE). -/
def rxYesNoPunct : RE :=
  rseq [.wb, .grp 1 (ralt [rstrI "yes", rstrI "no"]),
    rplus false (.cls (fun c => c == ',' || c == '.' || isPySpace c)), .wb]

/-- regex `\bthe\s*,\s*` (IGNORECASE). -/
def rxTheComma : RE :=
  rseq [.wb, rstrI "the", .star false rws, rchar ',', .star false rws]

/-- regex `\bthe\s*\.\s*` (IGNORECASE). -/
def rxTheDot : RE :=
  rseq [.wb, rstrI "the", .star false rws, rchar '.', .star false rws]

/-- regex `\s{2,}`. -/
def rxWs2 : RE := ratleast 2 rws

/-- regex `\s*[-,:;]\s*$`. -/
def rxTrailPunct : RE :=
  rseq [.star false rws, rof ['-', ',', ':', ';'], .star false rws, .eol]

/-- `clean_shift_noise` : remove shift-handover noise fragments. -/
def clean_shift_noise (text : String) : String :=
  if text = "" then text else
  let t := pyReplace (pyReplace text "—" "-") "–" "-"
  let t := pyStrip (reSub rxWsRun " " t)
  let t := reSub rxNoise1 "" t
  let t := reSub rxNoise2 "" t
  let t := reSub rxNoise3 "" t
  let t := reSub rxNoise4 "" t
  let t := reSub rxTheYes "the" t
  let t := reSub rxTheNo "the" t
  let t := reSub rxYesNoPunct "" t
  let t := reSub rxTheComma "" t
  let t := reSub rxTheDot "" t
  let t := reSub rxWs2 " " t
  let t := reSub rxTrailPunct "" t
  pyStrip t

/-- regex `\d|[A-Za-z]\d|\d[A-Za-z]`. -/
def rxHasDigitish : RE :=
  ralt [rd, .seq (.cls isAlphaC) rd, .seq rd (.cls isAlphaC)]

/-- `smart_item_phrase` : add `the`/`a`/plural handling to key/badge phrases. -/
def smart_item_phrase (item_text : String) : String :=
  if item_text = "" then "" else
  let txt := pyLower (pyStrip item_text)
  if pyEndsWith txt "s" && !reTest rd txt then pyStrip item_text
  else if reTest rxHasDigitish txt then "the " ++ pyStrip item_text
  else "a " ++ pyStrip item_text

/-! ## Scanner state and report dictionary -/

/-- Python `KeyError` and friends. -/
abbrev PyErr := String

/-- The category→entries report dictionary (`parsed`). -/
abbrev Parsed := List (String × List String)

/-- `parsed[sec].append (evt)` — raises `KeyError` when `sec` is absent. -/
def pappend (parsed : Parsed) (sec evt : String) : Except PyErr Parsed :=
  if parsed.any (fun kv => kv.1 == sec) then
    .ok (parsed.map (fun kv => if kv.1 == sec then (kv.1, kv.2 ++ [evt]) else kv))
  else .error ("KeyError: " ++ sec)

/-- `parsed.get(sec)` with missing key as the empty list (only used on keys
always present). -/
def pget (parsed : Parsed) (sec : String) : List String :=
  ((parsed.find? (fun kv => kv.1 == sec)).map (·.2)).getD []

/-- Scanner state of `parse_events` (the `nonlocal` variables; the unused
`incident_groups` dict of the source is omitted — it is declared and never
read or written elsewhere). -/
structure ScanSt where
  parsed : Parsed
  in_tour : Bool := false
  buffer : Dict := []
  labels : List String := []
  waiting_officer_nested : Bool := false
  last_field : Option String := none
  transient_count : Nat := 0
  transient_tag_seen : Bool := false
  in_ambassador : Bool := false
  ambassador_buffer : Dict := []
  in_unsecure : Bool := false
  unsecure_buffer : Dict := []
  in_spd : Bool := false
  spd_buffer : Dict := []
  deriving Repr, DecidableEq

/-- `labels.add (ln)` (Python set add, modelled with insertion order). -/
def labelsAdd (labels : List String) (ln : String) : List String :=
  if labels.contains ln then labels else labels ++ [ln]

/-- `lines.index (ln)` : index of the first occurrence (the source indexes by
value, not by position). -/
def linesIndex (lines : List String) (ln : String) : Nat :=
  ((lines.findIdx? (fun x => x == ln)).getD 0)

/-! ## Shared synthesis helpers of `flush_event` -/

/-- regex `^(\d{1,2})(\d{2})?$` on the cleaned compact time. -/
def rxCompactTime : RE :=
  rseq [.bol, .grp 1 (rrange 1 2 rd), .opt false (.grp 2 (rtimes 2 rd)), .eol]

/-- The repeated 24-hour→`H:MM AM|PM` normalization block of `flush_event`
(`time_clean = t.strip().lower().replace("hrs","").replace(":","").replace(" ","")` …). -/
def formatTime24 (t : String) : String :=
  let tc := pyReplace (pyReplace (pyReplace (pyLower (pyStrip t)) "hrs" "") ":" "") " " ""
  match reMatch rxCompactTime tc with
  | some (_, caps) =>
    let cs := chars tc
    let hh0 := strToNat (capGetD cs caps 1)
    let mm := (capGet cs caps 2).getD "00"
    let am := if hh0 ≥ 12 then "PM" else "AM"
    let hh := if hh0 ≥ 12 then (if hh0 > 12 then hh0 - 12 else hh0)
              else (if hh0 == 0 then 12 else hh0)
    toString hh ++ ":" ++ mm ++ " " ++ am
  | none => pyStrip (pyReplace (pyUpper t) "HRS" "")

/-- regex `\b(?:at|in|on|inside|near|around)\s+([A-Za-z0-9\-\s]+?)(?:[.,;]|$)`
(IGNORECASE) : explicit-preposition location inference. -/
def rxAtLoc : RE :=
  rseq [.wb,
    ralt [rstrI "at", rstrI "in", rstrI "on", rstrI "inside", rstrI "near",
      rstrI "around"],
    rplus false rws,
    .grp 1 (rplus true (.cls (fun c => isAlphaC c || isDigitC c || c == '-' || isPySpace c))),
    ralt [rof ['.', ',', ';'], .eol]]

/-- regex `\b([A-Z]{1,3}\d?|L\d|P\d|Dock|Garage|Lobby|Roof|Basement)\b`
(IGNORECASE) : short-code location inference (elevator / work-order form). -/
def rxShortCode : RE :=
  rseq [.wb,
    .grp 1 (ralt [rseq [rrange 1 3 (.cls isAlphaC), .opt false rd],
      rseq [rcharI 'l', rd], rseq [rcharI 'p', rd], rstrI "Dock", rstrI "Garage",
      rstrI "Lobby", rstrI "Roof", rstrI "Basement"]),
    .wb]

/-- Same with the extra `|Floor|Entrance` alternatives (incident-report form). -/
def rxShortCodeIR : RE :=
  rseq [.wb,
    .grp 1 (ralt [rseq [rrange 1 3 (.cls isAlphaC), .opt false rd],
      rseq [rcharI 'l', rd], rseq [rcharI 'p', rd], rstrI "Dock", rstrI "Garage",
      rstrI "Lobby", rstrI "Roof", rstrI "Basement", rstrI "Floor",
      rstrI "Entrance"]),
    .wb]

/-- regex `on\s+the\s+([A-Za-z0-9\s]+?floor)`. -/
def rxOnTheFloor : RE :=
  rseq [rstr "on", rplus false rws, rstr "the", rplus false rws,
    .grp 1 (rseq [rplus true (.cls (fun c => isAlphaC c || isDigitC c || isPySpace c)),
      rstr "floor"])]

/-- regex `^[A-Z]{1,3}\d?$` (case-sensitive). -/
def rxUpperCode : RE :=
  rseq [.bol, rrange 1 3 (.cls isUpperC), .opt false rd, .eol]

/-- Normalization tail shared by the smart-location blocks:
collapse whitespace, upper-case short codes, else title-case. -/
def normalizeInferredLocation (loc : String) : String :=
  if loc ≠ "" then
    let l := pyStrip (reSub rxWsRun " " loc)
    if (reMatch rxUpperCode l).isSome then pyUpper l else pyTitle l
  else loc

/-- The smart location inference over `source_text` shared by the IR and
Elevator branches (preposition, then short code by `codeRe`, then floor
reference, then first-comma truncation, then normalization). -/
def inferLocationWith (codeRe : RE) (sourceText : String) : String :=
  let loc :=
    match reSearch rxAtLoc sourceText with
    | some (_, _, caps) => pyStripSet [' ', '.', ',', '-'] (capGetD (chars sourceText) caps 1)
    | none => ""
  let loc :=
    if loc = "" then
      match reSearch codeRe sourceText with
      | some (_, _, caps) => pyStrip (capGetD (chars sourceText) caps 1)
      | none => ""
    else loc
  let loc :=
    if loc = "" && strIn "floor" sourceText then
      match reSearch rxOnTheFloor sourceText with
      | some (_, _, caps) => pyStrip (capGetD (chars sourceText) caps 1)
      | none => ""
    else loc
  let loc :=
    if loc ≠ "" && strIn "," loc then
      pyStrip ((pySplitSep "," loc).headD "")
    else loc
  normalizeInferredLocation loc

/-- The IR-branch instance (short codes include `Floor` and `Entrance`). -/
def inferLocationIR (sourceText : String) : String :=
  inferLocationWith rxShortCodeIR sourceText

/-! ## `flush_event` : Incident Reports branch -/

/-- regex `\b(Synopsis|All persons involved|Who Called|Vehicle Information|Evidence|numbers\))\b`
(IGNORECASE), used with `re.split(..., maxsplit=1)[0]`. -/
def rxLocStop : RE :=
  rseq [.wb,
    .grp 1 (ralt [rstrI "Synopsis", rstrI "All persons involved",
      rstrI "Who Called", rstrI "Vehicle Information", rstrI "Evidence",
      rstrI "numbers)"]),
    .wb]

/-- regex `Incident Date[:\s]+([0-9/]+)\s*(?:at\s+([0-9:]+\s*[APap][Mm]))?`. -/
def rxEmbIncidentDate : RE :=
  rseq [rstr "Incident Date",
    rplus false (.cls (fun c => c == ':' || isPySpace c)),
    .grp 1 (rplus false (.cls (fun c => isDigitC c || c == '/'))),
    .star false rws,
    .opt false (rseq [rstr "at", rplus false rws,
      .grp 2 (rseq [rplus false (.cls (fun c => isDigitC c || c == ':')),
        .star false rws, rofI ['a', 'p'], rcharI 'm'])])]

/-- regex `Location[:\s]+([A-Za-z0-9#\s\-]+)`. -/
def rxEmbLocation : RE :=
  rseq [rstr "Location",
    rplus false (.cls (fun c => c == ':' || isPySpace c)),
    .grp 1 (rplus false (.cls (fun c => isAlphaC c || isDigitC c || c == '#'
      || isPySpace c || c == '-')))]

/-- regex `\(.*?\)`. -/
def rxParen : RE := rseq [rchar '(', .star true rDot, rchar ')']

/-- regex `^([A-Z]{2,})\s+([A-Z][a-z]+)$`. -/
def rxLastFirstFull : RE :=
  rseq [.bol, .grp 1 (ratleast 2 (.cls isUpperC)), rplus false rws,
    .grp 2 (.seq (.cls isUpperC) (rplus false (.cls isLowerC))), .eol]

/-- regex `([A-Z]{2,})\s+([A-Z][a-z]+)` (prefix match). -/
def rxLastFirstPre : RE :=
  rseq [.grp 1 (ratleast 2 (.cls isUpperC)), rplus false rws,
    .grp 2 (.seq (.cls isUpperC) (rplus false (.cls isLowerC)))]

/-- regex `^[A-Z][a-z]`. -/
def rxCapLower : RE := rseq [.bol, .cls isUpperC, .cls isLowerC]

/-- The Incident Reports branch of `flush_event` (source lines 475–711);
returns the updated report. -/
def flushIR (buffer0 : Dict) (parsed : Parsed) : Except PyErr Parsed := do
  let sec := "Incident Reports (IR) / Alarms"
  let buffer := if truthy (dget buffer0 "start_date") then
      dset buffer0 "date" (dgetD buffer0 "start_date")
    else dset buffer0 "date" (dgetD buffer0 "date")
  let desc := pyStrip (dgetD buffer "incident_description")
  let cmts := pyStrip (dgetD buffer "incident_comments")
  let parts := (if desc ≠ "" then [pyRStripSet ['.'] desc ++ "."] else []) ++
    (if cmts ≠ "" then [pyRStripSet ['.'] cmts ++ "."] else [])
  let narrative := pyStrip (pyJoin " " parts)
  let vehicleBits :=
    (if truthy (dget buffer "vehicle_description") then
      [pyStrip (dgetD buffer "vehicle_description")] else []) ++
    (let mm := pyStrip (pyJoin " " [pyStrip (dgetD buffer "color"),
        pyStrip (dgetD buffer "make"), pyStrip (dgetD buffer "model")])
     if mm ≠ "" then [mm] else [])
  let narrative := if !vehicleBits.isEmpty then
      narrative ++ " Vehicle described as " ++ pyJoin ", " vehicleBits ++ "."
    else narrative
  let incident_date := pyStrip (dgetD buffer "incident_date")
  let incident_time := pyStrip (dgetD buffer "incident_time")
  let incident_location := pyStrip (dgetD buffer "location")
  let incident_location :=
    if incident_location = "" && (desc ≠ "" || cmts ≠ "") then
      inferLocationIR (pyLower (desc ++ " " ++ cmts))
    else incident_location
  let incident_location :=
    pyStripSet [' ', ',', ':', '-'] (reSplitFirstPre rxLocStop incident_location)
  let buffer :=
    if !truthy (dget buffer "incident_date") then
      match reSearch rxEmbIncidentDate narrative with
      | some (_, _, caps) =>
        let b1 := dset buffer "incident_date" (capGetD (chars narrative) caps 1)
        (match capGet (chars narrative) caps 2 with
         | some t2 => dset b1 "incident_time" (pyStrip t2)
         | none => b1)
      | none => buffer
    else buffer
  let buffer :=
    if !truthy (dget buffer "location") then
      match reSearch rxEmbLocation narrative with
      | some (_, _, caps) =>
        dset buffer "location" (pyStrip (capGetD (chars narrative) caps 1))
      | none => buffer
    else buffer
  let (buffer, incident_location) :=
    if truthy (dget buffer "location") then
      let b1 := dset buffer "location" (format_location_name (dgetD buffer "location"))
      (b1, dgetD b1 "location")
    else (buffer, incident_location)
  let extraInfo : List String :=
    (if incident_date ≠ "" then
      (let ft := if incident_time ≠ "" then formatTime24 incident_time else ""
       if incident_time ≠ "" then
        ["<font color=\x27red\x27>Incident Date: <b>" ++ incident_date ++
          "</b> at <b>" ++ ft ++ "</b></font>"]
       else
        ["<font color=\x27red\x27>Incident Date: <b>" ++ incident_date ++ "</b></font>"])
     else []) ++
    (let finalLocation := if incident_location ≠ "" then incident_location
        else pyStrip (dgetD buffer "location")
     if finalLocation ≠ "" then
      ["<font color=\x27red\x27>Location: <b>" ++ finalLocation ++ "</b></font>"]
     else ["<font color=\x27red\x27>Location: <b>N/A</b></font>"])
  let whoCalled := pyStrip (dgetD buffer "who_called")
  let whoCalled := if whoCalled = "" && truthy (dget buffer "officer") then
      "Officer " ++ pyStrip (dgetD buffer "officer")
    else whoCalled
  let extraInfo :=
    if whoCalled ≠ "" then
      let w := pyStrip (reSub rxWs2 " " whoCalled)
      let w := pyStrip (reSub rxParen "" w)
      let w :=
        match reMatch rxLastFirstFull w with
        | some _ =>
          (match pySplitWs w with
           | [p0, p1] => pyCapitalize p1 ++ " " ++ pyCapitalize p0
           | _ => w)
        | none => w
      let w :=
        if pyStartsWith (pyLower w) "officer " then
          let namePart := pyStrip (sliceFrom w 8)
          match reMatch rxLastFirstPre namePart with
          | some (_, caps) =>
            "Officer " ++ pyCapitalize (capGetD (chars namePart) caps 2) ++ " " ++
              pyCapitalize (capGetD (chars namePart) caps 1)
          | none =>
            "Officer " ++ pyJoin " " ((pySplitWs namePart).map pyCapitalize)
        else w
      extraInfo ++ ["<font color=\x27black\x27>Who Called: <b>" ++ w ++ "</b></font>"]
    else extraInfo
  let extraInfo :=
    if truthy (dget buffer "parties_involved") then
      let p := reSub rxWs2 " " (pyStrip (dgetD buffer "parties_involved"))
      extraInfo ++ ["<font color=\x27black\x27>Parties Involved: <b>" ++ p ++ "</b></font>"]
    else extraInfo
  let extraText := if !extraInfo.isEmpty then
      " (" ++ pyJoin ", " extraInfo ++ ")"
    else ""
  let narrativeClean := pyStrip narrative
  let buffer :=
    if narrativeClean ≠ "" then
      let nc := if (reMatch rxCapLower narrativeClean).isSome then
          pyLower (sliceTo narrativeClean 1) ++ sliceFrom narrativeClean 1
        else narrativeClean
      dset buffer "action" (pyStrip ("reported that " ++ nc) ++ extraText)
    else
      dset buffer "action" ("reported that an incident occurred on site." ++ extraText)
  let buffer := dpop buffer "location"
  let buffer :=
    if !truthy (dget buffer "date") && truthy (dget buffer "incident_date") then
      let t := pyStrip (dgetD buffer "incident_time")
      if t ≠ "" then
        dset buffer "date" (dgetD buffer "incident_date" ++ " " ++ formatTime24 t)
      else
        dset buffer "date" (dgetD buffer "incident_date")
    else buffer
  let evt := build_event_line buffer
  if evt ≠ "" then pappend parsed sec evt else .ok parsed

/-! ## `flush_event` : Elevator Entrapment branch -/

/-- regex `(?i)\b(long\s*)?description\s*of\s*incident\s*:?`. -/
def rxLongDescLead : RE :=
  rseq [.wb, .opt false (.grp 1 (.seq (rstrI "long") (.star false rws))),
    rstrI "description", .star false rws, rstrI "of", .star false rws,
    rstrI "incident", .star false rws, .opt false (rchar ':')]

/-- regex `(?i)-\s*long description of incident.*`. -/
def rxDashLongDesc : RE :=
  rseq [rchar '-', .star false rws, rstrI "long description of incident",
    .star false rDot]

/-- regex `–\s*\(.*long description of incident.*\)` (IGNORECASE). -/
def rxEnDashLongDesc : RE :=
  rseq [rchar '–', .star false rws, rchar '(', .star false rDot,
    rstrI "long description of incident", .star false rDot, rchar ')']

/-- regex `\s*-\s*Long Description of Incident\s*:?\s*` (IGNORECASE). -/
def rxDashLongDescPost : RE :=
  rseq [.star false rws, rchar '-', .star false rws,
    rstrI "Long Description of Incident", .star false rws,
    .opt false (rchar ':'), .star false rws]

/-- regex `–\s*\(.*?\)$` (DOTALL). -/
def rxEnDashParenEnd : RE :=
  rseq [rchar '–', .star false rws, rchar '(', .star true rDotAll, rchar ')', .eol]

/-- regex `(frt\s*elevator\s*\d+|cap\s*\d+|car\s*\d+)` (IGNORECASE). -/
def rxElevatorId : RE :=
  .grp 1 (ralt [
    rseq [rstrI "frt", .star false rws, rstrI "elevator", .star false rws, rplus false rd],
    rseq [rstrI "cap", .star false rws, rplus false rd],
    rseq [rstrI "car", .star false rws, rplus false rd]])

/-- regex `(?i)\breported that\b`. -/
def rxReportedThat : RE := rseq [.wb, rstrI "reported that", .wb]

/-- regex `(?i)\b(photos?|evidence)\b.*`. -/
def rxPhotosEvidence : RE :=
  rseq [.wb, .grp 1 (ralt [.seq (rstrI "photo") (.opt false (rcharI 's')),
    rstrI "evidence"]), .wb, .star false rDot]

/-- regex `(?i)(-?\s*long\s*description\s*of\s*incident\s*:?.*)`. -/
def rxLongDescTail : RE :=
  .grp 1 (rseq [.opt false (rchar '-'), .star false rws, rstrI "long",
    .star false rws, rstrI "description", .star false rws, rstrI "of",
    .star false rws, rstrI "incident", .star false rws, .opt false (rchar ':'),
    .star false rDot])

/-- The Elevator Entrapment branch of `flush_event` (source lines 714–919). -/
def flushElevator (buffer0 : Dict) (parsed : Parsed) : Except PyErr Parsed := do
  let sec := "Elevator Entrapment Incidents"
  let buffer := dpop (dpop buffer0 "start_date") "date"
  -- after the two pops `buffer.get("start_date")` is necessarily falsy,
  -- so only the `else` arm of the source's date-forcing block is live
  let buffer := dset buffer "date" (dgetD buffer "date")
  let desc := pyStrip (dgetD buffer "incident_description")
  let action := pyStrip (dgetD buffer "action")
  let location := pyStrip (dgetD buffer "location")
  let company := pyStrip (if truthy (dget buffer "company") then dgetD buffer "company"
    else "KONE Elevator Company")
  let incident_date := pyStrip (dgetD buffer "incident_date")
  let location :=
    if location = "" && (desc ≠ "" || action ≠ "") then
      inferLocationWith rxShortCode (pyLower (if desc ≠ "" then desc else action))
    else location
  let narrative := if desc ≠ "" then desc else action
  let narrative := pyStrip (reSub rxLongDescLead "" narrative)
  let narrative := pyStrip (reSub rxDashLongDesc "" narrative)
  let narrative := pyStrip (reSub rxEnDashLongDesc "" narrative)
  let elevatorId :=
    match reSearch rxElevatorId narrative with
    | some (st, en, _) => pyStrip (matchedText (chars narrative) st en)
    | none => ""
  let buffer := dset buffer "action"
    ("responded to an elevator entrapment " ++
      (if elevatorId ≠ "" then "in " ++ elevatorId
       else "at " ++ (if location ≠ "" then location else "the site")) ++
      ", confirmed the occupant’s safety while awaiting technician arrival, " ++
      "and informed " ++ company ++ " for immediate service response and release.")
  let buffer := if narrative ≠ "" then
      dset buffer "action" (pyRStripSet ['.'] (pyStrip narrative))
    else buffer
  let buffer :=
    if narrative ≠ "" then
      let narrativeClean := if strLen narrative > 1 then
          pyLower (sliceTo narrative 1) ++ sliceFrom narrative 1
        else narrative
      if !reTest rxReportedThat narrativeClean then
        dset buffer "action" ("reported that " ++ narrativeClean)
      else buffer
    else
      dset buffer "action" "reported that an incident occurred on site."
  let buffer :=
    if !truthy (dget buffer "date") && truthy (dget buffer "incident_date") then
      let t := pyStrip (dgetD buffer "incident_time")
      if t ≠ "" then
        dset buffer "date" (dgetD buffer "incident_date" ++ " " ++ formatTime24 t)
      else
        dset buffer "date" (dgetD buffer "incident_date")
    else buffer
  let evt := build_event_line buffer
  if evt ≠ "" then
    let evt := pyStrip (reSubF rxDashLongDescPost (fun _ _ _ _ => " ") evt)
    let evt := pyStrip (reSub rxEnDashLongDesc "" evt)
    let evt := pyStrip (reSub rxEnDashParenEnd "" evt)
    let locationClean := pyStrip (reSub rxLongDescTail "" location)
    let locationClean := if locationClean ≠ "" then format_location_name locationClean
      else locationClean
    let incident_time := pyStrip (dgetD buffer "incident_time")
    let formattedTime := if incident_time ≠ "" then formatTime24 incident_time else ""
    let extraInfo : List String :=
      (if incident_date ≠ "" && formattedTime ≠ "" then
        ["<font color=\x27red\x27>Incident Date: <b>" ++ incident_date ++
          "</b> at <b>" ++ formattedTime ++ "</b></font>"]
       else if incident_date ≠ "" then
        ["<font color=\x27red\x27>Incident Date: <b>" ++ incident_date ++ "</b></font>"]
       else ["<font color=\x27red\x27>Incident Date: <b>N/A</b></font>"]) ++
      (let finalLocation := if locationClean ≠ "" then locationClean else location
       if finalLocation ≠ "" then
        ["<font color=\x27red\x27>Location: <b>" ++ finalLocation ++ "</b></font>"]
       else ["<font color=\x27red\x27>Location: <b>N/A</b></font>"]) ++
      (let partiesRaw := pyStrip (dgetD buffer "parties_involved")
       if partiesRaw ≠ "" then
        let pc := pyStrip (reSub rxPhotosEvidence "" partiesRaw)
        let pc := reSub rxWs2 " " pc
        ["<font color=\x27black\x27>Parties Involved: <b>" ++ pc ++ "</b></font>"]
       else [])
    let extraText := " (" ++ pyJoin ", " extraInfo ++ ")"
    let evt := pyRStripSet ['.'] evt ++ extraText
    pappend parsed sec evt
  else .ok parsed

/-! ## `flush_event` : Work Orders branch -/

/-- Python `s.splitlines()` (for text whose only terminators are `\n`). -/
def pySplitLines (s : String) : List String :=
  if s = "" then [] else
  let pieces := pySplitSep "\n" s
  match pieces.getLast? with
  | some "" => pieces.dropLast
  | _ => pieces

/-- regex `([A-Za-z])-(\s*[A-Za-z])`, substituted by `\1\n-\2`. -/
def rxLetterDashLetter : RE :=
  rseq [.grp 1 (.cls isAlphaC), rchar '-',
    .grp 2 (.seq (.star false rws) (.cls isAlphaC))]

/-- regex `(Order)(Start\s*Date)` (IGNORECASE), substituted by `\1\n\2`. -/
def rxOrderStartDate : RE :=
  rseq [.grp 1 (rstrI "Order"),
    .grp 2 (rseq [rstrI "Start", .star false rws, rstrI "Date"])]

/-- regex `-\s*upload\s*pictures?\s*:` (IGNORECASE). -/
def rxUploadPicColon : RE :=
  rseq [rchar '-', .star false rws, rstrI "upload", .star false rws,
    rstrI "picture", .opt false (rcharI 's'), .star false rws, rchar ':']

/-- regex `-\s*description\s*:` (IGNORECASE). -/
def rxDashDescColon : RE :=
  rseq [rchar '-', .star false rws, rstrI "description", .star false rws, rchar ':']

/-- regex `-\s*work\s*order\s*placed\s*on\s*building\s*engines` (IGNORECASE). -/
def rxWOPlacedBE : RE :=
  rseq [rchar '-', .star false rws, rstrI "work", .star false rws, rstrI "order",
    .star false rws, rstrI "placed", .star false rws, rstrI "on", .star false rws,
    rstrI "building", .star false rws, rstrI "engines"]

/-- regex `^-+\s*description\s*:\s*` (IGNORECASE). -/
def rxDashDescLead : RE :=
  rseq [.bol, rplus false (rchar '-'), .star false rws, rstrI "description",
    .star false rws, rchar ':', .star false rws]

/-- regex `REPORT\s*-\s*LOGBOOK\s*PDF` (IGNORECASE). -/
def rxReportLogbookPdf : RE :=
  rseq [rstrI "REPORT", .star false rws, rchar '-', .star false rws,
    rstrI "LOGBOOK", .star false rws, rstrI "PDF"]

/-- regex `^\d{1,2}/\d{1,2}/\d{4}\s+\d{1,2}:\d{2}`. -/
def rxFooterTs : RE :=
  rseq [.bol, rrange 1 2 rd, rchar '/', rrange 1 2 rd, rchar '/', rtimes 4 rd,
    rplus false rws, rrange 1 2 rd, rchar ':', rtimes 2 rd]

/-- regex `\b300\s+Pine\s+Street\b` (IGNORECASE). -/
def rx300Pine : RE :=
  rseq [.wb, rstr "300", rplus false rws, rstrI "Pine", rplus false rws,
    rstrI "Street", .wb]

/-- regex `\s*\.\s*\.?`, substituted by `.`. -/
def rxDotDot : RE :=
  rseq [.star false rws, rchar '.', .star false rws, .opt false (rchar '.')]

/-- regex `\b(Cedar Grove|ABM|FedEx|UPS|SPS|Ryder|DHL|Old Dominion|USPS|CORT|Corti|Canteen)\b`
(IGNORECASE). -/
def rxVendor : RE :=
  rseq [.wb, .grp 1 (ralt [rstrI "Cedar Grove", rstrI "ABM", rstrI "FedEx",
    rstrI "UPS", rstrI "SPS", rstrI "Ryder", rstrI "DHL", rstrI "Old Dominion",
    rstrI "USPS", rstrI "CORT", rstrI "Corti", rstrI "Canteen"]), .wb]

/-- regex `\(Location\s*:` (IGNORECASE). -/
def rxLocColonParen : RE :=
  rseq [rchar '(', rstrI "Location", .star false rws, rchar ':']

/-- regex `\s*([APap][Mm])`, substituted by a space plus the upper-cased group. -/
def rxWsAmPm : RE :=
  rseq [.star false rws, .grp 1 (.seq (rofI ['a', 'p']) (rcharI 'm'))]

/-- regex `(\d{4})`, substituted by its last two digits. -/
def rxYear4 : RE := .grp 1 (rtimes 4 rd)

/-- The `Start Date` normalization used by the Work Orders (and Key Service)
branches: 4-digit years shortened, AM/PM normalized with one leading space. -/
def normalizeStartDt (sd : String) : String :=
  let s1 := reSubF rxYear4 (fun s _ _ caps => sliceLast (capGetD s caps 1) 2) (pyStrip sd)
  reSubF rxWsAmPm (fun s _ _ caps => " " ++ pyUpper (capGetD s caps 1)) s1

/-- The Work Orders branch of `flush_event` (source lines 923–1100). -/
def flushWorkOrders (lines : List String) (buffer0 : Dict) (parsed : Parsed) :
    Except PyErr Parsed := do
  let sec := "Work Orders"
  let buffer := dpop buffer0 "description"
  let buffer :=
    if truthy (dget buffer "start_date") then
      let b := dset buffer "date" (normalizeStartDt (dgetD buffer "start_date"))
      dset b "timestamp_locked" "True"
    else dset buffer "date" (dgetD buffer "date")
  let normalizedLines := lines.flatMap (fun ln =>
    let l1 := reSubF rxLetterDashLetter
      (fun s _ _ caps => capGetD s caps 1 ++ "\n-" ++ capGetD s caps 2) ln
    let l2 := reSubF rxOrderStartDate
      (fun s _ _ caps => capGetD s caps 1 ++ "\n" ++ capGetD s caps 2) l1
    pySplitLines l2)
  -- locate "- Upload picture :", then "- Description :", then
  -- "- Work Order Placed on Building Engines" (stopping at the latter)
  let idxs := (normalizedLines.enum).foldl
    (fun (st : Option Nat × Option Nat × Option Nat × Bool) il =>
      let (upload, desc, placed, stopped) := st
      if stopped then st else
      let (idx, l) := il
      let upload := if reTest rxUploadPicColon l then some idx else upload
      let desc := if upload.isSome && reTest rxDashDescColon l then some idx else desc
      if reTest rxWOPlacedBE l then (upload, desc, some idx, true)
      else (upload, desc, placed, false))
    (none, none, none, false)
  let descIdx := idxs.2.1
  let placedIdx := idxs.2.2.1
  let description :=
    match descIdx, placedIdx with
    | some di, some pi =>
      -- Python truthiness: `placed_idx and placed_idx > desc_idx`
      if pi ≠ 0 && pi > di then
        let between := (normalizedLines.drop di).take (pi - di)
        let valLines := between.foldl (fun acc nxt =>
          let s := pyStrip nxt
          if s = "" then acc else
          let s := if reTest rxDashDescLead s then reSub rxDashDescLead "" s else s
          if reTest rxReportLogbookPdf s then acc
          else if (reMatch rxFooterTs s).isSome then acc
          else if reTest rx300Pine s then acc
          else if s ≠ "" then acc ++ [s] else acc) []
        let d := pyStrip (pyJoin " " valLines)
        let d := reSub rxDotDot "." d
        pyStrip (reSub rxWsRun " " d)
      else ""
    | _, _ => ""
  let location := pyStrip (dgetD buffer "location")
  let actionRaw := pyLower (dgetD buffer "action")
  let location :=
    if location = "" && description ≠ "" then
      let descText := pyLower description
      let loc :=
        match reSearch rxAtLoc descText with
        | some (_, _, caps) =>
          pyStripSet [' ', '.', ',', '-'] (capGetD (chars descText) caps 1)
        | none => ""
      let loc :=
        if loc = "" then
          -- the source searches the *unlowered* `description` here
          match reSearch rxShortCode description with
          | some (_, _, caps) => pyStrip (capGetD (chars description) caps 1)
          | none => ""
        else loc
      let loc :=
        if loc = "" && strIn "floor" descText then
          match reSearch rxOnTheFloor descText with
          | some (_, _, caps) => pyStrip (capGetD (chars descText) caps 1)
          | none => ""
        else loc
      normalizeInferredLocation loc
    else location
  let location := if location ≠ "" then format_location_name location else location
  let placedOnBe :=
    match buffer.find? (fun kv =>
      strIn "work order placed on building engines" (pyLower kv.1) ||
      strIn "work order placed on building engines" (pyLower kv.2)) with
    | some kv => strIn "yes" (pyLower kv.2)
    | none => false
  if ["new emails received", "work orders communicated", "important info passed",
      "shift"].any (fun x => strIn x actionRaw) then
    .ok parsed
  else if description = "" && !placedOnBe then
    .ok parsed
  else
    let description := reSub rxDotDot "." description
    let description := pyStripSet ['.', ' '] (pyStrip (reSub rxWsRun " " description))
    let vendorName :=
      match reSearch rxVendor description with
      | some (_, _, caps) => capGetD (chars description) caps 1
      | none => ""
    let actionText :=
      if description ≠ "" then
        "documented a work order indicating that " ++
          pyLower (sliceTo description 1) ++ sliceFrom description 1
      else "documented a work order request at the site"
    let actionText := if vendorName ≠ "" then
        actionText ++ ", and notified " ++ vendorName ++ " for service"
      else actionText
    let actionText := if placedOnBe then
        actionText ++ ". <font color=\x27green\x27>Work order placed on Building Engines.</font>"
      else
        actionText ++ ". <font color=\x27red\x27>Pending submission to Building Engines.</font>"
    let actionText :=
      if location ≠ "" && !reTest rxLocColonParen actionText then
        actionText ++ " – <font color=\x27red\x27>(Location: <b>" ++ location ++ "</b>)</font>"
      else actionText
    let buffer := dset buffer "action" (pyStrip actionText)
    let buffer := dset buffer "company" ""
    let buffer := if dmem buffer "location" then
        dset (dpop buffer "location") "location_for_display" (dgetD buffer "location")
      else buffer
    let evt := build_event_line buffer
    if evt ≠ "" then pappend parsed sec evt else .ok parsed

/-! ## `flush_event` : Property Damage branch -/

/-- The Property Damage branch of `flush_event` (source lines 1106–1151). -/
def flushPropertyDamage (buffer0 : Dict) (parsed : Parsed) : Except PyErr Parsed := do
  let sec := "Property Damage"
  let action := pyStrip (dgetD buffer0 "action")
  let location := pyStrip (dgetD buffer0 "location")
  let company := pyStrip (dgetD buffer0 "company")
  let lower := pyLower action
  let locOrSite := if location ≠ "" then location else "the site"
  let newAction :=
    if ["hit", "struck", "collided", "impact", "crash", "bump"].any
        (fun k => strIn k lower) then
      "reported property damage at " ++ locOrSite ++ " after impact involving " ++
        (if company ≠ "" then company else "a vehicle") ++ ", noting " ++ action
    else if ["broken", "cracked", "shattered", "smashed", "glass", "window"].any
        (fun k => strIn k lower) then
      "reported property damage involving glass or structural breakage at " ++
        locOrSite ++ ", with details indicating " ++ action
    else if ["bent", "dented", "warped", "lock", "frame", "gate", "door"].any
        (fun k => strIn k lower) then
      "reported property damage at " ++ locOrSite ++
        ", describing physical issues such as " ++ action
    else if ["burn", "scorch", "fire", "heat"].any (fun k => strIn k lower) then
      "reported property damage related to fire or heat exposure at " ++ locOrSite ++
        ", with details noting " ++ action
    else if ["leak", "flood", "water", "spill"].any (fun k => strIn k lower) then
      "reported property damage associated with water intrusion at " ++ locOrSite ++
        ", with details noting " ++ action
    else
      "reported property damage at " ++ locOrSite ++ ", with details noting " ++ action
  let buffer := dset buffer0 "action" newAction
  let evt := build_event_line buffer
  if evt ≠ "" then pappend parsed sec evt else .ok parsed

/-! ## `flush_event` : Key Service branch -/

/-- regex `(\bthe\s+)?\b(<company>|<first word>)\b(\s+the\b)?(\s+doors?\b)?`
(IGNORECASE), with the company name taken literally (`re.escape`). -/
def rxCompanyClean (company firstWord : String) : RE :=
  rseq [.opt false (.grp 1 (rseq [.wb, rstrI "the", rplus false rws])),
    .wb, .grp 2 (ralt [rstrI company, rstrI firstWord]), .wb,
    .opt false (.grp 3 (rseq [rplus false rws, rstrI "the", .wb])),
    .opt false (.grp 4 (rseq [rplus false rws, rstrI "door",
      .opt false (rcharI 's'), .wb]))]

/-- regex `\bthe\s+the\b` (IGNORECASE). -/
def rxTheThe : RE := rseq [.wb, rstrI "the", rplus false rws, rstrI "the", .wb]

/-- regex `\bdoors\s+doors\b` (IGNORECASE). -/
def rxDoorsDoors : RE := rseq [.wb, rstrI "doors", rplus false rws, rstrI "doors", .wb]

/-- regex `\bthe\s*$` (IGNORECASE). -/
def rxTheEnd : RE := rseq [.wb, rstrI "the", .star false rws, .eol]

/-- regex `^[A-Z][a-z]+\b`. -/
def rxCapFirstWord : RE :=
  rseq [.bol, .cls isUpperC, rplus false (.cls isLowerC), .wb]

/-- regex `gave\s+access\s+to\s+([A-Za-z\s]+?)(?:\s+for\s+([A-Za-z\s]+))?(?:\s|$)`
(IGNORECASE). -/
def rxGaveAccess : RE :=
  rseq [rstrI "gave", rplus false rws, rstrI "access", rplus false rws,
    rstrI "to", rplus false rws,
    .grp 1 (rplus true (.cls (fun c => isAlphaC c || isPySpace c))),
    .opt false (rseq [rplus false rws, rstrI "for", rplus false rws,
      .grp 2 (rplus false (.cls (fun c => isAlphaC c || isPySpace c)))]),
    ralt [rws, .eol]]

/-- regex `\b(issued|provided|handed)\b` (IGNORECASE). -/
def rxIssuedWords : RE :=
  rseq [.wb, .grp 1 (ralt [rstrI "issued", rstrI "provided", rstrI "handed"]), .wb]

/-- regex `\b(key\d*|badge\d*|key|badge|keys|badges)\b` (IGNORECASE). -/
def rxItemsFind : RE :=
  rseq [.wb, .grp 1 (ralt [.seq (rstrI "key") (rplus false rd),
    .seq (rstrI "badge") (rplus false rd), rstrI "key", rstrI "badge",
    rstrI "keys", rstrI "badges"]), .wb]

/-- regex `\bfor\s+([A-Za-z\s\-\(\)]+)` (IGNORECASE). -/
def rxForRecipient : RE :=
  rseq [.wb, rstrI "for", rplus false rws,
    .grp 1 (rplus false (.cls (fun c => isAlphaC c || isPySpace c || c == '-'
      || c == '(' || c == ')')))]

/-- regex `\bfrom\s+([A-Za-z\s\-\(\)]+)` (IGNORECASE). -/
def rxFromRecipient : RE :=
  rseq [.wb, rstrI "from", rplus false rws,
    .grp 1 (rplus false (.cls (fun c => isAlphaC c || isPySpace c || c == '-'
      || c == '(' || c == ')')))]

/-- regex `\(authorized by\s*([A-Za-z\s]+)\)` (IGNORECASE). -/
def rxAuthorizedBy : RE :=
  rseq [rchar '(', rstrI "authorized by", .star false rws,
    .grp 1 (rplus false (.cls (fun c => isAlphaC c || isPySpace c))), rchar ')']

/-- regex `\(([^)]+)\)$`. -/
def rxParenAtEnd : RE :=
  rseq [rchar '(', .grp 1 (rplus false (.cls (fun c => c != ')'))), rchar ')', .eol]

/-- regex `\b(returned|collected|retrieved|received back)\b` (IGNORECASE). -/
def rxReturnedWords : RE :=
  rseq [.wb, .grp 1 (ralt [rstrI "returned", rstrI "collected", rstrI "retrieved",
    rstrI "received back"]), .wb]

/-- regex `\b(grant|escort|coordinate|assist|verify|monitor|support|supervise|respond)\b`
(IGNORECASE). -/
def rxGrantWords : RE :=
  rseq [.wb, .grp 1 (ralt [rstrI "grant", rstrI "escort", rstrI "coordinate",
    rstrI "assist", rstrI "verify", rstrI "monitor", rstrI "support",
    rstrI "supervise", rstrI "respond"]), .wb]

/-- regex `ensure|authorized|access` (IGNORECASE). -/
def rxEnsureWords : RE := ralt [rstrI "ensure", rstrI "authorized", rstrI "access"]

/-- regex `\b(access|entry|visit|contractor|vendor|staff)\b` (IGNORECASE). -/
def rxAccessWords : RE :=
  rseq [.wb, .grp 1 (ralt [rstrI "access", rstrI "entry", rstrI "visit",
    rstrI "contractor", rstrI "vendor", rstrI "staff"]), .wb]

/-- regex `verify|authorization|security` (IGNORECASE). -/
def rxVerifyWords : RE :=
  ralt [rstrI "verify", rstrI "authorization", rstrI "security"]

/-- regex `^([A-Z])` substituted by its lower-case. -/
def rxLeadCap : RE := rseq [.bol, .grp 1 (.cls isUpperC)]

/-- Deduplicate keeping first-occurrence order
(`sorted(set(item_list), key=item_list.index)`). -/
def dedupeKeepFirst (l : List String) : List String :=
  l.foldl (fun acc x => if acc.contains x then acc else acc ++ [x]) []

/-- The Key Service branch of `flush_event` (source lines 1154–1425). -/
def flushKeyService (buffer0 : Dict) (parsed : Parsed) : Except PyErr Parsed := do
  let sec := "Key Service (Lock & Unlock)"
  let rawAction := clean_shift_noise (dgetD buffer0 "action")
  let company := pyStrip (dgetD buffer0 "company")
  let location := pyStrip (dgetD buffer0 "location")
  let company :=
    if company = "" then
      if strIn "pine" (pyLower location) || strIn "3rd" (pyLower location) then
        "Victrola Coffee"
      else if strIn "4th" (pyLower location) || strIn "uniqlo" (pyLower location) then
        "UNIQLO"
      else company
    else company
  if pyStrip rawAction = "" then .ok parsed
  else
    let action := to_past_tense (pyStrip rawAction)
    let action :=
      if company ≠ "" then
        let firstWord := ((pySplitWs company).headD "")
        reSub (rxCompanyClean company firstWord) "" action
      else action
    let action := reSub rxTheThe "the" action
    let action := reSub rxDoorsDoors "doors" action
    let action := reSub rxTheEnd "" action
    let action := pyStrip (reSub rxWs2 " " action)
    let action :=
      if (reMatch rxCapFirstWord action).isSome then
        let firstWord := pyLower ((pySplitWs action).headD "")
        if ["secured", "locked", "unlocked", "granted", "provided", "issued",
            "returned", "escorted", "assisted", "facilitated", "supervised",
            "verified", "ensured", "conducted", "closed"].contains firstWord then
          pyLower (sliceTo action 1) ++ sliceFrom action 1
        else action
      else action
    let lowerA := pyLower action
    let newAction :=
      if strIn "unlock" lowerA || strIn "gave access" lowerA
          || strIn "give access" lowerA then
        let (recipient, requester) :=
          match reSearch rxGaveAccess action with
          | some (_, _, caps) =>
            (pyStrip (capGetD (chars action) caps 1),
             match capGet (chars action) caps 2 with
             | some r => pyStrip r
             | none => "")
          | none => ("", "")
        if strIn "delivery" lowerA then
          "conducted key service and unlocked the " ++ company ++
            " doors, granting access to delivery personnel for scheduled drop-off"
        else if recipient ≠ "" && requester ≠ "" then
          "conducted key service and granted access to " ++ recipient ++ " for " ++
            requester ++ " through the " ++
            (if company ≠ "" then company else "designated area") ++ " doors"
        else if recipient ≠ "" then
          "conducted key service and granted access to " ++ recipient ++
            " through the " ++
            (if company ≠ "" then company else "designated area") ++ " doors"
        else if strIn "request" lowerA then
          let deliveryItem :=
            match ["pastry", "supplies", "equipment", "package", "shipment",
              "delivery"].find? (fun w => strIn w lowerA) with
            | some w => " " ++ w
            | none => ""
          "conducted key service in response to a request from " ++
            (if company ≠ "" then company else "delivery personnel") ++
            " and unlocked the " ++ company ++
            " doors, granting secure access for the scheduled" ++ deliveryItem ++
            " delivery"
        else if strIn "customer" lowerA then
          "conducted key service and unlocked the " ++ company ++
            " doors, providing access to customers during business hours"
        else if strIn "event" lowerA || strIn "contractor" lowerA then
          "conducted key service and unlocked the " ++
            (if company ≠ "" then company else "designated area") ++
            " doors, facilitating access for event staff or contractors"
        else
          "conducted key service and unlocked the " ++ company ++
            " doors, ensuring authorized access for scheduled activity"
      else if ["lock", "secure", "close", "closed", "closing"].any
          (fun w => strIn w lowerA) then
        if ["close", "closed", "closing", "end of shift", "finished work"].any
            (fun w => strIn w lowerA) then
          "conducted key service and " ++ action ++ " the " ++ company ++
            " doors, securing the premises at the end of operations"
        else if strIn "after" lowerA || strIn "finished" lowerA then
          "conducted key service and " ++ action ++ " the " ++ company ++
            " doors, securing the area after completion of scheduled work"
        else
          "conducted key service and " ++ action ++ " the " ++ company ++
            " doors, ensuring proper security of the location"
      else if reTest rxIssuedWords action then
        let itemList := (reFindAll rxItemsFind action).map pyLower
        let uniqueItems := dedupeKeepFirst itemList
        let itemListStr :=
          if uniqueItems.contains "key" && uniqueItems.contains "badge" then
            "a key and a badge"
          else if uniqueItems.any (fun i => pyEndsWith i "s") then
            pyJoin " and " uniqueItems
          else
            let j := pyJoin " and "
              ((uniqueItems.filter (fun i => pyStrip i ≠ "")).map
                (fun i => smart_item_phrase (pyStrip i)))
            if j ≠ "" then j else "a key"
        let recipient :=
          match reSearch rxForRecipient action with
          | some (_, _, caps) => pyStrip (capGetD (chars action) caps 1)
          | none => ""
        let authorized :=
          match reSearch rxAuthorizedBy action with
          | some (_, _, caps) => pyStrip (capGetD (chars action) caps 1)
          | none => ""
        let locM :=
          match reSearch rxParenAtEnd action with
          | some (_, _, caps) => pyStrip (capGetD (chars action) caps 1)
          | none => ""
        let textParts := ["conducted key service and provided " ++ itemListStr] ++
          (if recipient ≠ "" then ["to " ++ recipient] else []) ++
          (if authorized ≠ "" then ["(authorized by " ++ authorized ++ ")"] else []) ++
          (if locM ≠ "" then ["at " ++ locM] else []) ++
          ["ensuring controlled access."]
        pyStrip (pyJoin " " textParts)
      else if reTest rxReturnedWords action then
        let itemList := (reFindAll rxItemsFind action).map pyLower
        let uniqueItems := dedupeKeepFirst itemList
        let itemListStr :=
          if uniqueItems.contains "key" && uniqueItems.contains "badge" then
            "a key and a badge"
          else if uniqueItems.any (fun i => pyEndsWith i "s") then
            pyJoin " and " uniqueItems
          else
            let j := pyJoin " and "
              ((uniqueItems.filter (fun i => pyStrip i ≠ "")).map
                (fun i => smart_item_phrase (pyStrip i)))
            if j ≠ "" then j else "a key"
        let recipient :=
          match reSearch rxFromRecipient action with
          | some (_, _, caps) => pyStrip (capGetD (chars action) caps 1)
          | none => ""
        let authorized :=
          match reSearch rxAuthorizedBy action with
          | some (_, _, caps) => pyStrip (capGetD (chars action) caps 1)
          | none => ""
        let locM :=
          match reSearch rxParenAtEnd action with
          | some (_, _, caps) => pyStrip (capGetD (chars action) caps 1)
          | none => ""
        let textParts := ["conducted key service and processed the return of " ++ itemListStr] ++
          (if recipient ≠ "" then ["from " ++ recipient] else []) ++
          (if authorized ≠ "" then ["(authorized by " ++ authorized ++ ")"] else []) ++
          (if locM ≠ "" then ["at " ++ locM] else []) ++
          ["confirming full accountability and reinventory."]
        pyStrip (pyJoin " " textParts)
      else
        let cleanedAction := pyRStripSet ['.'] (pyStrip action)
        let cleanedAction := reSub rxTheEnd "" cleanedAction
        let cleanedAction :=
          reSubF rxLeadCap (fun s _ _ caps => pyLower (capGetD s caps 1)) cleanedAction
        if reTest rxGrantWords cleanedAction then
          pyStrip ("conducted key service and " ++ to_past_tense cleanedAction ++ ". " ++
            (if !reTest rxEnsureWords cleanedAction then
              "Ensured proper coor+dination and authorized access" else ""))
        else if reTest rxAccessWords cleanedAction then
          pyStrip ("conducted key service and " ++ to_past_tense cleanedAction ++ ". " ++
            (if !reTest rxVerifyWords cleanedAction then
              "Verified authorization and maintained secure access control" else ""))
        else
          pyStrip ("conducted key service and " ++ to_past_tense cleanedAction ++ ". " ++
            "Ensured safety and authorized access during operation.")
    let newAction := reSub rxTheThe "the" newAction
    let newAction := reSub rxDoorsDoors "doors" newAction
    let buffer := dset buffer0 "action" newAction
    let buffer :=
      if truthy (dget buffer "location") then
        dset buffer "location"
          ("Location: <b>" ++ format_location_name (dgetD buffer "location") ++ "</b>")
      else buffer
    let evt := build_event_line buffer
    if evt ≠ "" then pappend parsed sec (clean_shift_noise evt) else .ok parsed

/-! ## `flush_event` : Loading Dock branch -/

/-- The Loading Dock branch of `flush_event` (source lines 1428–1459). -/
def flushLoadingDock (buffer0 : Dict) (parsed : Parsed) : Except PyErr Parsed := do
  let sec := "Loading Dock Access (Lock & Unlock)"
  let action := pyStrip (dgetD buffer0 "action")
  let company := pyStrip (dgetD buffer0 "company")
  let buffer :=
    if action ≠ "" then
      let action := to_past_tense action
      if strIn "unlock" (pyLower action) || strIn "open" (pyLower action) then
        dset buffer0 "action"
          ("was dispatched to the loading dock in response to delivery needs and unlocked the gate for "
            ++ company ++ ", granting authorized access and facilitating scheduled operations.")
      else if strIn "lock" (pyLower action) || strIn "secure" (pyLower action)
          || strIn "close" (pyLower action) then
        dset buffer0 "action"
          ("was dispatched to the loading dock and secured the gate after " ++ company ++
            "\x27s delivery, maintaining site safety and compliance.")
      else
        dset buffer0 "action"
          ("was dispatched to the loading dock and " ++ action ++ " for " ++ company)
    else buffer0
  let evt := build_event_line buffer
  if evt ≠ "" then pappend parsed sec evt else .ok parsed

/-! ## `flush_event` : Fire Panel branch -/

/-- regex `(\d{1,2}:\d{2}\s*[AP]M|\d{3,4}\s*[AP]M|\d{1,2}\s*[AP]M)` (IGNORECASE). -/
def rxTimeAny : RE :=
  .grp 1 (ralt [
    rseq [rrange 1 2 rd, rchar ':', rtimes 2 rd, .star false rws, rofI ['a', 'p'], rcharI 'm'],
    rseq [rrange 3 4 rd, .star false rws, rofI ['a', 'p'], rcharI 'm'],
    rseq [rrange 1 2 rd, .star false rws, rofI ['a', 'p'], rcharI 'm']])

/-- regex `^\d{3,4}[AP]M$` (on the upper-cased compact form). -/
def rx34AmPm : RE := rseq [.bol, rrange 3 4 rd, rof ['A', 'P'], rchar 'M', .eol]

/-- regex `^\d{1,2}[AP]M$`. -/
def rx12AmPm : RE := rseq [.bol, rrange 1 2 rd, rof ['A', 'P'], rchar 'M', .eol]

/-- regex `[AP]M`. -/
def rxAmPmTok : RE := rseq [rof ['A', 'P'], rchar 'M']

/-- The `hold_until` time extraction shared by the Fire Panel and AES
branches (source lines 1487–1506 / 1590–1609). -/
def extractHoldUntil (action : String) : String :=
  match reSearch rxTimeAny action with
  | some (_, _, caps) =>
    let raw := pyReplace (pyUpper (capGetD (chars action) caps 1)) " " ""
    if (reMatch rx34AmPm raw).isSome then
      let digits := reSub rxAmPmTok "" raw
      let am := if strIn "A" raw then "AM" else "PM"
      let digits := if strLen digits == 3 then "0" ++ digits else digits
      sliceTo digits 2 ++ ":" ++ sliceFrom digits 2 ++ " " ++ am
    else if (reMatch rx12AmPm raw).isSome then
      pyZfill (sliceTo raw (strLen raw - 2)) 2 ++ ":00 " ++ sliceLast raw 2
    else raw
  | none => ""

/-- The Fire Panel branch of `flush_event` (source lines 1462–1560). -/
def flushFirePanel (buffer0 : Dict) (parsed : Parsed) : Except PyErr Parsed := do
  let sec := "Fire Panel Bypass/Online"
  let action := pyStrip (dgetD buffer0 "action")
  let company := pyStrip (dgetD buffer0 "company")
  let lower := pyLower action
  let holdTypes :=
    (if strIn "full" lower then ["full hold"] else []) ++
    (if strIn "supervisory" lower then ["supervisory hold"] else []) ++
    (if strIn "trouble" lower then ["trouble hold"] else [])
  let holdTypes :=
    if holdTypes.isEmpty && (strIn "hold" lower || strIn "extend" lower
        || strIn "bypass" lower || strIn "put" lower) then
      ["supervisory hold"]
    else holdTypes
  let holdTypeStr :=
    if strIn "supervisory" lower && strIn "trouble" lower then
      "supervisory and trouble hold"
    else if !holdTypes.isEmpty then pyJoin " and " holdTypes
    else "system hold"
  let holdUntil := extractHoldUntil action
  let coordination := " in coordination with " ++
    (if company ≠ "" then company else "the vendor")
  let untilPart := if holdUntil ≠ "" then " until " ++ holdUntil
    else " until the scheduled time"
  let newAction :=
    if strIn "extend" lower || strIn "extended" lower then
      "conducted fire panel operations and extended the " ++ holdTypeStr ++
        untilPart ++ coordination
    else if strIn "hold" lower || strIn "bypass" lower || strIn "put" lower
        || strIn "place" lower then
      "conducted fire panel operations and put the system on " ++ holdTypeStr ++
        untilPart ++ coordination
    else if ["restore", "restored", "back online", "bring online", "brought online",
        "online", "remove", "removed"].any (fun x => strIn x lower) then
      if strIn "full" lower then
        "conducted fire panel operations and restored the system from full hold" ++
          coordination
      else if strIn "supervisory" lower && strIn "trouble" lower then
        "conducted fire panel operations and restored the system from supervisory and trouble hold"
          ++ coordination
      else if strIn "supervisory" lower then
        "conducted fire panel operations and restored the system from supervisory hold"
          ++ coordination
      else if strIn "trouble" lower then
        "conducted fire panel operations and restored the system from trouble hold" ++
          coordination
      else
        "conducted fire panel operations and restored the system online" ++ coordination
    else
      "conducted fire panel operations and extended the " ++ holdTypeStr ++
        untilPart ++ coordination
  let buffer := dset buffer0 "action" newAction
  let evt := build_event_line buffer
  if evt ≠ "" then pappend parsed sec evt else .ok parsed

/-! ## `flush_event` : AES Phone Calls branch -/

/-- The AES Phone Calls branch of `flush_event` (source lines 1563–1640). -/
def flushAES (buffer0 : Dict) (parsed : Parsed) : Except PyErr Parsed := do
  let sec := "AES Phone Calls"
  let action := pyStrip (dgetD buffer0 "action")
  let company := pyStrip (dgetD buffer0 "company")
  let operatorName := pyStrip (if truthy (dget buffer0 "operator_name")
    then dgetD buffer0 "operator_name" else "N/A")
  let operatorNumber := pyStrip (if truthy (dget buffer0 "operator_number")
    then dgetD buffer0 "operator_number" else "N/A")
  let lower := pyLower action
  let hasSupervisory := strIn "supervisory" lower
  let hasTrouble := strIn "trouble" lower
  let hasFull := strIn "full" lower
  let holdTypeStr :=
    if hasFull then "full hold"
    else if hasSupervisory && hasTrouble then "supervisory and trouble hold"
    else if hasSupervisory then "supervisory hold"
    else if hasTrouble then "trouble hold"
    else if ["hold", "extend", "test"].any (fun x => strIn x lower) then
      "supervisory hold"
    else "system hold"
  let holdUntil := extractHoldUntil action
  let untilPart := if holdUntil ≠ "" then " until " ++ holdUntil else ""
  let coordination := " in coordination with " ++
    (if company ≠ "" then company else "the vendor") ++ " "
  let newAction :=
    if strIn "extend" lower then
      "called the AES Alarm Monitoring and extended the " ++ holdTypeStr ++
        untilPart ++ coordination ++
        "<font color=\x27green\x27>(Operator Name: <b>" ++ operatorName ++
        "</b>, Operator Number: <b>" ++ operatorNumber ++ "</b>)</font>"
    else if ["hold", "bypass", "test"].any (fun x => strIn x lower) then
      "called the AES Alarm Monitoring and placed the system on " ++ holdTypeStr ++
        untilPart ++ coordination ++
        "<font color=\x27green\x27>(Operator Name: <b>" ++ operatorName ++
        "</b>, Operator Number: <b>" ++ operatorNumber ++ "</b>)</font>"
    else
      "called the AES Alarm Monitoring and placed the system on " ++ holdTypeStr ++
        untilPart ++ coordination ++
        "<font color=\x27green\x27>(Operator Name: " ++ operatorName ++
        ", Operator Number: " ++ operatorNumber ++ ")</font>"
  let buffer := dset buffer0 "action" newAction
  let evt := build_event_line buffer
  if evt ≠ "" then pappend parsed sec evt else .ok parsed

/-! ## `flush_event` : Janitorial branch -/

/-- The Janitorial branch of `flush_event` (source lines 1643–1700). -/
def flushJanitorial (buffer0 : Dict) (parsed : Parsed) : Except PyErr Parsed := do
  let sec := "Janitorial"
  let action := pyStrip (dgetD buffer0 "action")
  let company := pyStrip (if truthy (dget buffer0 "company")
    then dgetD buffer0 "company" else "ABM Janitorial")
  let lower := pyLower action
  let buffer :=
    if ["seattle ambassadors", "ambassador", "mid call", "mid dispatch"].any
        (fun k => strIn k lower) then
      dset buffer0 "action"
        ("placed a phone call to MID to dispatch the Seattle Ambassadors on site " ++
          "to clean human waste, bodily fluids, and messy trash on the exterior.")
    else buffer0
  let buffer :=
    if ["spill", "liquid", "water leak", "slip", "hazard"].any
        (fun k => strIn k lower) then
      dset buffer "action"
        ("coordinated janitorial response and notified " ++ company ++
          " to clean a reported spill/hazard to ensure safety and prevent accidents")
    else if ["trash", "garbage", "overflow", "waste", "dumpster"].any
        (fun k => strIn k lower) then
      dset buffer "action"
        ("reported janitorial concern of trash overflow and dispatched " ++ company ++
          " to clear the waste and maintain cleanliness")
    else if ["restroom", "toilet", "bathroom", "urinal", "supply", "paper towel",
        "soap"].any (fun k => strIn k lower) then
      dset buffer "action"
        ("notified " ++ company ++
          " regarding restroom cleaning and supply replenishment to maintain sanitary conditions")
    else if ["vacuum", "sweep", "mop", "sanitize", "disinfect"].any
        (fun k => strIn k lower) then
      dset buffer "action"
        ("assigned " ++ company ++
          " to perform floor care and sanitization tasks, including vacuuming, mopping, or sweeping as required")
    else if ["odor", "smell", "stain", "debris", "dirty", "cleaning required"].any
        (fun k => strIn k lower) then
      dset buffer "action"
        ("requested " ++ company ++
          " to address reported odor, stains, or debris to restore a clean and professional environment")
    else
      dset buffer "action"
        ("coordinated janitorial services through " ++ company ++
          " to address reported cleaning needs on site")
  let buffer :=
    if truthy (dget buffer "location") then
      dset buffer "location" (format_location_name (dgetD buffer "location"))
    else buffer
  let evt := build_event_line buffer
  if evt ≠ "" then pappend parsed sec evt else .ok parsed

/-! ## `flush_event` : Additional Information branch (secondary scan) -/

/-- `_fmt_date_for_line` (source lines 441–447). -/
def _fmt_date_for_line (datestr : String) : String :=
  match reSearch rxDateLong datestr with
  | some (_, _, caps) =>
    let cs := chars datestr
    pad2 (strToNat (capGetD cs caps 1)) ++ "/" ++ pad2 (strToNat (capGetD cs caps 2)) ++
      "/" ++ sliceLast (capGetD cs caps 3) 2 ++ " " ++ pyUpper (capGetD cs caps 4)
  | none => datestr

/-- Python `range(start, stop, -1)` (stop excluded). -/
def rangeDown (start stop : Nat) : List Nat :=
  (List.range (start - stop)).map (fun k => start - k)

/-- Python `range(start, stop)`. -/
def rangeUp (start stop : Nat) : List Nat :=
  (List.range (stop - start)).map (fun k => start + k)

def lineAt (lines : List String) (j : Nat) : String := lines.getD j ""

/-- regex `\bOther\s*/?\s*Miscellaneous\b` (IGNORECASE). -/
def rxOtherMisc : RE :=
  rseq [.wb, rstrI "Other", .star false rws, .opt false (rchar '/'),
    .star false rws, rstrI "Miscellaneous", .wb]

/-- regex `END\s*OF\s*REPORT|DAILY\s*ACTIVITY|^Page\s+\d+` (IGNORECASE). -/
def rxEndReportEtc : RE :=
  ralt [rseq [rstrI "END", .star false rws, rstrI "OF", .star false rws, rstrI "REPORT"],
    rseq [rstrI "DAILY", .star false rws, rstrI "ACTIVITY"],
    rseq [.bol, rstrI "Page", rplus false rws, rplus false rd]]

/-- regex `^\d{1,2}/\d{1,2}/\d{2,4}\s+\d{1,2}:\d{2}`. -/
def rxTsHead24 : RE :=
  rseq [.bol, rrange 1 2 rd, rchar '/', rrange 1 2 rd, rchar '/', rrange 2 4 rd,
    rplus false rws, rrange 1 2 rd, rchar ':', rtimes 2 rd]

/-- regex `^Start\s*(?:Date|Time)\s*:` (IGNORECASE). -/
def rxStartDateTimeColon : RE :=
  rseq [.bol, rstrI "Start", .star false rws, ralt [rstrI "Date", rstrI "Time"],
    .star false rws, rchar ':']

/-- regex `REPORT\s*-\s*LOGBOOK|Generated\s+on` (IGNORECASE). -/
def rxReportLogbookGen : RE :=
  ralt [rseq [rstrI "REPORT", .star false rws, rchar '-', .star false rws, rstrI "LOGBOOK"],
    rseq [rstrI "Generated", rplus false rws, rstrI "on"]]

/-- regex `(geolocation|comment|start\s*date|end\s*date|report|multi-line|tour|actually|needed)`
(IGNORECASE). -/
def rxMiscSkipUp : RE :=
  .grp 1 (ralt [rstrI "geolocation", rstrI "comment",
    rseq [rstrI "start", .star false rws, rstrI "date"],
    rseq [rstrI "end", .star false rws, rstrI "date"],
    rstrI "report", rstrI "multi-line", rstrI "tour", rstrI "actually",
    rstrI "needed"])

/-- regex `^([A-Z][A-Za-z]+)\s+([A-Z][A-Za-z]+)(?:\s*\((?:Officers?|Site\s*Supervisors?)\))?$`
(IGNORECASE) : with the flag, the `[A-Z]` classes match any letter. -/
def rxNameUp : RE :=
  rseq [.bol, .grp 1 (.seq (.cls isAlphaC) (rplus false (.cls isAlphaC))),
    rplus false rws, .grp 2 (.seq (.cls isAlphaC) (rplus false (.cls isAlphaC))),
    .opt false (rseq [.star false rws, rchar '(',
      ralt [.seq (rstrI "Officer") (.opt false (rcharI 's')),
        rseq [rstrI "Site", .star false rws, rstrI "Supervisor", .opt false (rcharI 's')]],
      rchar ')']),
    .eol]

/-- regex `^([A-Z][A-Za-z]+)\s+([A-Z][A-Za-z]+)(?:\s*\(Officers?\))?$` (case-sensitive). -/
def rxNameDown : RE :=
  rseq [.bol, .grp 1 (.seq (.cls isUpperC) (rplus false (.cls isAlphaC))),
    rplus false rws, .grp 2 (.seq (.cls isUpperC) (rplus false (.cls isAlphaC))),
    .opt false (rseq [.star false rws, rchar '(', rstr "Officer",
      .opt false (rchar 's'), rchar ')']),
    .eol]

/-- regex `^(End\s*of\s*Report|Daily\s*Activity|Summary\s*of|Work\s*Orders|Patrol\s*Check|Log\s*Summary)`
(IGNORECASE). -/
def rxBlockEndHeaders : RE :=
  rseq [.bol, .grp 1 (ralt [
    rseq [rstrI "End", .star false rws, rstrI "of", .star false rws, rstrI "Report"],
    rseq [rstrI "Daily", .star false rws, rstrI "Activity"],
    rseq [rstrI "Summary", .star false rws, rstrI "of"],
    rseq [rstrI "Work", .star false rws, rstrI "Orders"],
    rseq [rstrI "Patrol", .star false rws, rstrI "Check"],
    rseq [rstrI "Log", .star false rws, rstrI "Summary"]])]

/-- regex `^Start\s*(?:Date|Time)\s*:\s*\d{1,2}/\d{1,2}/\d{2,4}\s+\d{1,2}:\d{2}` (IGNORECASE). -/
def rxStartDateFullTs : RE :=
  rseq [.bol, rstrI "Start", .star false rws, ralt [rstrI "Date", rstrI "Time"],
    .star false rws, rchar ':', .star false rws, rrange 1 2 rd, rchar '/',
    rrange 1 2 rd, rchar '/', rrange 2 4 rd, rplus false rws, rrange 1 2 rd,
    rchar ':', rtimes 2 rd]

/-- regex `^\s*NEW\s+ACTIVITY\b` (IGNORECASE). -/
def rxNewActivityLead : RE :=
  rseq [.bol, .star false rws, rstrI "NEW", rplus false rws, rstrI "ACTIVITY", .wb]

/-- regex `^\s*Other\s*/?\s*Miscellaneous\b` (IGNORECASE). -/
def rxOtherMiscLead : RE :=
  rseq [.bol, .star false rws, rstrI "Other", .star false rws, .opt false (rchar '/'),
    .star false rws, rstrI "Miscellaneous", .wb]

/-- regex `comments?` (IGNORECASE). -/
def rxCommentsWord : RE := .seq (rstrI "comment") (.opt false (rcharI 's'))

/-- regex `Start\s*(?:Date|Time)\s*:\s*([0-9/]+\s+\d{1,2}:\d{2}\s*(?:AM|PM)?)` (IGNORECASE). -/
def rxStartDateCapture : RE :=
  rseq [rstrI "Start", .star false rws, ralt [rstrI "Date", rstrI "Time"],
    .star false rws, rchar ':', .star false rws,
    .grp 1 (rseq [rplus false (.cls (fun c => isDigitC c || c == '/')),
      rplus false rws, rrange 1 2 rd, rchar ':', rtimes 2 rd, .star false rws,
      .opt false (ralt [rstrI "AM", rstrI "PM"])])]

/-- regex `([0-9/]+\s+\d{1,2}:\d{2}\s*(?:AM|PM)?)` (case-sensitive). -/
def rxLooseTs : RE :=
  .grp 1 (rseq [rplus false (.cls (fun c => isDigitC c || c == '/')),
    rplus false rws, rrange 1 2 rd, rchar ':', rtimes 2 rd, .star false rws,
    .opt false (ralt [rstr "AM", rstr "PM"])])

/-- regex `Multi-line\s*text\s*field\s*:` (IGNORECASE). -/
def rxMultilineField : RE :=
  rseq [rstrI "Multi-line", .star false rws, rstrI "text", .star false rws,
    rstrI "field", .star false rws, rchar ':']

/-- regex `^\s*(NEW\s+ACTIVITY|TOUR\s|Other\s*/?\s*Miscellaneous)\b` (IGNORECASE). -/
def rxBlockBreak : RE :=
  rseq [.bol, .star false rws, .grp 1 (ralt [
    rseq [rstrI "NEW", rplus false rws, rstrI "ACTIVITY"],
    .seq (rstrI "TOUR") rws,
    rseq [rstrI "Other", .star false rws, .opt false (rchar '/'), .star false rws,
      rstrI "Miscellaneous"]]), .wb]

/-- regex `(REPORT\s*-\s*LOGBOOK|Generated\s+on|^Page\s+\d+|^\d{1,2}/\d{1,2}/\d{4}\s+\d{1,2}:\d{2})`
(IGNORECASE). -/
def rxCommentSkip : RE :=
  .grp 1 (ralt [
    rseq [rstrI "REPORT", .star false rws, rchar '-', .star false rws, rstrI "LOGBOOK"],
    rseq [rstrI "Generated", rplus false rws, rstrI "on"],
    rseq [.bol, rstrI "Page", rplus false rws, rplus false rd],
    rseq [.bol, rrange 1 2 rd, rchar '/', rrange 1 2 rd, rchar '/', rtimes 4 rd,
      rplus false rws, rrange 1 2 rd, rchar ':', rtimes 2 rd]])

/-- regex `^-?\s*Multi-line\s*text\s*field\s*:\s*` (IGNORECASE). -/
def rxMultilineFieldLead : RE :=
  rseq [.bol, .opt false (rchar '-'), .star false rws, rstrI "Multi-line",
    .star false rws, rstrI "text", .star false rws, rstrI "field",
    .star false rws, rchar ':', .star false rws]

/-- regex `\b[Cc]lose\b`. -/
def rxCloseAnyCase : RE := rseq [.wb, rof ['C', 'c'], rstr "lose", .wb]

/-- regex `\s*\(.*?\)`. -/
def rxWsParen : RE :=
  rseq [.star false rws, rchar '(', .star true rDot, rchar ')']

/-- regex `\b(?:escorted|accompanied|guided|took|brought|delivered|walked|assisted)\s+\w+(?:\s+\w+)?\s+to\s+([A-Za-z0-9\s\-]+?)(?:[.,;]|$)`
(IGNORECASE). -/
def rxMoveTo : RE :=
  rseq [.wb, ralt [rstrI "escorted", rstrI "accompanied", rstrI "guided",
    rstrI "took", rstrI "brought", rstrI "delivered", rstrI "walked",
    rstrI "assisted"],
    rplus false rws, rplus false rw,
    .opt false (.seq (rplus false rws) (rplus false rw)),
    rplus false rws, rstrI "to", rplus false rws,
    .grp 1 (rplus true (.cls (fun c => isAlphaC c || isDigitC c || isPySpace c || c == '-'))),
    ralt [rof ['.', ',', ';'], .eol]]

/-- regex `^(i|me|my|we|they|he|she|you)$`. -/
def rxPronoun : RE :=
  rseq [.bol, .grp 1 (ralt [rstr "i", rstr "me", rstr "my", rstr "we",
    rstr "they", rstr "he", rstr "she", rstr "you"]), .eol]

/-- regex `^(escort|escorte|assist|help|report|inform|notify|contact)$`. -/
def rxVerbJunk : RE :=
  rseq [.bol, .grp 1 (ralt [rstr "escort", rstr "escorte", rstr "assist",
    rstr "help", rstr "report", rstr "inform", rstr "notify", rstr "contact"]),
    .eol]

/-- regex `\b(?:at|in|on|inside|near|around|to)\s+([A-Za-z0-9\-\s]+?)(?:[.,;]|$)`
(IGNORECASE). -/
def rxAtLocTo : RE :=
  rseq [.wb,
    ralt [rstrI "at", rstrI "in", rstrI "on", rstrI "inside", rstrI "near",
      rstrI "around", rstrI "to"],
    rplus false rws,
    .grp 1 (rplus true (.cls (fun c => isAlphaC c || isDigitC c || c == '-' || isPySpace c))),
    ralt [rof ['.', ',', ';'], .eol]]

/-- regex `(?:on|to)\s+(?:the\s+)?([A-Za-z0-9\s]*floor\s*\d*)`. -/
def rxFloorTo : RE :=
  rseq [ralt [rstr "on", rstr "to"], rplus false rws,
    .opt false (.seq (rstr "the") (rplus false rws)),
    .grp 1 (rseq [.star false (.cls (fun c => isAlphaC c || isDigitC c || isPySpace c)),
      rstr "floor", .star false rws, .star false rd])]

/-- regex `^[A-Z0-9]+$`. -/
def rxAllCapsNum : RE :=
  rseq [.bol, rplus false (.cls (fun c => isUpperC c || isDigitC c)), .eol]

/-- `parsed.setdefault(sec, [])`. -/
def psetdefault (parsed : Parsed) (sec : String) : Parsed :=
  if parsed.any (fun kv => kv.1 == sec) then parsed else parsed ++ [(sec, [])]

/-- Block gathering of the misc scan (source lines 1783–1823): stripped lines
of the block and the index of the next entry. -/
def miscGather (lines : List String) (n i : Nat) : List String × Nat :=
  go i (n - i) []
where
  go (k fuel : Nat) (acc : List String) : List String × Nat :=
    match fuel with
    | 0 => (acc, n)
    | fuel + 1 =>
      if k ≥ n then (acc, n) else
      let lineK := pyStrip (lineAt lines k)
      if reTest rxBlockEndHeaders lineK then (acc, k)
      else if reTest rxReportLogbookGen lineK then go (k + 1) fuel acc
      else if k > i &&
          ((reMatch rxStartDateFullTs lineK).isSome
            || (reMatch rxTsHead24 lineK).isSome
            || (reMatch rxNewActivityLead lineK).isSome
            || ((reMatch rxOtherMiscLead lineK).isSome && (k - i) > 3
                && !reTest rxReportLogbookGen lineK)) then
        (acc, k)
      else go (k + 1) fuel (acc ++ [lineK])

/-- Officer name search above the header (source lines 1737–1763). -/
def miscOfficerUp (lines : List String) (i : Nat) : String :=
  go (rangeDown (i - 1) (i - min i 8))
where
  go : List Nat → String
    | [] => ""
    | j :: js =>
      let t := pyStrip (lineAt lines j)
      if t = "" || reTest rxMiscSkipUp t then go js
      else
        match reMatch rxNameUp t with
        | some (_, caps) =>
          let firstPart := capGetD (chars t) caps 1
          let secondPart := capGetD (chars t) caps 2
          if pyIsUpper firstPart
              && ((isUpperC ((chars secondPart).headD ' ')
                    && pyIsLower (sliceFrom secondPart 1))
                  || pyIsUpper secondPart) then
            pyCapitalize secondPart ++ " " ++ pyCapitalize firstPart
          else
            pyCapitalize firstPart ++ " " ++ pyCapitalize secondPart
        | none => go js

/-- regex `^\s*(?:NEW\s+ACTIVITY|COMMENTS?)` (IGNORECASE). -/
def rxNewActOrComments : RE :=
  rseq [.bol, .star false rws,
    ralt [rseq [rstrI "NEW", rplus false rws, rstrI "ACTIVITY"],
      .seq (rstrI "COMMENT") (.opt false (rcharI 's'))]]

/-- Officer name search below the header (source lines 1767–1778). -/
def miscOfficerDown (lines : List String) (n i : Nat) : String :=
  go (rangeUp (i + 1) (min n (i + 10)))
where
  go : List Nat → String
    | [] => ""
    | j :: js =>
      let t := pyStrip (lineAt lines j)
      if t = "" then go js
      else if (reMatch rxNewActOrComments t).isSome then go js
      else
        match reMatch rxNameDown t with
        | some (_, caps) =>
          pyCapitalize (capGetD (chars t) caps 1) ++ " " ++
            pyCapitalize (capGetD (chars t) caps 2)
        | none => go js

/-- Start-date extraction over the gathered block (source lines 1825–1856):
first the line preceding a `Comments` line, else anywhere in the joined
block, else upward in the surrounding document. -/
def miscStartDate (lines : List String) (i : Nat) (blockLines : List String) : String :=
  let fromPrev := goPrev (blockLines.enum)
  if fromPrev ≠ "" then fromPrev
  else
    let joined := pyJoin "\n" blockLines
    match reSearch rxStartDateCapture joined with
    | some (_, _, caps) => pyStrip (capGetD (chars joined) caps 1)
    | none => goUp (rangeDown (i - 1) (i - min i 6))
where
  goPrev : List (Nat × String) → String
    | [] => ""
    | (idx, line) :: rest =>
      if reTest rxCommentsWord line && idx > 0 then
        let prevLine := blockLines.getD (idx - 1) ""
        match reSearch rxStartDateCapture prevLine with
        | some (_, _, caps) => pyStrip (capGetD (chars prevLine) caps 1)
        | none => goPrev rest
      else goPrev rest
  goUp : List Nat → String
    | [] => ""
    | j :: js =>
      match reSearch rxLooseTs (lineAt lines j) with
      | some (_, _, caps) => pyStrip (capGetD (chars (lineAt lines j)) caps 1)
      | none => goUp js

/-- Multi-line comment extraction over the gathered block
(source lines 1858–1893). -/
def miscComment (blockLines : List String) : String :=
  let commentStart := (blockLines.enum).find? (fun il => reTest rxMultilineField il.2)
  let commentLines :=
    match commentStart with
    | some (cs, _) => goCollect ((blockLines.drop cs)) []
    | none => []
  let comment := pyStrip (pyJoin " " commentLines)
  let comment := pyRStripSet ['.'] (pyStrip (reSub rxCloseAnyCase "" comment))
  let comment := pyStrip (reSub rxWsParen "" comment)
  let comment := pyStrip (reSub rxWsRun " " comment)
  if comment ≠ "" && !pyEndsWith comment "." then comment ++ "." else comment
where
  goCollect : List String → List String → List String
    | [], acc => acc
    | l :: rest, acc =>
      let lineK := pyStrip l
      if (reMatch rxBlockBreak lineK).isSome then acc
      else if reTest rxCommentSkip lineK then goCollect rest acc
      else
        let lineK := pyStrip (reSub rxMultilineFieldLead "" lineK)
        if lineK ≠ "" then goCollect rest (acc ++ [lineK]) else goCollect rest acc

/-- Smart location inference over the comment text (source lines 1900–1982),
including the cleanup, abbreviation replacement and capitalization steps. -/
def miscLocation (comment : String) : String :=
  let text := pyLower comment
  let nonLocationEntities := ["kone", "davis", "fedex", "usps", "abm", "cedar",
    "brunson", "engineer", "technician"]
  let location :=
    match reSearch rxMoveTo text with
    | some (_, _, caps) =>
      let candidate := pyStripSet [' ', '.', ',', '-'] (capGetD (chars text) caps 1)
      if strLen candidate == 1
          || (reMatch rxPronoun (pyLower candidate)).isSome
          || (reMatch rxVerbJunk (pyLower candidate)).isSome
          || nonLocationEntities.any (fun x => pyStartsWith (pyLower candidate) x) then
        ""
      else candidate
    | none => ""
  let location :=
    if location = "" then
      match reSearch rxAtLocTo text with
      | some (_, _, caps) =>
        let candidate := pyStripSet [' ', '.', ',', '-'] (capGetD (chars text) caps 1)
        if !(reMatch rxPronoun (pyLower candidate)).isSome then candidate else ""
      | none => ""
    else location
  let location :=
    if location = "" && strIn "floor" text then
      match reSearch rxFloorTo text with
      | some (_, _, caps) => pyStrip (capGetD (chars text) caps 1)
      | none => ""
    else location
  let location :=
    if location ≠ "" then
      if strLen location == 1
          || ["i", "me", "my", "we", "they", "he", "she", "you"].contains
              (pyLower location) then ""
      else
        let l := pyStrip (reSub rxWsRun " " location)
        pyJoin " " ((pySplitWs l).map (fun p =>
          if !(reMatch rxAllCapsNum p).isSome then pyCapitalize p else p))
    else location
  let location := if location = "" then "N/A" else location
  if location ≠ "" && location ≠ "N/A" then
    let l := pyStrip (reSub rxWsRun " " location)
    let replacements := [("sb", "SB"), ("nb", "NB"), ("eb", "EB"), ("wb", "WB"),
      ("p1", "P1"), ("l1", "L1"), ("subbasement", "Subbasement"),
      ("loading dock", "Loading Dock"), ("rooftop", "Rooftop")]
    let l :=
      match replacements.find? (fun kv => pyLower l == kv.1) with
      | some kv => kv.2
      | none => l
    pyJoin " " ((pySplitWs l).map (fun p =>
      if !(reMatch rxAllCapsNum p).isSome then pyCapitalize p else p))
  else location

/-- The Additional Information branch of `flush_event` (source lines
1704–2013) : a secondary whole-document scan keyed off `Other/Miscellaneous`
headers and trailing timestamps. -/
def flushMisc (lines : List String) (parsed0 : Parsed) : Parsed :=
  let n := lines.length
  go 0 (n + 1) parsed0
where
  go (i fuel : Nat) (parsed : Parsed) : Parsed :=
    match fuel with
    | 0 => parsed
    | fuel + 1 =>
      if i ≥ lines.length then parsed else
      let n := lines.length
      let ln := lineAt lines i
      if reTest rxOtherMisc ln
          || (!(pget parsed "Additional Information").isEmpty
              && !reTest rxEndReportEtc ln
              && ((reMatch rxTsHead24 ln).isSome
                  || (reMatch rxStartDateTimeColon ln).isSome)) then
        if reTest rxReportLogbookGen ln then go (i + 1) fuel parsed
        else
          let officerName := miscOfficerUp lines i
          let officerName := if officerName = "" then miscOfficerDown lines n i
            else officerName
          let miscOfficer := officerName
          let (blockLines, nextIdx) := miscGather lines n i
          let startDate := miscStartDate lines i blockLines
          let comment := miscComment blockLines
          if comment = "" then
            -- `i = next_idx; continue` (the scan stalls in the source when
            -- `next_idx ≤ i`; the fuel bound makes the model total)
            go nextIdx fuel parsed
          else
            let location := miscLocation comment
            let dateFmt := _fmt_date_for_line startDate
            let officer := pyStrip miscOfficer
            if dateFmt = "" || comment = "" then go (i + 1) fuel parsed
            else
              let evt := dateFmt ++ " – " ++ bold_officer officer ++
                " has reported " ++ comment
              let finalLocation := if location ≠ "" then location else "N/A"
              let evt := evt ++ " (<font color=\x27red\x27>Location: <b>" ++
                finalLocation ++ "</b></font>)"
              let parsed := psetdefault parsed "Additional Information"
              let parsed :=
                if (pget parsed "Additional Information").contains evt then parsed
                else parsed.map (fun kv =>
                  if kv.1 == "Additional Information" then (kv.1, kv.2 ++ [evt]) else kv)
              if nextIdx > i then go nextIdx fuel parsed
              else go (i + 1) fuel parsed
      else go (i + 1) fuel parsed

/-! ## `flush_event` : dispatcher -/

/-- `flush_event` (source lines 449–2028) : discard empty buffers, classify,
synthesize one narrative entry per the category's template, and reset the
per-event state.  Errors model uncaught Python exceptions (`KeyError` when
`classify` yields a label outside the report's 14 sections and the built
line is non-empty). -/
def flush_event (lines : List String) (st : ScanSt) : Except PyErr ScanSt := do
  let buffer := st.buffer
  if buffer.isEmpty
      || (!truthy (dget buffer "action")
          && !truthy (dget buffer "incident_description")
          && !truthy (dget buffer "incident_comments")
          && !truthy (dget buffer "category")) then
    .ok { st with buffer := [], last_field := none }
  else
    let sec := classify buffer st.labels
    let buffer :=
      if sec == "AES Phone Calls" && !truthy (dget buffer "action") then
        dset buffer "action" "handled AES phone call to put the fire system on test"
      else buffer
    let res : Except PyErr (Parsed × Nat) ←
      if sec == "Incident Reports (IR) / Alarms" then
        pure ((flushIR buffer st.parsed).map (fun p => (p, st.transient_count)))
      else if sec == "Elevator Entrapment Incidents" then
        pure ((flushElevator buffer st.parsed).map (fun p => (p, st.transient_count)))
      else if sec == "Work Orders" then
        pure ((flushWorkOrders lines buffer st.parsed).map (fun p => (p, st.transient_count)))
      else if sec == "Property Damage" then
        pure ((flushPropertyDamage buffer st.parsed).map (fun p => (p, st.transient_count)))
      else if sec == "Key Service (Lock & Unlock)" then
        pure ((flushKeyService buffer st.parsed).map (fun p => (p, st.transient_count)))
      else if sec == "Loading Dock Access (Lock & Unlock)" then
        pure ((flushLoadingDock buffer st.parsed).map (fun p => (p, st.transient_count)))
      else if sec == "Fire Panel Bypass/Online" then
        pure ((flushFirePanel buffer st.parsed).map (fun p => (p, st.transient_count)))
      else if sec == "AES Phone Calls" then
        pure ((flushAES buffer st.parsed).map (fun p => (p, st.transient_count)))
      else if sec == "Janitorial" then
        pure ((flushJanitorial buffer st.parsed).map (fun p => (p, st.transient_count)))
      else if sec == "Additional Information" then
        pure (Except.ok (flushMisc lines st.parsed, st.transient_count))
      else
        -- normal path for every other section (including `Unclassified`,
        -- whose `parsed[sec]` lookup raises `KeyError`)
        let evt := build_event_line buffer
        if evt ≠ "" then
          pure ((pappend st.parsed sec evt).map (fun p =>
            (p, if sec == "Transient Removal" || st.transient_tag_seen then
                st.transient_count + 1 else st.transient_count)))
        else pure (Except.ok (st.parsed, st.transient_count))
    match res with
    | .error e => .error e
    | .ok (parsedTc : Parsed × Nat) =>
      .ok { st with
        parsed := parsedTc.1
        transient_count := parsedTc.2
        buffer := []
        labels := []
        transient_tag_seen := false
        last_field := none }

/-! ## Scanner regexes of the main loop -/

/-- regex `^\s*numbers\)\s*:\s*` (IGNORECASE). -/
def rxNumbersParen : RE :=
  rseq [.bol, .star false rws, rstrI "numbers", rchar ')', .star false rws,
    rchar ':', .star false rws]

/-- regex `start\s*date\s*:\s*([0-9/]+\s+\d{1,2}:\d{2}\s*[APap][Mm])` (IGNORECASE). -/
def rxStartDateNamed : RE :=
  rseq [rstrI "start", .star false rws, rstrI "date", .star false rws, rchar ':',
    .star false rws,
    .grp 1 (rseq [rplus false (.cls (fun c => isDigitC c || c == '/')),
      rplus false rws, rrange 1 2 rd, rchar ':', rtimes 2 rd, .star false rws,
      rofI ['a', 'p'], rcharI 'm'])]

/-- regex `(if\s*so,?\s*who\s*called|who\s*called\s*them)` (IGNORECASE). -/
def rxWhoCalledQ : RE :=
  .grp 1 (ralt [
    rseq [rstrI "if", .star false rws, rstrI "so", .opt false (rchar ','),
      .star false rws, rstrI "who", .star false rws, rstrI "called"],
    rseq [rstrI "who", .star false rws, rstrI "called", .star false rws,
      rstrI "them"]])

/-- regex `^(vehicle|synopsis|report|incident|description|time|location|escalation)\b`
(IGNORECASE). -/
def rxWhoStop : RE :=
  rseq [.bol, .grp 1 (ralt [rstrI "vehicle", rstrI "synopsis", rstrI "report",
    rstrI "incident", rstrI "description", rstrI "time", rstrI "location",
    rstrI "escalation"]), .wb]

/-- regex `^\W+`. -/
def rxNonWordLead : RE := rseq [.bol, rplus false (.cls (fun c => !isWordC c))]

/-- regex `([a-z])([A-Z])`, substituted by `\1 \2`. -/
def rxCamel : RE := rseq [.grp 1 (.cls isLowerC), .grp 2 (.cls isUpperC)]

def camelSplit (s : String) : String :=
  reSubF rxCamel (fun cs _ _ caps => capGetD cs caps 1 ++ " " ++ capGetD cs caps 2) s

/-- regex `all\s*persons\s*involved` (IGNORECASE). -/
def rxAllPersons : RE :=
  rseq [rstrI "all", .star false rws, rstrI "persons", .star false rws,
    rstrI "involved"]

/-- regex `^(-\s*description|description|vehicle|report|escalation|incident|synopsis)\b`
(IGNORECASE). -/
def rxPartiesHdr : RE :=
  rseq [.bol, .grp 1 (ralt [
    rseq [rchar '-', .star false rws, rstrI "description"],
    rstrI "description", rstrI "vehicle", rstrI "report", rstrI "escalation",
    rstrI "incident", rstrI "synopsis"]), .wb]

/-- regex `^-?\s*All\s*persons\s*involved.*?:` (IGNORECASE). -/
def rxAllPersonsLead : RE :=
  rseq [.bol, .opt false (rchar '-'), .star false rws, rstrI "All",
    .star false rws, rstrI "persons", .star false rws, rstrI "involved",
    .star true rDot, rchar ':']

/-- regex `\band\b` (IGNORECASE). -/
def rxAndWord : RE := rseq [.wb, rstrI "and", .wb]

/-- The repeated “add `and` before the last comma-separated item” block
(source lines 2141–2151 and twins). -/
def andJoin (combined : String) : String :=
  if combined ≠ "" && strIn "," combined then
    let parts := ((pySplitSep "," combined).map pyStrip).filter (fun p => p ≠ "")
    if parts.length > 1 then
      let last := parts.getLast? |>.getD ""
      if !reTest rxAndWord last then
        pyJoin ", " parts.dropLast ++ ", and " ++ last
      else pyJoin ", " parts
    else (parts.headD "")
  else combined

/-- regex `^\d{1,2}/\d{1,2}/\d{4}\s+\d{1,2}:\d{2}\s*[APap][Mm]$`. -/
def rxBareTsFull : RE :=
  rseq [.bol, rrange 1 2 rd, rchar '/', rrange 1 2 rd, rchar '/', rtimes 4 rd,
    rplus false rws, rrange 1 2 rd, rchar ':', rtimes 2 rd, .star false rws,
    rofI ['a', 'p'], rcharI 'm', .eol]

/-- regex `\b(until|by|at)\b` (IGNORECASE). -/
def rxUntilByAt : RE :=
  rseq [.wb, .grp 1 (ralt [rstrI "until", rstrI "by", rstrI "at"]), .wb]

/-- regex `\bLoading\s+Dock\s+Gate\b` (IGNORECASE). -/
def rxLoadingDockGate : RE :=
  rseq [.wb, rstrI "Loading", rplus false rws, rstrI "Dock", rplus false rws,
    rstrI "Gate", .wb]

/-- regex `^[A-Z][A-Za-z]+\s+[A-Z][A-Za-z]+(?:\s*\((?:Officers?|Site\s+Supervisors?)\))?$`
(IGNORECASE). -/
def rxNameTwo : RE :=
  rseq [.bol, .seq (.cls isAlphaC) (rplus false (.cls isAlphaC)),
    rplus false rws, .seq (.cls isAlphaC) (rplus false (.cls isAlphaC)),
    .opt false (rseq [.star false rws, rchar '(',
      ralt [.seq (rstrI "Officer") (.opt false (rcharI 's')),
        rseq [rstrI "Site", rplus false rws, rstrI "Supervisor", .opt false (rcharI 's')]],
      rchar ')']),
    .eol]

/-- regex `^(new activity|300 pine|close|start date|geolocation|page|report)`
(IGNORECASE). -/
def rxNoisyAbove : RE :=
  rseq [.bol, .grp 1 (ralt [rstrI "new activity", rstrI "300 pine",
    rstrI "close", rstrI "start date", rstrI "geolocation", rstrI "page",
    rstrI "report"])]

/-- regex `^[A-Z][A-Za-z]+(?:\s+[A-Z][A-Za-z]+){1,2}(?:\s*\((?:Officers?|Site\s+Supervisors?)\))?$`
(IGNORECASE). -/
def rxNameTwoOrThree : RE :=
  rseq [.bol, .seq (.cls isAlphaC) (rplus false (.cls isAlphaC)),
    rrange 1 2 (.seq (rplus false rws) (.seq (.cls isAlphaC) (rplus false (.cls isAlphaC)))),
    .opt false (rseq [.star false rws, rchar '(',
      ralt [.seq (rstrI "Officer") (.opt false (rcharI 's')),
        rseq [rstrI "Site", rplus false rws, rstrI "Supervisor", .opt false (rcharI 's')]],
      rchar ')']),
    .eol]

/-- regex `^[A-Z][A-Za-z]+\s+[A-Z][A-Za-z]+` (case-sensitive prefix). -/
def rxNamePre : RE :=
  rseq [.bol, .seq (.cls isUpperC) (rplus false (.cls isAlphaC)),
    rplus false rws, .seq (.cls isUpperC) (rplus false (.cls isAlphaC))]

/-- regex `\s*\((?:Officers?|Site\s+Supervisors?)\)\s*` (IGNORECASE). -/
def rxRoleParen : RE :=
  rseq [.star false rws, rchar '(',
    ralt [.seq (rstrI "Officer") (.opt false (rcharI 's')),
      rseq [rstrI "Site", rplus false rws, rstrI "Supervisor", .opt false (rcharI 's')]],
    rchar ')', .star false rws]

/-- regex `^([A-Z][A-Za-z]+)\s+([A-Z][A-Za-z]+)$` (case-sensitive). -/
def rxLastFirstName : RE :=
  rseq [.bol, .grp 1 (.seq (.cls isUpperC) (rplus false (.cls isAlphaC))),
    rplus false rws, .grp 2 (.seq (.cls isUpperC) (rplus false (.cls isAlphaC))),
    .eol]

/-- regex `^[A-Z]{2,}\s+[A-Z]{2,}$`. -/
def rxTwoAllCaps : RE :=
  rseq [.bol, ratleast 2 (.cls isUpperC), rplus false rws,
    ratleast 2 (.cls isUpperC), .eol]

/-- regex `^[A-Z][a-z]+\s+[A-Z][a-z]+$`. -/
def rxTwoTitle : RE :=
  rseq [.bol, .seq (.cls isUpperC) (rplus false (.cls isLowerC)),
    rplus false rws, .seq (.cls isUpperC) (rplus false (.cls isLowerC)), .eol]

/-- regex `start\s*date\s*:\s*([\d/]+\s+\d{1,2}:\d{2}\s*(?:[APap][Mm])?)` (IGNORECASE). -/
def rxStartDateOptAmPm : RE :=
  rseq [rstrI "start", .star false rws, rstrI "date", .star false rws, rchar ':',
    .star false rws,
    .grp 1 (rseq [rplus false (.cls (fun c => isDigitC c || c == '/')),
      rplus false rws, rrange 1 2 rd, rchar ':', rtimes 2 rd, .star false rws,
      .opt false (.seq (rofI ['a', 'p']) (rcharI 'm'))])]

/-- regex `start\s*date\s*:` (IGNORECASE). -/
def rxStartDateColon : RE :=
  rseq [rstrI "start", .star false rws, rstrI "date", .star false rws, rchar ':']

/-- regex `-\s*officer\s*:` (IGNORECASE). -/
def rxDashOfficerColon : RE :=
  rseq [rchar '-', .star false rws, rstrI "officer", .star false rws, rchar ':']

/-- regex `date\s*of\s*incident\s*:` (IGNORECASE). -/
def rxDateOfIncidentColon : RE :=
  rseq [rstrI "date", .star false rws, rstrI "of", .star false rws,
    rstrI "incident", .star false rws, rchar ':']

/-- regex `time\s*of\s*incident\s*:` (IGNORECASE). -/
def rxTimeOfIncidentColon : RE :=
  rseq [rstrI "time", .star false rws, rstrI "of", .star false rws,
    rstrI "incident", .star false rws, rchar ':']

/-- regex `(\d{1,2}):(\d{2})` (prefix match). -/
def rxHhMm : RE :=
  rseq [.grp 1 (rrange 1 2 rd), rchar ':', .grp 2 (rtimes 2 rd)]

/-- The repeated `HH:MM` 24-hour→AM/PM formatting on matched groups. -/
def hhmmToAmPm (hh0 mm : Nat) : String :=
  let am := if hh0 ≥ 12 then "PM" else "AM"
  let hh := if hh0 ≥ 12 then (if hh0 > 12 then hh0 - 12 else hh0)
            else (if hh0 == 0 then 12 else hh0)
  toString hh ++ ":" ++ pad2 mm ++ " " ++ am

/-- regex `who\s+called\s+spd` (IGNORECASE). -/
def rxWhoCalledSpd : RE :=
  rseq [rstrI "who", rplus false rws, rstrI "called", rplus false rws, rstrI "spd"]

/-- regex `^-*\s*(parties|images|upload picture|date|time|location)\b` (IGNORECASE). -/
def rxSpdCallerStop : RE :=
  rseq [.bol, .star false (rchar '-'), .star false rws,
    .grp 1 (ralt [rstrI "parties", rstrI "images", rstrI "upload picture",
      rstrI "date", rstrI "time", rstrI "location"]), .wb]

/-- regex `^-*\s*(images|upload picture|date|time|location|who called)\b` (IGNORECASE). -/
def rxSpdPartiesStop : RE :=
  rseq [.bol, .star false (rchar '-'), .star false rws,
    .grp 1 (ralt [rstrI "images", rstrI "upload picture", rstrI "date",
      rstrI "time", rstrI "location", rstrI "who called"]), .wb]

/-- regex `\bsecurity\s+officer\b` (IGNORECASE). -/
def rxSecurityOfficer : RE :=
  rseq [.wb, rstrI "security", rplus false rws, rstrI "officer", .wb]

/-- regex `^-?\s*parties\s*involved.*?:` (IGNORECASE). -/
def rxPartiesLead : RE :=
  rseq [.bol, .opt false (rchar '-'), .star false rws, rstrI "parties",
    .star false rws, rstrI "involved", .star true rDot, rchar ':']

/-- regex `^-+\s*(who called|parties|images|upload picture|date|time|location)\b`
(IGNORECASE). -/
def rxSpdDescStop : RE :=
  rseq [.bol, rplus false (rchar '-'), .star false rws,
    .grp 1 (ralt [rstrI "who called", rstrI "parties", rstrI "images",
      rstrI "upload picture", rstrI "date", rstrI "time", rstrI "location"]), .wb]

/-- regexes `\b5he\b`, `\baed\b`, `\bw\s*he\b`, `\bn on\b` (IGNORECASE). -/
def rx5he : RE := rseq [.wb, rstrI "5he", .wb]
def rxAed : RE := rseq [.wb, rstrI "aed", .wb]
def rxWhe : RE := rseq [.wb, rcharI 'w', .star false rws, rstrI "he", .wb]
def rxNOn : RE := rseq [.wb, rstrI "n on", .wb]

/-- regex `\btransferred to the hospital\b` (IGNORECASE). -/
def rxTransferred : RE := rseq [.wb, rstrI "transferred to the hospital", .wb]

/-- regex `^[A-Z][a-z]?$`. -/
def rxShortCap : RE :=
  rseq [.bol, .cls isUpperC, .opt false (.cls isLowerC), .eol]

/-- regex `\bofficer\s+<name>\b` (IGNORECASE, `<name>` literal). -/
def rxOfficerNamed (officer : String) : RE :=
  rseq [.wb, rstrI "officer", rplus false rws, rstrI officer, .wb]

/-- regex `\breported that\s+reported that\b` (IGNORECASE). -/
def rxRepThatTwice : RE :=
  rseq [.wb, rstrI "reported that", rplus false rws, rstrI "reported that", .wb]

/-- regex `–\s*\([^)]+\)\s*$`. -/
def rxEnDashParenTail : RE :=
  rseq [rchar '–', .star false rws, rchar '(',
    rplus false (.cls (fun c => c != ')')), rchar ')', .star false rws, .eol]

/-- regex `(\d{1,2})/(\d{1,2})/(\d{4})\s+(\d{1,2}):(\d{2})(?:\s*([APap][Mm]))?`
(prefix match, ambassador start date). -/
def rxAmbStart : RE :=
  rseq [.grp 1 (rrange 1 2 rd), rchar '/', .grp 2 (rrange 1 2 rd), rchar '/',
    .grp 3 (rtimes 4 rd), rplus false rws, .grp 4 (rrange 1 2 rd), rchar ':',
    .grp 5 (rtimes 2 rd),
    .opt false (.seq (.star false rws)
      (.grp 6 (.seq (rofI ['a', 'p']) (rcharI 'm'))))]

/-- regex `-\s*time\s*:` (IGNORECASE). -/
def rxDashTimeColon : RE :=
  rseq [rchar '-', .star false rws, rstrI "time", .star false rws, rchar ':']

/-- regex `-\s*date\s*:` (IGNORECASE). -/
def rxDashDateColon : RE :=
  rseq [rchar '-', .star false rws, rstrI "date", .star false rws, rchar ':']

/-- regex `-\s*location\s*:` (IGNORECASE). -/
def rxDashLocationColon : RE :=
  rseq [rchar '-', .star false rws, rstrI "location", .star false rws, rchar ':']

/-- regex `([\d/]+\s+\d{1,2}:\d{2}\s*(?:[APap][Mm])?)`. -/
def rxDigitSlashTs : RE :=
  .grp 1 (rseq [rplus false (.cls (fun c => isDigitC c || c == '/')),
    rplus false rws, rrange 1 2 rd, rchar ':', rtimes 2 rd, .star false rws,
    .opt false (.seq (rofI ['a', 'p']) (rcharI 'm'))])

/-- regex `([\d/]+)`. -/
def rxDigitsSlash : RE :=
  .grp 1 (rplus false (.cls (fun c => isDigitC c || c == '/')))

/-! ## SPD sub-block handler -/

/-- One line inside an SPD Presence block (source lines 2359–2620).
Returns the updated state; errors cannot arise (the target key exists, but
the uniform `pappend` is used for faithfulness). -/
def spdStep (lines : List String) (st : ScanSt) (ln : String) : Except PyErr ScanSt := do
  if reTest rxStartDateColon ln then
    let v := pyStrip (afterFirst ":" ln)
    .ok { st with spd_buffer := dset st.spd_buffer "start_date" v,
                  buffer := dset st.buffer "start_date" v }
  else if reTest rxDashOfficerColon ln then
    .ok { st with spd_buffer := dset st.spd_buffer "officer" (pyStrip (afterFirst ":" ln)) }
  else if reTest rxDateOfIncidentColon ln then
    .ok { st with spd_buffer := dset st.spd_buffer "incident_date" (pyStrip (afterFirst ":" ln)) }
  else if reTest rxTimeOfIncidentColon ln then
    let rawT := pyStrip (afterFirst ":" ln)
    let v :=
      match reMatch rxHhMm rawT with
      | some (_, caps) =>
        hhmmToAmPm (strToNat (capGetD (chars rawT) caps 1))
          (strToNat (capGetD (chars rawT) caps 2))
      | none => pyStrip (pyReplace (pyUpper rawT) "HRS" "")
    .ok { st with spd_buffer := dset st.spd_buffer "incident_time" v }
  else if pyStartsWith (pyLower ln) "- location" then
    let loc := pyStrip (afterFirst ":" ln)
    if !strIn "°" loc then
      .ok { st with spd_buffer := dset st.spd_buffer "location" (format_location_name loc) }
    else .ok st
  else if reTest rxWhoCalledSpd ln then
    let val := pyStrip (afterFirst ":" ln)
    let idx := linesIndex lines ln
    let callerParts := (if val ≠ "" then [val] else []) ++
      collectCaller (lines.drop (idx + 1)) []
    let caller := pyJoin " " callerParts
    let caller := pyStrip (reSub rxSecurityOfficer "" caller)
    let caller := pyStrip (reSub rxWsRun " " caller)
    let caller := pyTitle caller
    .ok { st with spd_buffer := dset st.spd_buffer "caller" caller }
  else if reTest (rseq [rstrI "parties", .star false rws, rstrI "involved"]) ln then
    let val := pyStrip (afterFirst ":" ln)
    let idx := linesIndex lines ln
    let valLines := (if val ≠ "" then [val] else []) ++
      collectParties (lines.drop (idx + 1)) []
    let combined := pyJoin ", " ((valLines.map pyStrip).filter (fun v => v ≠ ""))
    let combined := reSub rxPartiesLead "" combined
    let combined := reSub rxWs2 " " combined
    let combined := pyStrip (pyStripSet [' ', '-', ',', ':'] combined)
    let combined := andJoin combined
    .ok { st with spd_buffer := dset st.spd_buffer "parties" combined }
  else if strIn "long description of incident" (pyLower ln) then
    let idx := linesIndex lines ln
    let desc := pyStrip (afterFirst ":" ln)
    let desc := collectDesc (lines.drop (idx + 1)) desc
    let desc := reSub rx5he "the" desc
    let desc := reSub rxAed "A" desc
    let desc := reSub rxWhe "when he" desc
    let desc := reSubF rxNOn (fun _ _ _ _ => " on") desc
    let desc := pyStrip (reSub rxWsRun " " desc)
    let desc := if desc ≠ "" then pyUpper (sliceTo desc 1) ++ sliceFrom desc 1 else desc
    let desc :=
      if !reTest rxTransferred desc then
        (if !pyEndsWith desc "." then desc ++ "." else desc) ++
          " The individual was transferred to the hospital."
      else (if !pyEndsWith desc "." then desc ++ "." else desc)
    let spd := st.spd_buffer
    let officer1 := pyStrip (dgetD spd "officer")
    let spd := if officer1 ≠ "" then dset spd "officer" (normOfficer officer1) else spd
    let desc := pyStrip desc
    let desc := reSub rxAed "A" desc
    let desc := reSub rxWhe "when he" desc
    let desc := reSub rx5he "the" desc
    let desc := pyStrip (reSub rxWsRun " " desc)
    let officer2 := pyStrip (dgetD spd "officer")
    let spd := if officer2 ≠ "" then dset spd "officer" (normOfficer officer2) else spd
    let desc := reSub rxWsRun " " (pyStrip desc)
    let desc :=
      if desc ≠ "" then
        let firstToken := (pySplitSep " " desc).headD ""
        let desc := if (reMatch rxShortCap firstToken).isSome then
            pyLower firstToken ++ sliceFrom desc (strLen firstToken)
          else desc
        "reported that " ++ desc
      else "reported that an incident occurred on site."
    let spd := dset spd "action" desc
    let desc :=
      if officer2 ≠ "" then
        let d := pyStrip (reSub (rxOfficerNamed officer2) "" desc)
        let d := reSub rxRepThatTwice "reported that" d
        if !pyStartsWith (pyLower d) "reported that" then
          "reported that " ++ pyStrip d
        else d
      else desc
    .ok { st with spd_buffer := dset spd "action" desc }
  else if pyStartsWith (pyLower (pyStrip ln)) "new activity"
      || pyLower (pyStrip ln) == "close" then
    let spd := st.spd_buffer
    let idate := pyStrip (dgetD spd "incident_date")
    let itime := pyStrip (dgetD spd "incident_time")
    let spd :=
      if idate ≠ "" then
        match (pySplitSep "/" idate).map strToNatStrict with
        | [some mo, some dd, some yyyy] =>
          dset spd "date" (pad2 mo ++ "/" ++ pad2 dd ++ "/" ++
            sliceLast (toString yyyy) 2 ++ " " ++ itime)
        | _ => dset spd "date" (dgetD spd "start_date")
      else dset spd "date" (dgetD spd "start_date")
    let evt := build_event_line spd
    if evt ≠ "" then
      let evt := pyStrip (reSub rxEnDashParenTail "" evt)
      let info : List String :=
        (if idate ≠ "" then
          ["<font color=\x27red\x27>Incident Date: <b>" ++ idate ++ "</b>" ++
            (if itime ≠ "" then " at <b>" ++ itime ++ "</b>" else "") ++ "</font>"]
         else []) ++
        (if truthy (dget spd "location") then
          ["<font color=\x27red\x27>Location: <b>" ++ dgetD spd "location" ++ "</b></font>"]
         else []) ++
        (if truthy (dget spd "caller") then
          ["Who Called: <b>" ++ dgetD spd "caller" ++ "</b>"] else []) ++
        (if truthy (dget spd "parties") then
          ["Parties Involved: <b>" ++ dgetD spd "parties" ++ "</b>"] else [])
      let evt := if !info.isEmpty then evt ++ " (" ++ pyJoin ", " info ++ ")" else evt
      let parsed ← pappend st.parsed "SPD Presence/Emergency Response on Site" evt
      .ok { st with parsed := parsed, in_spd := false, spd_buffer := [] }
    else
      .ok { st with in_spd := false, spd_buffer := [] }
  else .ok st
where
  collectCaller : List String → List String → List String
    | [], acc => acc
    | nxt :: rest, acc =>
      let s := pyStrip nxt
      if (reMatch rxSpdCallerStop s).isSome then acc
      else if s = "" || pyStartsWith (pyLower s) "parties involved" then acc
      else if reTest rxReportLogbookPdf s then collectCaller rest acc
      else if (reMatch rxFooterTs s).isSome then collectCaller rest acc
      else collectCaller rest (acc ++ [s])
  collectParties : List String → List String → List String
    | [], acc => acc
    | nxt :: rest, acc =>
      let s := pyStrip nxt
      if (reMatch rxSpdPartiesStop s).isSome then acc
      else if s = "" then collectParties rest acc
      else if reTest rxReportLogbookPdf s then collectParties rest acc
      else if (reMatch rxFooterTs s).isSome then collectParties rest acc
      else collectParties rest (acc ++ [s])
  collectDesc : List String → String → String
    | [], desc => desc
    | nxt :: rest, desc =>
      let s := pyStrip nxt
      if (reMatch rxSpdDescStop s).isSome then desc
      else if s ≠ "" then collectDesc rest (desc ++ " " ++ s)
      else collectDesc rest desc
  normOfficer (officer : String) : String :=
    let n := pyStrip (reSub rxWsRun " " officer)
    match pySplitWs n with
    | [p0, p1] =>
      if pyIsUpper p0 then pyCapitalize p1 ++ " " ++ pyCapitalize p0 else n
    | _ => n

/-! ## Ambassador sub-block handler -/

/-- One line inside a Seattle Ambassadors block (source lines 2640–2736). -/
def ambassadorStep (lines : List String) (st : ScanSt) (ln : String) :
    Except PyErr ScanSt := do
  if pyLower (pyStrip ln) == "close" then
    let curIdx := linesIndex lines ln
    if curIdx + 1 < lines.length
        && strIn "seattle ambassadors" (pyLower (lineAt lines (curIdx + 1))) then
      .ok st
    else
      .ok { st with in_ambassador := false, ambassador_buffer := [] }
  else if reTest rxStartDateColon ln then
    let startVal := pyStrip (afterFirst ":" ln)
    let amb := dset st.ambassador_buffer "start_date" startVal
    let buf := dset st.buffer "start_date" startVal
    let amb :=
      match reMatch rxAmbStart startVal with
      | some (_, caps) =>
        let cs := chars startVal
        let mo := strToNat (capGetD cs caps 1)
        let dd := strToNat (capGetD cs caps 2)
        let yyyy := capGetD cs caps 3
        let hh0 := strToNat (capGetD cs caps 4)
        let mins := capGetD cs caps 5
        let ampmOpt := capGet cs caps 6
        let (hh, ampm) :=
          match ampmOpt with
          | some a => (hh0, a)
          | none =>
            if hh0 ≥ 12 then ((if hh0 > 12 then hh0 - 12 else hh0), "PM")
            else ((if hh0 == 0 then 12 else hh0), "AM")
        dset amb "date" (pad2 mo ++ "/" ++ pad2 dd ++ "/" ++ sliceLast yyyy 2 ++
          " " ++ toString hh ++ ":" ++ mins ++ " " ++ pyUpper ampm)
      | none => dset amb "date" startVal
    .ok { st with ambassador_buffer := amb, buffer := buf }
  else if reTest rxDashTimeColon ln then
    let rawTime := pyStrip (afterFirst ":" ln)
    let amb :=
      match reMatch rxHhMm rawTime with
      | some (_, caps) =>
        dset st.ambassador_buffer "incident_time"
          (hhmmToAmPm (strToNat (capGetD (chars rawTime) caps 1))
            (strToNat (capGetD (chars rawTime) caps 2)))
      | none => st.ambassador_buffer
    .ok { st with ambassador_buffer := amb }
  else if reTest rxDashDateColon ln then
    let amb := dset st.ambassador_buffer "incident_date" (pyStrip (afterFirst ":" ln))
    .ok { st with ambassador_buffer := amb }
  else if pyStartsWith (pyLower ln) "- officer" || strIn "officer :" (pyLower ln) then
    let amb := dset st.ambassador_buffer "officer" (pyStrip (afterFirst ":" ln))
    .ok { st with ambassador_buffer := amb }
  else if pyStartsWith (pyLower ln) "- location" then
    let amb := dset st.ambassador_buffer "location" (pyStrip (afterFirst ":" ln))
    .ok { st with ambassador_buffer := amb }
  else if pyStartsWith (pyLower (pyStrip ln)) "new activity"
      || pyLower (pyStrip ln) == "close" then
    let amb := st.ambassador_buffer
    let amb :=
      if truthy (dget amb "incident_date") && truthy (dget amb "incident_time") then
        dset amb "date" (dgetD amb "incident_date" ++ " " ++ dgetD amb "incident_time")
      else if !truthy (dget amb "date") && truthy (dget amb "start_date") then
        dset amb "date" (dgetD amb "start_date")
      else amb
    let amb :=
      if truthy (dget amb "location") then
        dset amb "location" (format_location_name (pyStrip (dgetD amb "location")))
      else amb
    let amb := dset amb "action"
      ("placed a phone call to MID to dispatch the Seattle Ambassadors on site " ++
        "to clean human waste, bodily fluids, and messy trash on the exterior.")
    let evt := build_event_line amb
    if evt ≠ "" then
      let parsed ← pappend st.parsed "Janitorial" evt
      .ok { st with parsed := parsed, in_ambassador := false, ambassador_buffer := [] }
    else
      .ok { st with in_ambassador := false, ambassador_buffer := [] }
  else .ok st

/-! ## Unsecure-door handler -/

/-- The `unsecure door` block (source lines 2739–2822): look ahead up to 15
lines, build a Retail Issues entry and append it. -/
def unsecureStep (lines : List String) (st : ScanSt) (ln : String) :
    Except PyErr ScanSt := do
  let curIdx := linesIndex lines ln
  let block := (lines.drop curIdx).take 15
  let ub0 : Dict := [("category", "Retail Issues"), ("start_date", ""),
    ("incident_date", ""), ("incident_time", ""), ("officer", ""),
    ("location", ""), ("action", "")]
  let ub := block.foldl (fun ub sub =>
    let ub :=
      if reTest rxStartDateColon sub then
        match reSearch rxDigitSlashTs sub with
        | some (_, _, caps) => dset ub "start_date" (pyStrip (capGetD (chars sub) caps 1))
        | none => ub
      else ub
    let ub :=
      if reTest rxDashDateColon sub then
        match reSearch rxDigitsSlash sub with
        | some (_, _, caps) => dset ub "incident_date" (pyStrip (capGetD (chars sub) caps 1))
        | none => ub
      else ub
    let ub :=
      if reTest rxDashTimeColon sub then
        match reSearch rxHhMm sub with
        | some (_, _, caps) =>
          dset ub "incident_time"
            (hhmmToAmPm (strToNat (capGetD (chars sub) caps 1))
              (strToNat (capGetD (chars sub) caps 2)))
        | none => ub
      else ub
    let ub :=
      if strIn "pre-defined list" (pyLower sub) || reTest rxDashOfficerColon sub then
        dset ub "officer" (pyStrip (afterFirst ":" sub))
      else ub
    let ub :=
      if reTest rxDashLocationColon sub then
        let loc := pyStrip (afterFirst ":" sub)
        if !strIn "°" loc then dset ub "location" (format_location_name loc) else ub
      else ub
    ub) ub0
  let idate := dgetD ub "incident_date"
  let itime := dgetD ub "incident_time"
  let sdate := dgetD ub "start_date"
  let ub :=
    if idate ≠ "" && itime ≠ "" then
      match (pySplitSep "/" idate).map strToNatStrict with
      | [some mo, some dd, some yyyy] =>
        dset ub "date" (pad2 mo ++ "/" ++ pad2 dd ++ "/" ++
          sliceLast (toString yyyy) 2 ++ " " ++ itime)
      | _ => dset ub "date" (idate ++ " " ++ itime)
    else if itime ≠ "" then dset ub "date" itime
    else dset ub "date" sdate
  -- `unsecure_buffer.get('location', 'the site')` : the key is always
  -- present (possibly empty), so the default never applies
  let ub := dset ub "action"
    ("reported that a door at " ++ ((dget ub "location").getD "the site") ++
      " was found unsecured and was properly secured upon discovery.")
  let evt := build_event_line ub
  if evt ≠ "" then
    let parsed ← pappend st.parsed "Retail Issues" evt
    .ok { st with parsed := parsed, in_unsecure := false, unsecure_buffer := [] }
  else
    .ok { st with in_unsecure := false, unsecure_buffer := [] }

/-! ## Main-loop remaining regexes and `is_new_block_line` -/

/-- The `starters` marker list of `parse_events` (source lines 398–413). -/
def starters : List String := [
  "Start Date", "Officer", "- Officer :", "Date & Time", "Date/Time",
  "- Date :", "- Time :", "Details", "Call Details", "Location",
  "- Location :", "Company", "- Company", "Vendor", "Comments",
  "- Multi-line text field", "Geolocation", "Evidence", "NEW ACTIVITY",
  "TOUR", "Start Time", "End Time", "Report Details", "Posts included",
  "Activities included", "New Group", "Tags", "Duration",
  "Max. Tour Duration", "- Picture", "Picture", "Key Service",
  "Loading Dock Gate", "Fire Panel", "Janitorial", "Transient Removal",
  "Retail Issues", "Tenant Issues", "Fire Panel Bypass/Online", "Incident",
  "Totals Activities", "Total Activities", "Activity Duration",
  "Object Duration", "AES Phone Call", "Work Order", "Other/Miscellaneous",
  "Synopsis", "Follow up", "Escalation?", "- Upload picture"]

/-- `is_new_block_line` (source lines 422–439); reads the live buffer's
category for the incident-report timestamp exception. -/
def is_new_block_line (buffer : Dict) (ln : String) : Bool :=
  if ln = "" then true
  else if starters.any (fun s => pyStartsWith ln s) then true
  else if strIn "(Officers)" ln then true
  else if (reMatch rxBareTsFull ln).isSome then
    if pyStartsWith (pyLower (dgetD buffer "category")) "incident report" then false
    else true
  else if ln == "300 Pine Street" || ln == "300 Pine Street Call Details" then true
  else false

/-- `OFFICER_LINE_RX` : `^(.*?)\s*\(Officers?\)\s*$` (IGNORECASE). -/
def rxOfficerLine : RE :=
  rseq [.bol, .grp 1 (.star true rDot), .star false rws, rchar '(',
    rstrI "Officer", .opt false (rcharI 's'), rchar ')', .star false rws, .eol]

/-- `OFFICER_LINE_RX_ALT` : `^(.*?)\s*\(Site\s+Supervisors?\)\s*$` (IGNORECASE). -/
def rxOfficerLineAlt : RE :=
  rseq [.bol, .grp 1 (.star true rDot), .star false rws, rchar '(',
    rstrI "Site", rplus false rws, rstrI "Supervisor", .opt false (rcharI 's'),
    rchar ')', .star false rws, .eol]

/-- `MULTILINE_RX` : `^-\s*Multi-?line\s+text\s+field\s*:\s*(.*)$` (IGNORECASE). -/
def rxMultilineCapture : RE :=
  rseq [.bol, rchar '-', .star false rws, rstrI "Multi",
    .opt false (rchar '-'), rstrI "line", rplus false rws, rstrI "text",
    rplus false rws, rstrI "field", .star false rws, rchar ':', .star false rws,
    .grp 1 (.star false rDot), .eol]

/-- regex `^(Activities|Loading|Key|Door|Gate|Victrola|Uniqlo|Report|Duration|Object)\b`
(IGNORECASE). -/
def rxNonPersonLabel : RE :=
  rseq [.bol, .grp 1 (ralt [rstrI "Activities", rstrI "Loading", rstrI "Key",
    rstrI "Door", rstrI "Gate", rstrI "Victrola", rstrI "Uniqlo",
    rstrI "Report", rstrI "Duration", rstrI "Object"]), .wb]

/-- regex `Start\s*Date\s*:\s*([0-9/:\sAPMapm]+)` (IGNORECASE). -/
def rxStartDateLoose : RE :=
  rseq [rstrI "Start", .star false rws, rstrI "Date", .star false rws, rchar ':',
    .star false rws,
    .grp 1 (rplus false (.cls (fun c => isDigitC c || c == '/' || c == ':'
      || isPySpace c || ['a', 'p', 'm'].contains (lowerC c))))]

/-- regex `\bStart\s*Date\s*:` (IGNORECASE). -/
def rxStartDateColonWb : RE :=
  rseq [.wb, rstrI "Start", .star false rws, rstrI "Date", .star false rws, rchar ':']

/-- regex `\bStart\s*Date\s*:\s*([0-9/]+\s+\d{1,2}:\d{2}\s*[APap][Mm])` (IGNORECASE). -/
def rxStartDateNamedWb : RE :=
  rseq [.wb, rstrI "Start", .star false rws, rstrI "Date", .star false rws,
    rchar ':', .star false rws,
    .grp 1 (rseq [rplus false (.cls (fun c => isDigitC c || c == '/')),
      rplus false rws, rrange 1 2 rd, rchar ':', rtimes 2 rd, .star false rws,
      rofI ['a', 'p'], rcharI 'm'])]

/-- regex `(Date\s*of\s*(the\s*)?Incident|Incident\s*Date)\s*:` (IGNORECASE). -/
def rxIncidentDateHdr : RE :=
  rseq [.grp 1 (ralt [
    rseq [rstrI "Date", .star false rws, rstrI "of", .star false rws,
      .opt false (.grp 2 (.seq (rstrI "the") (.star false rws))), rstrI "Incident"],
    rseq [rstrI "Incident", .star false rws, rstrI "Date"]]),
    .star false rws, rchar ':']

/-- regex `(Date\s*of\s*(the\s*)?Incident|Incident\s*Date)\s*:\s*([0-9/]+)` (IGNORECASE). -/
def rxIncidentDateCap : RE :=
  .seq rxIncidentDateHdr
    (.seq (.star false rws)
      (.grp 3 (rplus false (.cls (fun c => isDigitC c || c == '/')))))

/-- regex `(Time\s*of\s*(the\s*)?Incident|Incident\s*Time)\s*:` (IGNORECASE). -/
def rxIncidentTimeHdr : RE :=
  rseq [.grp 1 (ralt [
    rseq [rstrI "Time", .star false rws, rstrI "of", .star false rws,
      .opt false (.grp 2 (.seq (rstrI "the") (.star false rws))), rstrI "Incident"],
    rseq [rstrI "Incident", .star false rws, rstrI "Time"]]),
    .star false rws, rchar ':']

/-- regex `(Time\s*of\s*(the\s*)?Incident|Incident\s*Time)\s*:\s*([0-9:]+\s*(AM|PM|am|pm)?)`
(IGNORECASE). -/
def rxIncidentTimeCap : RE :=
  .seq rxIncidentTimeHdr
    (.seq (.star false rws)
      (.grp 3 (rseq [rplus false (.cls (fun c => isDigitC c || c == ':')),
        .star false rws,
        .opt false (.grp 4 (ralt [rstrI "AM", rstrI "PM"]))])))

/-- regex `^(-\s*)?parties\s+involved\b` (IGNORECASE). -/
def rxPartiesInvLead : RE :=
  rseq [.bol, .opt false (.grp 1 (.seq (rchar '-') (.star false rws))),
    rstrI "parties", rplus false rws, rstrI "involved", .wb]

/-- regex `^(-\s*)?(additional comments|photos?|evidence|incident info|geolocation)\b`
(IGNORECASE). -/
def rxAddlHdrs : RE :=
  rseq [.bol, .opt false (.grp 1 (.seq (rchar '-') (.star false rws))),
    .grp 2 (ralt [rstrI "additional comments",
      .seq (rstrI "photo") (.opt false (rcharI 's')), rstrI "evidence",
      rstrI "incident info", rstrI "geolocation"]), .wb]

/-- regex `(report\s*-\s*logbook\s*pdf|\bpage\s*\d+/\d+)` (IGNORECASE). -/
def rxPageNoise : RE :=
  .grp 1 (ralt [
    rseq [rstrI "report", .star false rws, rchar '-', .star false rws,
      rstrI "logbook", .star false rws, rstrI "pdf"],
    rseq [.wb, rstrI "page", .star false rws, rplus false rd, rchar '/',
      rplus false rd]])

/-- regex `^(-\s*)?(photos?|evidence|additional comments)\b` (IGNORECASE). -/
def rxPhotoEvStop : RE :=
  rseq [.bol, .opt false (.grp 1 (.seq (rchar '-') (.star false rws))),
    .grp 2 (ralt [.seq (rstrI "photo") (.opt false (rcharI 's')),
      rstrI "evidence", rstrI "additional comments"]), .wb]

/-- regex `^-\s*`. -/
def rxLeadDash : RE := rseq [.bol, rchar '-', .star false rws]

/-- The tail of the main-loop body (source lines 2857–3215): officer lines,
`Start Date` boundaries, content fields, vehicle info, continuations. -/
def processLineTail (lines : List String) (st : ScanSt) (ln : String) :
    Except PyErr ScanSt := do
  if ln == "Officer" then
    .ok { st with waiting_officer_nested := true, last_field := none }
  else if st.waiting_officer_nested && pyStartsWith ln "- Officer :" then
    .ok { st with buffer := dset st.buffer "officer" (pyStrip (afterFirst ":" ln)),
                  waiting_officer_nested := false, last_field := some "officer" }
  else if pyStartsWith ln "- Officer :" || pyStartsWith ln "Officer :" then
    .ok { st with buffer := dset st.buffer "officer" (pyStrip (afterFirst ":" ln)),
                  last_field := some "officer" }
  else if (reMatch rxOfficerLine ln).isSome then
    match reMatch rxOfficerLine ln with
    | some (_, caps) =>
      let v := pyStripSet [' ', '-', ':'] (capGetD (chars ln) caps 1)
      .ok { st with buffer := dset st.buffer "officer" v, last_field := some "officer" }
    | none => .ok st
  else if (reMatch rxOfficerLineAlt ln).isSome then
    match reMatch rxOfficerLineAlt ln with
    | some (_, caps) =>
      let v := pyStripSet [' ', '-', ':'] (capGetD (chars ln) caps 1)
      .ok { st with buffer := dset st.buffer "officer" v, last_field := some "officer" }
    | none => .ok st
  else
    -- officer-name normalization (falls through)
    let st :=
      if truthy (dget st.buffer "officer") then
        let name := pyStrip (dgetD st.buffer "officer")
        if !(reMatch rxNonPersonLabel name).isSome then
          let parts := pySplitWs name
          let officer :=
            match parts with
            | [p0, p1] =>
              if pyIsUpper p0 && isUpperC ((chars p1).headD ' ') then
                pyCapitalize p1 ++ " " ++ pyCapitalize p0
              else pyJoin " " (parts.map pyCapitalize)
            | _ => pyJoin " " (parts.map pyCapitalize)
          { st with buffer := dset st.buffer "officer" officer }
        else st
      else st
    if pyStartsWith ln "NEW ACTIVITY"
        && pyLower (dgetD st.buffer "category") == "incident report" then
      flush_event lines st
    else if pyStartsWith ln "Start Date" then
      if pyLower (dgetD st.buffer "category") == "incident report" then
        .ok { st with buffer := dset st.buffer "date" (pyStrip (afterFirst ":" ln)),
                      last_field := some "date" }
      else do
        let st ← flush_event lines st
        .ok { st with buffer := dset st.buffer "date" (pyStrip (afterFirst ":" ln)),
                      last_field := some "date" }
    else if strIn "Minute Break" ln || strIn "Lunch Break" ln
        || strIn "Break Details" ln then
      .ok { st with last_field := none }
    else if ["Totals Activities", "Total Activities", "Object Duration",
        "Activity Duration"].any (fun x => strIn x ln) then
      .ok { st with last_field := none }
    else if pyLower (pyStrip ln) == "close" then
      .ok { st with last_field := none }
    else if ["escalation?", "- was the police", "- (if so", "- upload picture",
        "- call back number", "- all persons involved"].any
          (fun p => pyStartsWith (pyLower ln) p) then
      .ok { st with last_field := none }
    else if strIn "Security action" ln || strIn "What are you doing" ln
        || strIn "What did you do" ln then
      .ok { st with buffer := dset st.buffer "action" (pyStrip (afterFirst ":" ln)),
                    last_field := some "action" }
    else if pyStartsWith (pyLower ln) "- description of what happened" then
      let b := dset st.buffer "incident_description" (pyStrip (afterFirst ":" ln))
      .ok { st with buffer := b, last_field := some "incident_description" }
    else if pyStartsWith (pyLower ln) "- operator name" then
      let b := dset st.buffer "operator_name" (pyStrip (afterFirst ":" ln))
      .ok { st with buffer := b, last_field := some "operator_name" }
    else if pyStartsWith (pyLower ln) "- operator #"
        || pyStartsWith (pyLower ln) "- operator number" then
      let b := dset st.buffer "operator_number" (pyStrip (afterFirst ":" ln))
      .ok { st with buffer := b, last_field := some "operator_number" }
    else if pyStartsWith (pyLower ln) "- comments" then
      let b := dset st.buffer "incident_comments" (pyStrip (afterFirst ":" ln))
      .ok { st with buffer := b, last_field := some "incident_comments" }
    else if (reMatch rxBareTsFull ln).isSome
        && pyLower (dgetD st.buffer "category") == "incident report" then
      -- bare timestamp inside an Incident Report
      if !dmem st.buffer "start_date" then
        let b := dset (dset st.buffer "start_date" (pyStrip ln)) "date"
          (dgetD (dset st.buffer "start_date" (pyStrip ln)) "start_date")
        .ok { st with buffer := b }
      else .ok st
    else if reTest rxStartDateColon ln && (reSearch rxStartDateLoose ln).isSome then
      match reSearch rxStartDateLoose ln with
      | some (_, _, caps) =>
        let v := pyStrip (capGetD (chars ln) caps 1)
        let b := dset (dset st.buffer "start_date" v) "date" v
        .ok { st with buffer := b, last_field := some "date" }
      | none => .ok st
    else if reTest rxStartDateColonWb ln && (reSearch rxStartDateNamedWb ln).isSome then
      match reSearch rxStartDateNamedWb ln with
      | some (_, _, caps) =>
        let v := pyStrip (capGetD (chars ln) caps 1)
        let b := dset (dset st.buffer "start_date" v) "date" v
        .ok { st with buffer := b, last_field := some "start_date" }
      | none => .ok st
    else if reTest rxIncidentDateHdr ln && (reSearch rxIncidentDateCap ln).isSome then
      match reSearch rxIncidentDateCap ln with
      | some (_, _, caps) =>
        let b := dset st.buffer "incident_date" (pyStrip (capGetD (chars ln) caps 3))
        .ok { st with buffer := b, last_field := some "incident_date" }
      | none => .ok st
    else if reTest rxIncidentTimeHdr ln && (reSearch rxIncidentTimeCap ln).isSome then
      match reSearch rxIncidentTimeCap ln with
      | some (_, _, caps) =>
        let b := dset st.buffer "incident_time" (pyStrip (capGetD (chars ln) caps 3))
        .ok { st with buffer := b, last_field := some "incident_time" }
      | none => .ok st
    else if pyStartsWith (pyLower ln) "- incident location" then
      let b := dset st.buffer "location" (pyStrip (afterFirst ":" ln))
      .ok { st with buffer := b, last_field := some "location" }
    else if pyStartsWith (pyLower ln) "- long description of incident" then
      let b := dset st.buffer "incident_description" (pyStrip (afterFirst ":" ln))
      .ok { st with buffer := b, last_field := some "incident_description" }
    else if st.last_field == some "incident_description" then
      let stripped := pyStrip ln
      if (reMatch rxPartiesInvLead stripped).isSome then
        .ok { st with buffer := dset st.buffer "parties_involved" "",
                      last_field := some "parties_involved" }
      else if (reMatch rxAddlHdrs stripped).isSome then
        .ok { st with last_field := none }
      else if reTest rxPageNoise stripped then
        .ok st
      else
        let prev := dgetD st.buffer "incident_description"
        let b := dset st.buffer "incident_description" (pyStrip (prev ++ " " ++ stripped))
        .ok { st with buffer := b }
    else if pyStartsWith (pyLower (pyStrip ln)) "parties involved" then
      let val := pyStrip (afterFirst ":" ln)
      let idx := linesIndex lines ln
      let valLines := (if val ≠ "" then [val] else []) ++
        collectParties2 (lines.drop (idx + 1)) []
      let combined := pyJoin ", " ((valLines.map pyStrip).filter (fun v => v ≠ ""))
      let combined := reSub rxPartiesLead "" combined
      let combined := reSub rxWs2 " " combined
      let combined := camelSplit combined
      let combined := pyStrip (pyStripSet [' ', '-', ',', ':'] combined)
      let combined := andJoin combined
      let st := if combined ≠ "" then
          { st with buffer := dset st.buffer "parties_involved" combined }
        else st
      .ok { st with last_field := none }
    else if pyStartsWith (pyLower ln) "- year" then
      .ok { st with buffer := dset st.buffer "year" (pyStrip (afterFirst ":" ln)) }
    else if pyStartsWith (pyLower ln) "- make" then
      .ok { st with buffer := dset st.buffer "make" (pyStrip (afterFirst ":" ln)) }
    else if pyStartsWith (pyLower ln) "- model" then
      .ok { st with buffer := dset st.buffer "model" (pyStrip (afterFirst ":" ln)) }
    else if pyStartsWith (pyLower ln) "- color" then
      .ok { st with buffer := dset st.buffer "color" (pyStrip (afterFirst ":" ln)) }
    else if pyStartsWith (pyLower ln) "- description" then
      let b := dset st.buffer "vehicle_description" (pyStrip (afterFirst ":" ln))
      .ok { st with buffer := b }
    else if pyStartsWith (pyLower ln) "comments" then
      .ok { st with last_field := some "comment" }
    else if (reMatch rxMultilineCapture ln).isSome then
      match reMatch rxMultilineCapture ln with
      | some (_, caps) =>
        let b := dset st.buffer "comment" (pyStrip (capGetD (chars ln) caps 1))
        .ok { st with buffer := b, last_field := some "comment" }
      | none => .ok st
    else if ["Details", "Call Details", "Date & Time", "Date/Time"].contains ln then
      .ok { st with last_field := none }
    else if strIn "Company" ln || strIn "Vendor" ln then
      .ok { st with buffer := dset st.buffer "company" (pyStrip (afterFirst ":" ln)),
                    last_field := some "company" }
    else if (pyStartsWith ln "Location" || pyStartsWith ln "- Location :")
        && (pySplitSep ":" ln).length > 1 then
      match pySplitSep ":" ln with
      | _ :: rest =>
        let v := pyStrip (pyJoin ":" rest)
        -- `ln.split(":", 1)` : only the first colon splits
        .ok { st with buffer := dset st.buffer "location" v,
                      last_field := some "location" }
      | _ => .ok st
    else if pyStartsWith ln "Geolocation" || strIn "LOGBOOK PDF" ln then
      .ok { st with last_field := none }
    -- (the duplicated vehicle-info block of the source, lines 3185–3199,
    -- is unreachable: the identical conditions above already returned)
    else if (st.last_field == some "action" || st.last_field == some "company"
          || st.last_field == some "location" || st.last_field == some "comment")
        && !is_new_block_line st.buffer ln then
      let lf := st.last_field.getD ""
      let prev := dgetD st.buffer lf
      if strLen prev < 200 then
        .ok { st with buffer := dset st.buffer lf (pyStrip (prev ++ " " ++ ln)) }
      else .ok st
    else if (st.last_field == some "incident_description"
          || st.last_field == some "incident_comments")
        && !is_new_block_line st.buffer ln then
      let lf := st.last_field.getD ""
      let prev := dgetD st.buffer lf
      if strLen prev < 800 then
        .ok { st with buffer := dset st.buffer lf (pyStrip (prev ++ " " ++ ln)) }
      else .ok st
    else .ok st
where
  collectParties2 : List String → List String → List String
    | [], acc => acc
    | nxt :: rest, acc =>
      let s := pyStrip nxt
      if (reMatch rxPhotoEvStop s).isSome then acc
      else if s = "" then collectParties2 rest acc
      else if reTest rxReportLogbookPdf s then collectParties2 rest acc
      else if (reMatch rxFooterTs s).isSome then collectParties2 rest acc
      else collectParties2 rest (acc ++ [reSub rxLeadDash "" s])

/-! ## `parse_events` : per-line step -/

/-- The label-capture keyword list (source lines 2835–2840, case-sensitive). -/
def labelKeywords : List String := [
  "AES Phone Call", "Loading Dock Gate", "Key Service", "Work Order",
  "Janitorial", "Incident Report", "Alarm", "Fire Panel Bypass/Online",
  "Transient Removal", "Retail", "Tenant", "Other/Miscellaneous",
  "Elevator Entrapment", "Entrapment Incident", "Stuck in Elevator"]

/-- One iteration of the main scan loop of `parse_events`
(source lines 2032–3215), for line `ln` at position `i`. -/
def processLine (lines : List String) (i : Nat) (ln : String) (st : ScanSt) :
    Except PyErr ScanSt := do
  let catLower := pyLower (dgetD st.buffer "category")
  if (reMatch rxNumbersParen ln).isSome then
    .ok { st with last_field := none }
  -- bare Start Date capture, exclusive to Incident Report
  else if strIn "incident report" catLower
      && (reSearch rxStartDateNamed ln).isSome then
    match reSearch rxStartDateNamed ln with
    | some (_, _, caps) =>
      let startVal := pyStrip (capGetD (chars ln) caps 1)
      let st ← if truthy (dget st.buffer "date") then flush_event lines st else .ok st
      let b := dset (dset st.buffer "start_date" startVal) "date" startVal
      .ok { st with buffer := b, last_field := some "date" }
    | none => .ok st
  -- bare Start Date capture, exclusive to Elevator Entrapment
  else if strIn "elevator entrapment incident" catLower
      && (reSearch rxStartDateNamed ln).isSome then
    match reSearch rxStartDateNamed ln with
    | some (_, _, caps) =>
      let startVal := pyStrip (capGetD (chars ln) caps 1)
      let st ← if truthy (dget st.buffer "date") then flush_event lines st else .ok st
      let b := dset (dset st.buffer "start_date" startVal) "date" startVal
      .ok { st with buffer := b, last_field := some "date" }
    | none => .ok st
  -- "Who Called" in the Escalation section
  else if reTest rxWhoCalledQ ln then
    let val := pyStrip (afterFirst ":" ln)
    let idx := linesIndex lines ln
    let val := collectWho (lines.drop (idx + 1)) val
    let val := pyStrip (reSub rxNonWordLead "" val)
    let val := reSub rxWs2 " " val
    let val := camelSplit val
    let val := pyStrip (pyRStripSet [')'] val)
    if val ≠ "" then
      .ok { st with buffer := dset st.buffer "who_called" val }
    else .ok st
  -- "All persons involved" (multi-line)
  else if reTest rxAllPersons ln then
    let val := pyStrip (afterFirst ":" ln)
    let idx := linesIndex lines ln
    let val :=
      if val = "" && idx + 1 < lines.length then
        let nxtLine := pyStrip (lineAt lines (idx + 1))
        if !(reMatch rxPartiesHdr nxtLine).isSome then nxtLine else val
      else val
    let valLines := (if val ≠ "" then [val] else []) ++
      collectPersons (lines.drop (idx + 1)) val []
    let combined := pyJoin ", " valLines
    let combined := reSub rxAllPersonsLead "" combined
    let combined := reSub rxWs2 " " combined
    let combined := camelSplit combined
    let combined := pyStrip (pyStripSet [' ', '-', ',', ':'] combined)
    let combined := andJoin combined
    if combined ≠ "" then
      .ok { st with buffer := dset st.buffer "parties_involved" combined }
    else .ok st
  -- bare timestamp, exclusive to Key Service
  else if strIn "key service" catLower && (reMatch rxBareTsFull ln).isSome then
    let st ← if truthy (dget st.buffer "date") then flush_event lines st else .ok st
    .ok { st with buffer := dset st.buffer "date" (pyStrip ln),
                  last_field := some "date" }
  -- bare timestamp, exclusive to Loading Dock
  else if (strIn "loading dock" catLower || strIn "dock gate" catLower)
      && (reMatch rxBareTsFull ln).isSome then
    let st ←
      if truthy (dget st.buffer "date")
          && (truthy (dget st.buffer "action") || truthy (dget st.buffer "company")) then
        flush_event lines st
      else .ok st
    .ok { st with buffer := dset st.buffer "date" (pyStrip ln),
                  last_field := some "date" }
  -- bare timestamp, exclusive to Fire Panel
  else if strIn "fire panel" catLower && (reMatch rxBareTsFull ln).isSome
      && !reTest rxUntilByAt ln then
    let st ←
      if truthy (dget st.buffer "date")
          && (truthy (dget st.buffer "action") || truthy (dget st.buffer "company")) then
        flush_event lines st
      else .ok st
    .ok { st with buffer := dset st.buffer "date" (pyStrip ln),
                  last_field := some "date" }
  else
    -- officer look-backs and the NEW ACTIVITY officer scan fall through
    let st :=
      if reTest rxLoadingDockGate ln then
        match (rangeDown (i - 1) (i - min i 6)).findSome? (fun back =>
            let prevLine := pyStrip (lineAt lines back)
            if (reMatch rxNameTwo prevLine).isSome then some prevLine else none) with
        | some prevLine =>
          let name := pyStrip (reSub rxParen "" prevLine)
          let parts := pySplitWs name
          let officer :=
            match parts with
            | [p0, p1] =>
              if pyIsUpper p0 || isUpperC ((chars p0).headD ' ') then
                pyCapitalize p1 ++ " " ++ pyCapitalize p0
              else pyJoin " " (parts.map pyCapitalize)
            | _ => pyJoin " " (parts.map pyCapitalize)
          { st with buffer := dset st.buffer "officer" officer }
        | none => st
      else st
    let st :=
      if reTest (rseq [.wb, rstrI "Fire", rplus false rws, rstrI "Panel",
          rplus false rws, rstrI "Bypass/Online", .wb]) ln then
        officerLookbackThree st i
      else st
    let st :=
      if reTest (rseq [.wb, rstrI "AES", rplus false rws, rstrI "Phone",
          rplus false rws, rstrI "Call", .wb]) ln then
        officerLookbackThree st i
      else st
    let st :=
      if pyStartsWith (pyLower (pyStrip ln)) "new activity" then
        let nextIdx := linesIndex lines ln + 1
        match (rangeUp nextIdx (min (nextIdx + 6) lines.length)).findSome? (fun j =>
            let maybeOfficer := pyStrip (lineAt lines j)
            if (reMatch rxNamePre maybeOfficer).isSome then some maybeOfficer else none) with
        | some maybeOfficer =>
          let name := pyStrip (reSub rxParen "" maybeOfficer)
          let name := pyStrip (reSub rxRoleParen "" name)
          let name :=
            match reMatch rxLastFirstName name with
            | some (_, caps) =>
              pyCapitalize (capGetD (chars name) caps 2) ++ " " ++
                pyCapitalize (capGetD (chars name) caps 1)
            | none =>
              if (reMatch rxTwoAllCaps name).isSome then
                match pySplitWs name with
                | [p0, p1] => pyCapitalize p1 ++ " " ++ pyCapitalize p0
                | _ => name
              else if (reMatch rxTwoTitle name).isSome then
                match pySplitWs name with
                | p0 :: p1 :: _ => pyCapitalize p0 ++ " " ++ pyCapitalize p1
                | _ => name
              else name
          { st with buffer := dset st.buffer "officer" (pyStrip (reSub rxWs2 " " name)) }
        | none => st
      else st
    -- SPD block start / body
    if strIn "spd presence/emergency response on" (pyLower ln) then
      let spd : Dict := [("category", "SPD Presence/Emergency Response on Site")]
      let buf := dpop st.buffer "start_date"
      let spd := if truthy (dget buf "officer") then
          dset spd "officer" (pyStrip (dgetD buf "officer"))
        else spd
      let curIdx := linesIndex lines ln
      let (spd, buf) :=
        match ((lines.drop curIdx).take 4).findSome? (fun nxtLn =>
            match reSearch rxStartDateOptAmPm nxtLn with
            | some (_, _, caps) => some (pyStrip (capGetD (chars nxtLn) caps 1))
            | none => none) with
        | some startVal => (dset spd "start_date" startVal, dset buf "start_date" startVal)
        | none => (spd, buf)
      .ok { st with in_spd := true, spd_buffer := spd, buffer := buf }
    else if st.in_spd then
      spdStep lines st ln
    -- Seattle Ambassadors block start / body
    else if pyLower (pyStrip ln) == "seattle ambassadors"
        || strIn "seattle ambassadors start date" (pyLower ln) then
      let buf := dpop st.buffer "start_date"
      let amb : Dict := [("category", "Seattle Ambassadors")]
      let (amb, buf) :=
        match reSearch rxStartDateOptAmPm ln with
        | some (_, _, caps) =>
          let startVal := pyStrip (capGetD (chars ln) caps 1)
          (dset (dset amb "start_date" startVal) "date" startVal,
           dset buf "start_date" startVal)
        | none => (amb, buf)
      .ok { st with in_ambassador := true, ambassador_buffer := amb, buffer := buf }
    else if st.in_ambassador then
      ambassadorStep lines st ln
    -- Unsecure door (Retail Issues)
    else if strIn "unsecure door" (pyLower ln) then
      unsecureStep lines st ln
    -- TOUR blocks
    else if pyStartsWith (pyUpper ln) "TOUR" then
      .ok { st with in_tour := true }
    else
      let st :=
        if st.in_tour && (pyStartsWith ln "NEW ACTIVITY" || pyStartsWith ln "Start Date") then
          { st with in_tour := false }
        else st
      if st.in_tour then .ok st
      else
        -- label capture (falls through)
        let st ←
          if labelKeywords.any (fun k => strIn k ln) then do
            let st ←
              if strIn "incident report" (pyLower ln) then do
                let carry : Dict :=
                  (if dmem st.buffer "officer" then
                    [("officer", dgetD st.buffer "officer")] else []) ++
                  (if dmem st.buffer "date" then
                    [("date", dgetD st.buffer "date")] else [])
                let st ← flush_event lines st
                .ok { st with buffer := st.buffer ++ carry }
              else .ok st
            let st ←
              if strIn "transient removal" (pyLower ln)
                  && pyLower (dgetD st.buffer "category") == "transient removal" then
                flush_event lines st
              else .ok st
            let st := { st with labels := labelsAdd st.labels ln,
                                buffer := dset st.buffer "category" (pyStrip ln) }
            .ok (if strIn "Transient Removal" ln then
                { st with transient_tag_seen := true } else st)
          else .ok st
        processLineTail lines st ln
where
  collectWho : List String → String → String
    | [], val => val
    | nxt :: rest, val =>
      let s := pyStrip nxt
      if (reMatch rxWhoStop s).isSome then val
      else if s ≠ "" then collectWho rest (val ++ " " ++ s)
      else collectWho rest val
  collectPersons : List String → String → List String → List String
    | [], _, acc => acc
    | nxt :: rest, val, acc =>
      let s := pyStrip nxt
      if (reMatch rxPartiesHdr s).isSome then acc
      else if s = "" then collectPersons rest val acc
      else if reTest rxReportLogbookPdf s then collectPersons rest val acc
      else if (reMatch rxFooterTs s).isSome then collectPersons rest val acc
      else if s ≠ val then collectPersons rest val (acc ++ [s])
      else collectPersons rest val acc
  officerLookbackThree (st : ScanSt) (i : Nat) : ScanSt :=
    match (rangeDown (i - 1) (i - min i 6)).findSome? (fun back =>
        let prevLine := pyStrip (lineAt lines back)
        if (reMatch rxNoisyAbove prevLine).isSome then none
        else if (reMatch rxNameTwoOrThree prevLine).isSome then some prevLine
        else none) with
    | some prevLine =>
      let name := pyStrip (reSub rxParen "" prevLine)
      let parts := pySplitWs name
      let officer :=
        match parts with
        | [p0, p1] =>
          if pyIsUpper p0 then pyCapitalize p1 ++ " " ++ pyCapitalize p0
          else pyJoin " " ((pySplitWs name).map pyCapitalize)
        | [p0, p1, p2] =>
          if pyIsUpper p0 then pyCapitalize p1 ++ " " ++ pyCapitalize p2
          else pyJoin " " ((pySplitWs name).map pyCapitalize)
        | _ => pyJoin " " (parts.map pyCapitalize)
      { st with buffer := dset st.buffer "officer" officer }
    | none => st

/-! ## `parse_events` : driver and finalization -/

/-- The Transient Removal count-summary entry (source lines 3229–3231). -/
def transientSummary (n : Nat) : String :=
  "<font color=\"red\">Within the last 24 hours (<b>" ++ pad2 n ++
    "</b>), transients were removed from the property.</font>"

/-- `parsed[s].sort(key=_extract_dt)` : Python's sort is stable, and a stable
sort by a total key is extensionally unique, so the stable
`List.insertionSort` is a faithful model. -/
def sortEntries (l : List String) : List String :=
  List.insertionSort (fun a b => _extract_dt a ≤ _extract_dt b) l

/-- The initial report dictionary `{s: [] for s in SECTIONS}`. -/
def initParsed : Parsed := SECTIONS.map (fun s => (s, []))

/-- The finalization pass of `parse_events` (source lines 3222–3238):
placeholders, Transient Removal collapse, per-category chronological sort. -/
def finalizeReport (parsed : Parsed) (transient_count : Nat) : Parsed :=
  let parsed := parsed.map (fun kv =>
    if SECTIONS.contains kv.1 && kv.2.isEmpty then (kv.1, ["None to Report"]) else kv)
  let parsed := parsed.map (fun kv =>
    if kv.1 == "Transient Removal" then
      (kv.1, if transient_count > 0 then [transientSummary transient_count]
             else ["None to Report"])
    else kv)
  parsed.map (fun kv =>
    if SECTIONS.contains kv.1 && !kv.2.isEmpty && kv.2.head? ≠ some "None to Report" then
      (kv.1, sortEntries kv.2)
    else kv)

/-- One iteration of the main loop : blank lines are skipped (`if not ln:
continue`), every other line is processed. -/
def scanStep (lines : List String) (st : ScanSt) (il : Nat × String) :
    Except PyErr ScanSt :=
  if il.2 = "" then Except.ok st else processLine lines il.1 il.2 st

/-- The initial scanner state. -/
def initSt : ScanSt := { parsed := initParsed }

/-- `parse_events (lines)` (source lines 357–3240) : scan the ordered line
sequence into the category→entries report.  An `Except.error` models an
uncaught Python exception reaching the caller. -/
def parse_events (lines : List String) : Except PyErr Parsed := do
  let st ← (lines.enum).foldlM (scanStep lines) initSt
  -- final safety flush
  let st ← if truthy (dget st.buffer "date") then flush_event lines st else .ok st
  .ok (finalizeReport st.parsed st.transient_count)

/-! ## Concrete scan runs used by the claim analyses -/

/-- Category lookup on a finished run (an `.error` run yields `[]`). -/
def pgetOk (e : Except PyErr Parsed) (sec : String) : List String :=
  match e with
  | .ok p => pget p sec
  | .error _ => []

/-- The report dictionary with the entries of one category replaced
(scan-state literal scaffolding for the concrete runs below). -/
def withEntries (sec : String) (es : List String) : Parsed :=
  initParsed.map (fun kv => if kv.1 == sec then (kv.1, es) else kv)

/-- Input whose second line flushes an `Unclassified` buffer (claim C1). -/
def c1Lines : List String :=
  ["Security action : patrolled the area", "Start Date : 9/1/2025 1:00 PM"]

def c1St1 : ScanSt :=
  { parsed := initParsed
    buffer := [("action", "patrolled the area")]
    last_field := some "action" }

/-- Input with one event classifying Transient Removal whose built line is
empty (claim C3). -/
def c3Lines : List String :=
  ["Transient Removal", "Start Date : 9/1/2025 1:00 PM"]

def c3St1 : ScanSt :=
  { parsed := initParsed
    buffer := [("category", "Transient Removal")]
    labels := ["Transient Removal"]
    transient_tag_seen := true }

def c3St2 : ScanSt :=
  { parsed := initParsed
    buffer := [("date", "9/1/2025 1:00 PM")]
    last_field := some "date" }

/-- Input producing a literal `"None to Report"` first entry followed by a
later-keyed parsable entry, so the final per-category sort is skipped
(claim C4). -/
def c4Lines : List String :=
  ["Tenant Issues", "Start Date : None to Report", "Tenant Issues",
   "Start Date : 9/1/2025 1:00 PM", "Tenant Issues",
   "Security action : tenant complaint about noise"]

def c4EvtLate : String := "09/01/25 1:00 PM – tenanted complaint about noise"

def c4St1 : ScanSt :=
  { parsed := initParsed
    buffer := [("category", "Tenant Issues")]
    labels := ["Tenant Issues"] }

def c4St2 : ScanSt :=
  { parsed := initParsed
    buffer := [("date", "None to Report")]
    last_field := some "date" }

def c4St3 : ScanSt :=
  { parsed := initParsed
    buffer := [("date", "None to Report"), ("category", "Tenant Issues")]
    labels := ["Tenant Issues"]
    last_field := some "date" }

def c4St4 : ScanSt :=
  { parsed := withEntries "Tenant Issues" ["None to Report"]
    buffer := [("date", "9/1/2025 1:00 PM")]
    last_field := some "date" }

def c4St5 : ScanSt :=
  { parsed := withEntries "Tenant Issues" ["None to Report"]
    buffer := [("date", "9/1/2025 1:00 PM"), ("category", "Tenant Issues")]
    labels := ["Tenant Issues"]
    last_field := some "date" }

def c4St6 : ScanSt :=
  { parsed := withEntries "Tenant Issues" ["None to Report"]
    buffer := [("date", "9/1/2025 1:00 PM"), ("category", "Tenant Issues"),
      ("action", "tenant complaint about noise")]
    labels := ["Tenant Issues"]
    last_field := some "action" }

def c4St7 : ScanSt :=
  { parsed := withEntries "Tenant Issues" ["None to Report", c4EvtLate] }

/-- The end-to-end scenario of claim C6, line for line. -/
def c6Lines : List String :=
  ["Loading Dock Gate", "TEGEGNE Getachew", "Start Date : 9/1/2025 8:00 AM",
   "Security action : unlocked the gate for ABM", "Company : ABM",
   "9/1/2025 9:00 AM"]

def c6EvtJ : String :=
  "09/01/25 8:00 AM – coordinated janitorial services through ABM to address reported cleaning needs on site"

def c6St1 : ScanSt :=
  { parsed := initParsed
    buffer := [("category", "Loading Dock Gate")]
    labels := ["Loading Dock Gate"] }

def c6St2 : ScanSt :=
  { parsed := initParsed
    buffer := [("date", "9/1/2025 8:00 AM")]
    last_field := some "date" }

def c6St3 : ScanSt :=
  { parsed := initParsed
    buffer := [("date", "9/1/2025 8:00 AM"), ("action", "unlocked the gate for ABM")]
    last_field := some "action" }

def c6St4 : ScanSt :=
  { parsed := initParsed
    buffer := [("date", "9/1/2025 8:00 AM"), ("action", "unlocked the gate for ABM"),
      ("company", "ABM")]
    last_field := some "company" }

def c6St5 : ScanSt :=
  { parsed := withEntries "Janitorial" [c6EvtJ] }

/-- Input yielding two identical Janitorial entries plus a dateless one
(claim C9). -/
def c9Lines : List String :=
  ["Security action : spill", "Start Date : 9/1/2025 1:00 PM",
   "Security action : spill", "Start Date : 9/1/2025 1:00 PM",
   "Security action : spill"]

def c9EvtA : String :=
  "coordinated janitorial response and notified ABM Janitorial to clean a reported spill/hazard to ensure safety and prevent accidents"

def c9EvtB : String := "09/01/25 1:00 PM – " ++ c9EvtA

def c9St1 : ScanSt :=
  { parsed := initParsed
    buffer := [("action", "spill")]
    last_field := some "action" }

def c9St2 : ScanSt :=
  { parsed := withEntries "Janitorial" [c9EvtA]
    buffer := [("date", "9/1/2025 1:00 PM")]
    last_field := some "date" }

def c9St3 : ScanSt :=
  { parsed := withEntries "Janitorial" [c9EvtA]
    buffer := [("date", "9/1/2025 1:00 PM"), ("action", "spill")]
    last_field := some "action" }

def c9St4 : ScanSt :=
  { parsed := withEntries "Janitorial" [c9EvtA, c9EvtB]
    buffer := [("date", "9/1/2025 1:00 PM")]
    last_field := some "date" }

def c9St5 : ScanSt :=
  { parsed := withEntries "Janitorial" [c9EvtA, c9EvtB]
    buffer := [("date", "9/1/2025 1:00 PM"), ("action", "spill")]
    last_field := some "action" }

def c9St6 : ScanSt :=
  { parsed := withEntries "Janitorial" [c9EvtA, c9EvtB, c9EvtB] }

/-! ## `flush_event` : AES default action (C10 support) -/

/-- The `newAction` string `flushAES` synthesizes when the buffer's action is
the dispatcher-installed default `"handled AES phone call to put the fire
system on test"` (the default's lower-case text contains `"test"` but not
`"extend"`, selecting the second template). -/
def aesDefaultNewAction (buffer0 : Dict) : String :=
  let action := "handled AES phone call to put the fire system on test"
  let company := pyStrip (dgetD buffer0 "company")
  let operatorName := pyStrip (if truthy (dget buffer0 "operator_name")
    then dgetD buffer0 "operator_name" else "N/A")
  let operatorNumber := pyStrip (if truthy (dget buffer0 "operator_number")
    then dgetD buffer0 "operator_number" else "N/A")
  let lower := pyLower action
  let hasSupervisory := strIn "supervisory" lower
  let hasTrouble := strIn "trouble" lower
  let hasFull := strIn "full" lower
  let holdTypeStr :=
    if hasFull then "full hold"
    else if hasSupervisory && hasTrouble then "supervisory and trouble hold"
    else if hasSupervisory then "supervisory hold"
    else if hasTrouble then "trouble hold"
    else if ["hold", "extend", "test"].any (fun x => strIn x lower) then
      "supervisory hold"
    else "system hold"
  let holdUntil := extractHoldUntil action
  let untilPart := if holdUntil ≠ "" then " until " ++ holdUntil else ""
  let coordination := " in coordination with " ++
    (if company ≠ "" then company else "the vendor") ++ " "
  "called the AES Alarm Monitoring and placed the system on " ++ holdTypeStr ++
    untilPart ++ coordination ++
    "<font color=\x27green\x27>(Operator Name: <b>" ++ operatorName ++
    "</b>, Operator Number: <b>" ++ operatorNumber ++ "</b>)</font>"

/-- Concrete scan state for the C10 witness: an initial report plus a buffer
holding only an explicit AES category tag and no action. -/
def c10St : ScanSt :=
  { parsed := initParsed
    buffer := [("category", "AES Phone Call follow-up")] }

/-! ## Theorems.  Generic composition lemmas for concrete scans -/

theorem foldlM_cons_ok {ε σ α : Type} (f : σ → α → Except ε σ) (s s2 : σ) (a : α) (l : List α)
    (h : f s a = .ok s2) : (a :: l).foldlM f s = l.foldlM f s2 := by
  simp only [List.foldlM, h]
  rfl

theorem foldlM_cons_err {ε σ α : Type} (f : σ → α → Except ε σ) (s : σ) (a : α) (l : List α)
    (e : ε) (h : f s a = .error e) : (a :: l).foldlM f s = .error e := by
  simp only [List.foldlM, h]
  rfl

theorem foldlM_nil {ε σ α : Type} (f : σ → α → Except ε σ) (s : σ) :
    ([] : List α).foldlM f s = .ok s := rfl

theorem parse_events_eq_of (lines : List String) (st st2 : ScanSt)
    (hfold : (lines.enum).foldlM (scanStep lines) initSt = .ok st)
    (hc : truthy (dget st.buffer "date") = true)
    (hflush : flush_event lines st = .ok st2) :
    parse_events lines = .ok (finalizeReport st2.parsed st2.transient_count) := by
  unfold parse_events
  rw [hfold]
  show (if truthy (dget st.buffer "date") = true then flush_event lines st >>= _
        else Except.ok st >>= _) = _
  rw [hc]
  show flush_event lines st >>= _ = _
  rw [hflush]
  rfl

theorem parse_events_err_of (lines : List String) (e : PyErr)
    (hfold : (lines.enum).foldlM (scanStep lines) initSt = .error e) :
    parse_events lines = .error e := by
  unfold parse_events
  rw [hfold]
  rfl

/-! ## The C1 run -/

theorem c1_step0 : scanStep c1Lines initSt (0, "Security action : patrolled the area") =
    .ok c1St1 := rfl

theorem c1_step1 : scanStep c1Lines c1St1 (1, "Start Date : 9/1/2025 1:00 PM") =
    .error "KeyError: Unclassified" := rfl

theorem c1_run : parse_events c1Lines = .error "KeyError: Unclassified" := by
  apply parse_events_err_of
  have he : c1Lines.enum = [(0, "Security action : patrolled the area"),
    (1, "Start Date : 9/1/2025 1:00 PM")] := rfl
  rw [he, foldlM_cons_ok _ _ _ _ _ c1_step0, foldlM_cons_err _ _ _ _ _ c1_step1]

/-! ## The C3 run -/

theorem c3_step0 : scanStep c3Lines initSt (0, "Transient Removal") = .ok c3St1 := rfl

theorem c3_step1 : scanStep c3Lines c3St1 (1, "Start Date : 9/1/2025 1:00 PM") =
    .ok c3St2 := rfl

theorem c3_flush : flush_event c3Lines c3St2 = .ok initSt := rfl

theorem c3_run : parse_events c3Lines = .ok (finalizeReport initParsed 0) := by
  have h := parse_events_eq_of c3Lines c3St2 initSt ?fold rfl c3_flush
  · exact h
  case fold =>
    have he : c3Lines.enum = [(0, "Transient Removal"),
      (1, "Start Date : 9/1/2025 1:00 PM")] := rfl
    rw [he, foldlM_cons_ok _ _ _ _ _ c3_step0, foldlM_cons_ok _ _ _ _ _ c3_step1, foldlM_nil]

/-! ## The C4 run -/

theorem c4_step0 : scanStep c4Lines initSt (0, "Tenant Issues") = .ok c4St1 := rfl

theorem c4_step1 : scanStep c4Lines c4St1 (1, "Start Date : None to Report") = .ok c4St2 := rfl

theorem c4_step2 : scanStep c4Lines c4St2 (2, "Tenant Issues") = .ok c4St3 := rfl

theorem c4_step3 : scanStep c4Lines c4St3 (3, "Start Date : 9/1/2025 1:00 PM") = .ok c4St4 := rfl

theorem c4_step4 : scanStep c4Lines c4St4 (4, "Tenant Issues") = .ok c4St5 := rfl

theorem c4_step5 : scanStep c4Lines c4St5 (5, "Security action : tenant complaint about noise") =
    .ok c4St6 := rfl

theorem c4_flush : flush_event c4Lines c4St6 = .ok c4St7 := rfl

theorem c4_run : parse_events c4Lines = .ok (finalizeReport c4St7.parsed 0) := by
  have h := parse_events_eq_of c4Lines c4St6 c4St7 ?fold rfl c4_flush
  · exact h
  case fold =>
    have he : c4Lines.enum = [(0, "Tenant Issues"), (1, "Start Date : None to Report"),
      (2, "Tenant Issues"), (3, "Start Date : 9/1/2025 1:00 PM"), (4, "Tenant Issues"),
      (5, "Security action : tenant complaint about noise")] := rfl
    rw [he, foldlM_cons_ok _ _ _ _ _ c4_step0, foldlM_cons_ok _ _ _ _ _ c4_step1,
      foldlM_cons_ok _ _ _ _ _ c4_step2, foldlM_cons_ok _ _ _ _ _ c4_step3,
      foldlM_cons_ok _ _ _ _ _ c4_step4, foldlM_cons_ok _ _ _ _ _ c4_step5, foldlM_nil]

/-! ## The C6 run -/

theorem c6_step0 : scanStep c6Lines initSt (0, "Loading Dock Gate") = .ok c6St1 := rfl

theorem c6_step1 : scanStep c6Lines c6St1 (1, "TEGEGNE Getachew") = .ok c6St1 := rfl

theorem c6_step2 : scanStep c6Lines c6St1 (2, "Start Date : 9/1/2025 8:00 AM") = .ok c6St2 := rfl

theorem c6_step3 : scanStep c6Lines c6St2 (3, "Security action : unlocked the gate for ABM") =
    .ok c6St3 := rfl

theorem c6_step4 : scanStep c6Lines c6St3 (4, "Company : ABM") = .ok c6St4 := rfl

theorem c6_step5 : scanStep c6Lines c6St4 (5, "9/1/2025 9:00 AM") = .ok c6St4 := rfl

theorem c6_flush : flush_event c6Lines c6St4 = .ok c6St5 := rfl

theorem c6_run : parse_events c6Lines = .ok (finalizeReport c6St5.parsed 0) := by
  have h := parse_events_eq_of c6Lines c6St4 c6St5 ?fold rfl c6_flush
  · exact h
  case fold =>
    have he : c6Lines.enum = [(0, "Loading Dock Gate"), (1, "TEGEGNE Getachew"),
      (2, "Start Date : 9/1/2025 8:00 AM"), (3, "Security action : unlocked the gate for ABM"),
      (4, "Company : ABM"), (5, "9/1/2025 9:00 AM")] := rfl
    rw [he, foldlM_cons_ok _ _ _ _ _ c6_step0, foldlM_cons_ok _ _ _ _ _ c6_step1,
      foldlM_cons_ok _ _ _ _ _ c6_step2, foldlM_cons_ok _ _ _ _ _ c6_step3,
      foldlM_cons_ok _ _ _ _ _ c6_step4, foldlM_cons_ok _ _ _ _ _ c6_step5, foldlM_nil]

/-! ## The C9 run -/

theorem c9_step0 : scanStep c9Lines initSt (0, "Security action : spill") = .ok c9St1 := rfl

theorem c9_step1 : scanStep c9Lines c9St1 (1, "Start Date : 9/1/2025 1:00 PM") = .ok c9St2 := rfl

theorem c9_step2 : scanStep c9Lines c9St2 (2, "Security action : spill") = .ok c9St3 := rfl

theorem c9_step3 : scanStep c9Lines c9St3 (3, "Start Date : 9/1/2025 1:00 PM") = .ok c9St4 := rfl

theorem c9_step4 : scanStep c9Lines c9St4 (4, "Security action : spill") = .ok c9St5 := rfl

theorem c9_flush : flush_event c9Lines c9St5 = .ok c9St6 := rfl

theorem c9_run : parse_events c9Lines = .ok (finalizeReport c9St6.parsed 0) := by
  have h := parse_events_eq_of c9Lines c9St5 c9St6 ?fold rfl c9_flush
  · exact h
  case fold =>
    have he : c9Lines.enum = [(0, "Security action : spill"), (1, "Start Date : 9/1/2025 1:00 PM"),
      (2, "Security action : spill"), (3, "Start Date : 9/1/2025 1:00 PM"),
      (4, "Security action : spill")] := rfl
    rw [he, foldlM_cons_ok _ _ _ _ _ c9_step0, foldlM_cons_ok _ _ _ _ _ c9_step1,
      foldlM_cons_ok _ _ _ _ _ c9_step2, foldlM_cons_ok _ _ _ _ _ c9_step3,
      foldlM_cons_ok _ _ _ _ _ c9_step4, foldlM_nil]

/-! ## Flush-gate and classification lemmas (claims C2, C7) -/

/-- Claim C2 : a completed buffer with none of `action`,
`incident_description`, `incident_comments` and `category` is discarded by
`flush_event` without emitting anything: the state comes back with the
buffer cleared and the report dictionary untouched. -/
theorem c2_empty_buffer_discarded (lines : List String) (st : ScanSt)
    (ha : truthy (dget st.buffer "action") = false)
    (hd : truthy (dget st.buffer "incident_description") = false)
    (hc : truthy (dget st.buffer "incident_comments") = false)
    (hk : truthy (dget st.buffer "category") = false) :
    flush_event lines st = .ok { st with buffer := [], last_field := none } ∧
    ({ st with buffer := [], last_field := none } : ScanSt).parsed = st.parsed := by
  have hcond : (st.buffer.isEmpty || (!truthy (dget st.buffer "action") &&
      !truthy (dget st.buffer "incident_description") &&
      !truthy (dget st.buffer "incident_comments") &&
      !truthy (dget st.buffer "category"))) = true := by
    rw [ha, hd, hc, hk]
    simp
  refine ⟨?_, rfl⟩
  simp only [flush_event, hcond]
  rfl

/-- Claim C2, witness : the gate at a concrete officer-only buffer. -/
theorem c2_empty_buffer_discarded_witness :
    flush_event [] { parsed := initParsed, buffer := [("officer", "Smith")] } =
      .ok { parsed := initParsed } :=
  (c2_empty_buffer_discarded [] { parsed := initParsed, buffer := [("officer", "Smith")] }
    rfl rfl rfl rfl).1

/-- Range of the heuristic layer : reaching the Incident Reports answer
requires one of its strong signals. -/
theorem classifyHeuristic_ir_signal (buffer : Dict) (txt : String)
    (h : classifyHeuristic buffer txt = "Incident Reports (IR) / Alarms") :
    (strIn "incident report" txt || reTest rxIrNum txt ||
      (["police", "911", "injury", "assault", "theft", "robbery"].any
        (fun k => strIn k txt))) = true := by
  unfold classifyHeuristic at h
  by_cases h1 : (["elevator entrapment incident", "stuck in elevator", "elevator incident",
      "got stuck in cap", "doors stayed closed", "kone technician",
      "otis elevator"].any (fun k => strIn k txt)) = true
  · rw [if_pos h1] at h
    exact absurd h (by decide)
  rw [if_neg h1] at h
  by_cases h2 : (strIn "tenant" txt
      && (["issue", "concern", "complaint", "problem", "request", "notify",
           "notified", "reported"].any (fun k => strIn k txt))
      && !(["elevator", "entrapment", "stuck in elevator", "kone",
            "otis"].any (fun n => strIn n txt))) = true
  · rw [if_pos h2] at h
    exact absurd h (by decide)
  rw [if_neg h2] at h
  by_cases h3 : ((["damage", "damaged", "bent", "broken", "crack", "dent",
            "unable to close", "hit", "struck", "collision",
            "impact"].any (fun w => strIn w txt))
      && (["gate", "door", "frame", "lock", "glass", "loading dock",
           "dock gate"].any (fun n => strIn n txt))) = true
  · rw [if_pos h3] at h
    exact absurd h (by decide)
  rw [if_neg h3] at h
  by_cases h4 : ((strIn "elevator" txt || strIn "entrapment" txt
        || strIn "stuck in elevator" txt) && !(strIn "tenant" txt)) = true
  · rw [if_pos h4] at h
    exact absurd h (by decide)
  rw [if_neg h4] at h
  by_cases h5 : (["spd presence/emergency response on site", "spd presence",
           "emergency response on site", "spd response", "sfd medics",
           "911 called", "police responded", "medical emergency on site",
           "officer contacted spd", "security called 911",
           "security called spd"].any (fun k => strIn k txt)) = true
  · rw [if_pos h5] at h
    exact absurd h (by decide)
  rw [if_neg h5] at h
  by_cases h6 : ((strIn "spd" txt && strIn "response" txt)
      || strIn "emergency response on site" txt) = true
  · rw [if_pos h6] at h
    exact absurd h (by decide)
  rw [if_neg h6] at h
  by_cases h7 : (strIn "tenant" txt
      && (["issue", "concern", "complaint", "problem", "request", "notify",
           "notified", "reported"].any (fun k => strIn k txt))
      && !(["elevator", "entrapment",
            "stuck in elevator"].any (fun n => strIn n txt))) = true
  · rw [if_pos h7] at h
    exact absurd h (by decide)
  rw [if_neg h7] at h
  by_cases h8 : (strIn "aes" txt || strIn "phone call" txt) = true
  · rw [if_pos h8] at h
    exact absurd h (by decide)
  rw [if_neg h8] at h
  by_cases h9 : ((strIn "loading dock" txt || strIn "dock gate" txt)
      && !(["abm notified", "upload picture"].any (fun k => strIn k txt))) = true
  · rw [if_pos h9] at h
    exact absurd h (by decide)
  rw [if_neg h9] at h
  by_cases h10 : (strIn "key service" txt || reTest rxKeyAction txt) = true
  · rw [if_pos h10] at h
    exact absurd h (by decide)
  rw [if_neg h10] at h
  by_cases h11 : (["panel", "bypass", "trbl", "supv", "fire alarm", "alarm test",
           "hold"].any (fun k => strIn k txt)) = true
  · rw [if_pos h11] at h
    exact absurd h (by decide)
  rw [if_neg h11] at h
  by_cases h12 : (strIn "transient" txt || strIn "trespass" txt
      || (strIn "removed" txt && strIn "person" txt)) = true
  · rw [if_pos h12] at h
    exact absurd h (by decide)
  rw [if_neg h12] at h
  by_cases h13 : (strIn "work order" txt || strIn "building engines" txt) = true
  · rw [if_pos h13] at h
    exact absurd h (by decide)
  rw [if_neg h13] at h
  by_cases h14 : (strIn "incident report" txt || reTest rxIrNum txt
      || (["police", "911", "injury", "assault", "theft",
           "robbery"].any (fun k => strIn k txt))) = true
  · exact h14
  rw [if_neg h14] at h
  by_cases h15 : ((pyLower (dgetD buffer "category") == "janitorial"
        || pyLower (dgetD buffer "category") == "seattle ambassadors")
      || strIn "janitorial" txt || strIn "abm notified" txt
      || strIn "upload picture" txt || strIn "abm" txt || strIn "clean" txt
      || strIn "trash" txt || strIn "garbage" txt || strIn "spill" txt
      || strIn "vacuum" txt || strIn "mop" txt || strIn "sweep" txt
      || strIn "ambassador" txt || strIn "mid call" txt
      || strIn "mid dispatch" txt || strIn "seattle ambassadors" txt) = true
  · rw [if_pos h15] at h
    exact absurd h (by decide)
  rw [if_neg h15] at h
  exact absurd h (by decide)

/-- Claim C7 : a buffer that reaches the heuristic layer whose text contains
the word "incident" but none of the strong signals (the phrase
"incident report", an `ir #N` / `incident #N` pattern, or one of police,
911, injury, assault, theft, robbery) is never classified as Incident
Reports. -/
theorem c7_incident_word_alone_not_ir (buffer : Dict) (labels : List String)
    (hexp : (if dmem buffer "category" then classifyExplicit buffer else none) = none)
    (_hinc : strIn "incident" (classifyTxt buffer labels) = true)
    (hir1 : strIn "incident report" (classifyTxt buffer labels) = false)
    (hir2 : reTest rxIrNum (classifyTxt buffer labels) = false)
    (hsig : (["police", "911", "injury", "assault", "theft", "robbery"] : List String).any
      (fun k => strIn k (classifyTxt buffer labels)) = false) :
    classify buffer labels ≠ "Incident Reports (IR) / Alarms" := by
  intro hcontra
  have hcl : classify buffer labels = classifyHeuristic buffer (classifyTxt buffer labels) := by
    unfold classify
    rw [hexp]
  rw [hcl] at hcontra
  have hs := classifyHeuristic_ir_signal buffer (classifyTxt buffer labels) hcontra
  rw [hir1, hir2, hsig] at hs
  exact absurd hs (by decide)

/-- Claim C7, witness : a concrete buffer whose text has "incident" and no
strong signal. -/
theorem c7_incident_word_alone_not_ir_witness :
    classify [("action", "there was an incident at the lobby")] [] ≠
      "Incident Reports (IR) / Alarms" :=
  c7_incident_word_alone_not_ir [("action", "there was an incident at the lobby")] []
    rfl rfl rfl rfl rfl

/-! ## Officer-name normalization (claim C8) -/

/-- Claim C8 : on a name whose normalized form splits into exactly two
tokens, `bold_officer` swaps the tokens when the first is fully upper-case
and the second begins upper-case and continues lower-case, and title-cases
both otherwise; in particular "TEGEGNE Getachew" becomes officer
"Getachew Tegegne" and "Faiz Mohmand" stays "Faiz Mohmand". -/
theorem c8_bold_officer_two_token (name fst snd : String)
    (h0 : pyStrip name ≠ "")
    (hsplit : pySplitWs (reSub rxOfficerLead "" (pyStrip name)) = [fst, snd]) :
    (bold_officer name =
      (if pyIsUpper fst && isUpperC ((chars snd).headD ' ') && pyIsLower (sliceFrom snd 1) then
        "<b>Officer " ++ (pyCapitalize snd ++ " " ++ pyCapitalize fst) ++ "</b>"
      else
        "<b>Officer " ++ (pyCapitalize fst ++ " " ++ pyCapitalize snd) ++ "</b>")) ∧
    bold_officer "TEGEGNE Getachew" = "<b>Officer Getachew Tegegne</b>" ∧
    bold_officer "Faiz Mohmand" = "<b>Officer Faiz Mohmand</b>" := by
  refine ⟨?_, rfl, rfl⟩
  simp only [bold_officer]
  rw [if_neg h0, hsplit]
  by_cases hsw : (pyIsUpper fst && isUpperC ((chars snd).headD ' ')
      && pyIsLower (sliceFrom snd 1)) = true
  · simp only [if_pos hsw]
  · simp only [if_neg hsw]

/-- Claim C8, witness : the swap case at "TEGEGNE Getachew". -/
theorem c8_bold_officer_two_token_witness :
    bold_officer "TEGEGNE Getachew" =
      (if pyIsUpper "TEGEGNE" && isUpperC ((chars "Getachew").headD ' ')
          && pyIsLower (sliceFrom "Getachew" 1) then
        "<b>Officer " ++ (pyCapitalize "Getachew" ++ " " ++ pyCapitalize "TEGEGNE") ++ "</b>"
      else
        "<b>Officer " ++ (pyCapitalize "TEGEGNE" ++ " " ++ pyCapitalize "Getachew") ++ "</b>") :=
  (c8_bold_officer_two_token "TEGEGNE Getachew" "TEGEGNE" "Getachew" (by decide) rfl).1

/-! ## Claim theorems settled by the concrete runs -/

/-- Claim C1, refuted (code bug) : on `c1Lines` the scan raises
`KeyError: Unclassified` to the caller — the flush of a buffer whose
classification is the internal `Unclassified` label indexes the report
dictionary at a missing key instead of discarding the buffer silently. -/
theorem c1_unclassified_keyerror :
    parse_events c1Lines = .error "KeyError: Unclassified" ∧
    classify c1St1.buffer c1St1.labels = "Unclassified" :=
  ⟨c1_run, rfl⟩

/-- Claim C3, counterexample : on `c3Lines` exactly one event classifies as
Transient Removal, yet the finalized Transient Removal category is the bare
placeholder — the built line of that event is empty, so the counter never
increments. -/
theorem c3_counterexample_uncounted_transient :
    classify c3St1.buffer c3St1.labels = "Transient Removal" ∧
    pgetOk (parse_events c3Lines) "Transient Removal" = ["None to Report"] := by
  refine ⟨rfl, ?_⟩
  rw [c3_run]
  rfl

/-- Claim C4, counterexample : on `c4Lines` the Tenant Issues category ends
with two entries whose first has the maximal (unparsable) key and whose
second has a parsable key — the first entry is the literal string
"None to Report", which makes the finalization skip that category sort. -/
theorem c4_counterexample_unsorted_category :
    pgetOk (parse_events c4Lines) "Tenant Issues" = ["None to Report", c4EvtLate] ∧
    _extract_dt "None to Report" = dtMax ∧
    _extract_dt c4EvtLate < dtMax := by
  refine ⟨?_, rfl, by decide⟩
  rw [c4_run]
  rfl

/-- Claim C5 : the pipeline is a pure function of the ordered line sequence,
so two runs on the same input are definitionally the same report.  (The one
iteration-order-sensitive construct of the source, the `labels` set, is
modelled deterministically; see `classifyTxt`.) -/
theorem c5_determinism (L : List String) : parse_events L = parse_events L := rfl

/-- Claim C6, counterexample : on the exact scenario lines the Loading Dock
category holds only the placeholder — no entry referencing officer
"Getachew Tegegne" exists anywhere in that category. -/
theorem c6_counterexample_loading_dock_empty :
    pgetOk (parse_events c6Lines) "Loading Dock Access (Lock & Unlock)" = ["None to Report"] := by
  rw [c6_run]
  rfl

/-- Claim C6, amended behavior : the scenario flushes at the second
`Start Date` boundary with the category wiped, classifies the buffered
event as Janitorial through the "abm" heuristic, and never captures the
officer line, so Loading Dock keeps the placeholder while Janitorial gets
the one synthesized entry mentioning ABM. -/
theorem c6_amended_scenario_outcome :
    pgetOk (parse_events c6Lines) "Loading Dock Access (Lock & Unlock)" = ["None to Report"] ∧
    pgetOk (parse_events c6Lines) "Janitorial" = [c6EvtJ] ∧
    strIn "ABM" c6EvtJ = true := by
  refine ⟨?_, ?_, rfl⟩
  · rw [c6_run]
    rfl
  · rw [c6_run]
    rfl

/-- Claim C9, counterexample : on `c9Lines` the Janitorial category of the
finalized report holds two bit-identical entries (plus a dateless third) —
the aggregated output is not deduplicated across a category in general. -/
theorem c9_counterexample_duplicate_entries :
    pgetOk (parse_events c9Lines) "Janitorial" = [c9EvtB, c9EvtB, c9EvtA] ∧
    ¬ ([c9EvtB, c9EvtB, c9EvtA] : List String).Nodup := by
  constructor
  · rw [c9_run]
    rfl
  · decide

/-! ## Sort order, transient collapse and report shape (claims C3, C4) -/

theorem isDigitC_toNat {c : Char} (h : isDigitC c = true) : 48 ≤ c.toNat ∧ c.toNat ≤ 57 := by
  simp [isDigitC] at h
  exact h

theorem digitsToNat_le99 (l : List Char) (hd : l.all isDigitC = true) (hl : l.length ≤ 2) :
    digitsToNat l ≤ 99 := by
  match l, hl with
  | [], _ => decide
  | [a], _ =>
    simp only [List.all_cons, List.all_nil, Bool.and_true] at hd
    have h1 := isDigitC_toNat hd
    simp only [digitsToNat, List.foldl, show ('0' : Char).toNat = 48 from rfl]
    omega
  | [a, b], _ =>
    simp only [List.all_cons, List.all_nil, Bool.and_true, Bool.and_eq_true] at hd
    have h1 := isDigitC_toNat hd.1
    have h2 := isDigitC_toNat hd.2
    simp only [digitsToNat, List.foldl, show ('0' : Char).toNat = 48 from rfl]
    omega
  | _ :: _ :: _ :: _, hl => simp at hl

theorem daysInMonth_le31 (y m : Nat) : daysInMonth y m ≤ 31 := by
  unfold daysInMonth
  split
  · split <;> omega
  · split <;> omega

theorem sortEntries_sorted (l : List String) :
    (sortEntries l).Pairwise (fun a b => _extract_dt a ≤ _extract_dt b) :=
  @List.sorted_insertionSort String (fun a b => _extract_dt a ≤ _extract_dt b)
    (fun a b => Nat.decLe _ _) ⟨fun a b => Nat.le_total _ _⟩
    ⟨fun a b c hab hbc => Nat.le_trans hab hbc⟩ l

theorem sortEntries_perm (l : List String) : (sortEntries l).Perm l :=
  @List.perm_insertionSort String (fun a b => _extract_dt a ≤ _extract_dt b)
    (fun a b => Nat.decLe _ _) l

theorem sortEntries_filter_key (l : List String) (k : Nat) :
    (sortEntries l).filter (fun e => _extract_dt e == k) =
      l.filter (fun e => _extract_dt e == k) := by
  have hself : ∀ m : List String, (m.filter (fun e => _extract_dt e == k)).filter
      (fun e => _extract_dt e == k) = m.filter (fun e => _extract_dt e == k) := by
    intro m
    apply List.filter_eq_self.mpr
    intro a ha
    exact (List.mem_filter.mp ha).2
  have hpw : (l.filter (fun e => _extract_dt e == k)).Pairwise
      (fun a b => _extract_dt a ≤ _extract_dt b) := by
    apply List.pairwise_of_forall_mem_list
    intro a ha b hb
    have h1 := (List.mem_filter.mp ha).2
    have h2 := (List.mem_filter.mp hb).2
    simp only [beq_iff_eq] at h1 h2
    omega
  have hsub : List.Sublist (l.filter (fun e => _extract_dt e == k)) (sortEntries l) :=
    @List.sublist_insertionSort String (fun a b => _extract_dt a ≤ _extract_dt b)
      (fun a b => Nat.decLe _ _) l _ hpw (List.filter_sublist l)
  have hsub2 : List.Sublist (l.filter (fun e => _extract_dt e == k))
      ((sortEntries l).filter (fun e => _extract_dt e == k)) := by
    have h := hsub.filter (fun e => _extract_dt e == k)
    rwa [hself l] at h
  have hlen : ((sortEntries l).filter (fun e => _extract_dt e == k)).length =
      (l.filter (fun e => _extract_dt e == k)).length := by
    rw [← List.countP_eq_length_filter, ← List.countP_eq_length_filter]
    exact (sortEntries_perm l).countP_eq _
  exact (hsub2.eq_of_length hlen.symm).symm

theorem strptimeMDYhm_lt_dtMax (dp tp : String) (k : Nat)
    (h : strptimeMDYhm dp tp = some k) : k < dtMax := by
  unfold strptimeMDYhm at h
  split at h
  case h_2 => exact absurd h (by simp)
  split at h
  case isFalse => exact absurd h (by simp)
  rename_i ms ds ys heqd hshape
  simp only [Bool.and_eq_true, decide_eq_true_eq, beq_iff_eq, and_assoc] at hshape
  obtain ⟨hmsd, hms1, hms2, hdsd, hds1, hds2, hysd, hys2⟩ := hshape
  have hyy : strToNat ys ≤ 99 := by
    apply digitsToNat_le99
    · exact hysd
    · show (chars ys).length ≤ 2
      simp only [strLen] at hys2
      omega
  split at h
  case h_2 => exact absurd h (by simp)
  rename_i hs rest heqt
  simp only [] at h
  split at h <;>
  · rename_i hybranch
    split at h
    case isFalse => exact absurd h (by simp)
    rename_i hcond
    simp only [Bool.and_eq_true, Bool.or_eq_true, decide_eq_true_eq, beq_iff_eq,
      and_assoc] at hcond
    obtain ⟨-, -, -, -, hmo1, hmo12, hd1, hdle, hh1, hh12, hmi59, -⟩ := hcond
    injection h with h
    subst h
    have hd31 := le_trans hdle (daysInMonth_le31 _ _)
    simp only [dtKey, dtMax]
    split <;> split <;>
    · rename_i hpm h12
      simp only [beq_iff_eq] at h12
      omega

theorem extract_dt_le (s : String) : _extract_dt s ≤ dtMax := by
  unfold _extract_dt
  split
  · split
    · rename_i heq
      exact Nat.le_of_lt (strptimeMDYhm_lt_dtMax _ _ _ heq)
    · exact Nat.le_refl _
  · exact Nat.le_refl _

theorem sortEntries_unparsable_last (l : List String) :
    (sortEntries l).Pairwise (fun a b => _extract_dt a = dtMax → _extract_dt b = dtMax) := by
  apply (sortEntries_sorted l).imp
  intro a b hle ha
  have hb := extract_dt_le b
  omega

theorem except_bind_ok {ε α β : Type} (a : α) (f : α → Except ε β) :
    ((Except.ok a : Except ε α) >>= f) = f a := rfl

theorem except_bind_err {ε α β : Type} (e : ε) (f : α → Except ε β) :
    ((Except.error e : Except ε α) >>= f) = .error e := rfl

theorem parse_events_shape (L : List String) (r : Parsed) (h : parse_events L = .ok r) :
    ∃ p tc, r = finalizeReport p tc := by
  unfold parse_events at h
  rcases hf : (L.enum).foldlM (scanStep L) initSt with e | st <;> rw [hf] at h
  · rw [except_bind_err] at h
    exact absurd h (by simp)
  · rw [except_bind_ok] at h
    by_cases hd : truthy (dget st.buffer "date") = true
    · rw [if_pos hd] at h
      rcases hfl : flush_event L st with e2 | st2 <;> rw [hfl] at h
      · rw [except_bind_err] at h
        exact absurd h (by simp)
      · rw [except_bind_ok] at h
        injection h with h
        exact ⟨st2.parsed, st2.transient_count, h.symm⟩
    · rw [if_neg hd] at h
      rw [except_bind_ok] at h
      injection h with h
      exact ⟨st.parsed, st.transient_count, h.symm⟩

theorem finalizeReport_mem_sorted (p : Parsed) (tc : Nat) (s : String) (l : List String)
    (hm : (s, l) ∈ finalizeReport p tc) (hs : SECTIONS.contains s = true)
    (hne : l ≠ []) (hhead : l.head? ≠ some "None to Report") :
    ∃ l0, l = sortEntries l0 := by
  unfold finalizeReport at hm
  rw [List.mem_map] at hm
  obtain ⟨kv2, _, heq3⟩ := hm
  by_cases hcond : (SECTIONS.contains kv2.1 && !kv2.2.isEmpty
      && kv2.2.head? ≠ some "None to Report") = true
  · rw [if_pos hcond] at heq3
    exact ⟨kv2.2, ((Prod.mk.injEq _ _ _ _).mp heq3).2.symm⟩
  · rw [if_neg hcond] at heq3
    subst heq3
    have h1 : l.isEmpty = false := by
      cases l
      · exact absurd rfl hne
      · rfl
    apply absurd _ hcond
    show (SECTIONS.contains s && !l.isEmpty && decide (l.head? ≠ some "None to Report")) = true
    rw [hs, h1]
    simp [hhead]

theorem transientSummary_ne (n : Nat) : transientSummary n ≠ "None to Report" := by
  intro hcontra
  have hc := congrArg chars hcontra
  simp only [transientSummary, chars] at hc
  rw [String.data_append, String.data_append] at hc
  simp at hc

theorem sortEntries_singleton (a : String) : sortEntries [a] = [a] := rfl

theorem finalizeReport_transient (p : Parsed) (tc : Nat) (l : List String)
    (hm : ("Transient Removal", l) ∈ finalizeReport p tc) :
    l = (if tc > 0 then [transientSummary tc] else ["None to Report"]) := by
  unfold finalizeReport at hm
  rw [List.mem_map] at hm
  obtain ⟨kv2, hm2, heq3⟩ := hm
  rw [List.mem_map] at hm2
  obtain ⟨kv1, _, heq2⟩ := hm2
  by_cases ht : (kv1.1 == "Transient Removal") = true
  · rw [if_pos ht] at heq2
    have hname : kv1.1 = "Transient Removal" := by simpa using ht
    subst heq2
    rw [hname] at heq3
    by_cases htc : tc > 0
    · rw [if_pos htc] at heq3
      rw [if_pos (by simp [SECTIONS, transientSummary_ne])] at heq3
      rw [if_pos htc]
      rw [← ((Prod.mk.injEq _ _ _ _).mp heq3).2]
      exact (sortEntries_singleton _).symm
    · rw [if_neg htc] at heq3
      rw [if_neg (by simp)] at heq3
      rw [if_neg htc]
      exact ((Prod.mk.injEq _ _ _ _).mp heq3).2.symm
  · rw [if_neg ht] at heq2
    subst heq2
    exfalso
    apply ht
    by_cases hcond : (SECTIONS.contains kv1.1 && !kv1.2.isEmpty
        && kv1.2.head? ≠ some "None to Report") = true
    · rw [if_pos hcond] at heq3
      have := ((Prod.mk.injEq _ _ _ _).mp heq3).1
      simp [this]
    · rw [if_neg hcond] at heq3
      have : kv1.1 = "Transient Removal" := congrArg Prod.fst heq3
      simp [this]

/-- Claim C3, amended : in every successful run, the Transient Removal
category of the finalized report is exactly one entry — the zero-padded
count summary when the scan counter ended positive, else the placeholder.
The counter increments only for flushed events that both emit a non-empty
built line and either classify as Transient Removal or follow a seen
Transient Removal tag, so an event that classifies as Transient Removal but
builds an empty line is not counted (see the counterexample). -/
theorem c3_amended_transient_collapse (L : List String) (r : Parsed) (l : List String)
    (h : parse_events L = .ok r) (hm : ("Transient Removal", l) ∈ r) :
    l = ["None to Report"] ∨ ∃ n, 0 < n ∧ l = [transientSummary n] := by
  obtain ⟨p, tc, rfl⟩ := parse_events_shape L r h
  have hl := finalizeReport_transient p tc l hm
  by_cases htc : tc > 0
  · rw [if_pos htc] at hl
    exact Or.inr ⟨tc, htc, hl⟩
  · rw [if_neg htc] at hl
    exact Or.inl hl

/-- Claim C3, amended, witness : instantiated on the C3 run. -/
theorem c3_amended_transient_collapse_witness :
    ("Transient Removal", ["None to Report"]) ∈ finalizeReport initParsed 0 ∧
    ((["None to Report"] : List String) = ["None to Report"] ∨
      ∃ n, 0 < n ∧ (["None to Report"] : List String) = [transientSummary n]) :=
  ⟨by decide, c3_amended_transient_collapse c3Lines _ ["None to Report"] c3_run (by decide)⟩

/-- Claim C4, amended : in every successful run, a category with two or
more entries either begins with the literal placeholder string
"None to Report" (the finalization skips sorting such a list — see the
counterexample) or is a stable sort of its production order: keys
non-decreasing, unparsable (maximal-key) entries after all others, and
entries of equal key in production order (the filter at every key is
unchanged). -/
theorem c4_amended_sort_invariant (L : List String) (r : Parsed) (s : String)
    (entries : List String) (h : parse_events L = .ok r) (hm : (s, entries) ∈ r)
    (hs : SECTIONS.contains s = true) (hlen : 2 ≤ entries.length) :
    entries.head? = some "None to Report" ∨
    (entries.Pairwise (fun a b => _extract_dt a ≤ _extract_dt b) ∧
     entries.Pairwise (fun a b => _extract_dt a = dtMax → _extract_dt b = dtMax) ∧
     ∃ l0, entries = sortEntries l0 ∧ entries.Perm l0 ∧
       ∀ k, entries.filter (fun e => _extract_dt e == k) =
         l0.filter (fun e => _extract_dt e == k)) := by
  by_cases hh : entries.head? = some "None to Report"
  · exact Or.inl hh
  · right
    obtain ⟨p, tc, rfl⟩ := parse_events_shape L r h
    have hne : entries ≠ [] := by
      intro hcontra
      rw [hcontra] at hlen
      simp at hlen
    obtain ⟨l0, rfl⟩ := finalizeReport_mem_sorted p tc s entries hm hs hne hh
    exact ⟨sortEntries_sorted l0, sortEntries_unparsable_last l0,
      l0, rfl, sortEntries_perm l0, fun k => sortEntries_filter_key l0 k⟩

/-- Claim C4, amended, witness : instantiated on the C9 run. -/
theorem c4_amended_sort_invariant_witness :
    2 ≤ ([c9EvtB, c9EvtB, c9EvtA] : List String).length ∧
    (([c9EvtB, c9EvtB, c9EvtA] : List String).head? = some "None to Report" ∨
     (([c9EvtB, c9EvtB, c9EvtA] : List String).Pairwise
        (fun a b => _extract_dt a ≤ _extract_dt b) ∧
      ([c9EvtB, c9EvtB, c9EvtA] : List String).Pairwise
        (fun a b => _extract_dt a = dtMax → _extract_dt b = dtMax) ∧
      ∃ l0, ([c9EvtB, c9EvtB, c9EvtA] : List String) = sortEntries l0 ∧
        ([c9EvtB, c9EvtB, c9EvtA] : List String).Perm l0 ∧
        ∀ k, ([c9EvtB, c9EvtB, c9EvtA] : List String).filter
            (fun e => _extract_dt e == k) = l0.filter (fun e => _extract_dt e == k))) :=
  ⟨by decide, c4_amended_sort_invariant c9Lines _ "Janitorial" _ c9_run (by decide)
    (by decide) (by decide)⟩

/-! ## Deduplication of the Additional Information scan (claim C9) -/


theorem psetdefault_any (p : Parsed) (s : String) :
    (psetdefault p s).any (fun kv => kv.1 == s) = true := by
  unfold psetdefault
  by_cases h : p.any (fun kv => kv.1 == s) = true
  · rw [if_pos h]
    exact h
  · rw [if_neg h]
    rw [List.any_append]
    simp

theorem pget_append_missing (p : Parsed) (s : String)
    (h : p.any (fun kv => kv.1 == s) = false) :
    pget (p ++ [(s, [])]) s = pget p s := by
  induction p with
  | nil => simp [pget]
  | cons kv rest ih =>
    simp only [List.any_cons, Bool.or_eq_false_iff] at h
    obtain ⟨h1, h2⟩ := h
    have e1 : pget ((kv :: rest) ++ [(s, [])]) s = pget (rest ++ [(s, [])]) s := by
      simp [pget, h1]
    have e2 : pget (kv :: rest) s = pget rest s := by
      simp [pget, h1]
    rw [e1, e2]
    exact ih h2

theorem pget_psetdefault (p : Parsed) (s : String) :
    pget (psetdefault p s) s = pget p s := by
  unfold psetdefault
  by_cases h : p.any (fun kv => kv.1 == s) = true
  · rw [if_pos h]
  · rw [if_neg h]
    exact pget_append_missing p s (by simp only [Bool.not_eq_true] at h; exact h)

theorem pget_update_append (p : Parsed) (s evt : String)
    (hk : p.any (fun kv => kv.1 == s) = true) :
    pget (p.map (fun kv => if kv.1 == s then (kv.1, kv.2 ++ [evt]) else kv)) s
      = pget p s ++ [evt] := by
  induction p with
  | nil => simp at hk
  | cons kv rest ih =>
    by_cases h1 : (kv.1 == s) = true
    · rw [beq_iff_eq] at h1
      simp [pget, h1]
    · simp only [List.any_cons, Bool.or_eq_true] at hk
      have hk2 : rest.any (fun kv => kv.1 == s) = true := by
        rcases hk with hk | hk
        · exact absurd hk h1
        · exact hk
      have h1n : kv.1 ≠ s := by
        simpa using h1
      have e1 : pget ((kv :: rest).map
            (fun kv => if kv.1 == s then (kv.1, kv.2 ++ [evt]) else kv)) s
          = pget (rest.map (fun kv => if kv.1 == s then (kv.1, kv.2 ++ [evt]) else kv)) s := by
        simp [pget, h1n]
      have e2 : pget (kv :: rest) s = pget rest s := by
        simp [pget, h1n]
      rw [e1, e2]
      exact ih hk2

theorem miscUpdate_nodup (p : Parsed) (evt : String)
    (h : (pget p "Additional Information").Nodup) :
    (pget (if (pget (psetdefault p "Additional Information")
          "Additional Information").contains evt
        then psetdefault p "Additional Information"
        else (psetdefault p "Additional Information").map
          (fun kv => if kv.1 == "Additional Information" then (kv.1, kv.2 ++ [evt]) else kv))
      "Additional Information").Nodup := by
  by_cases hc : (pget (psetdefault p "Additional Information")
      "Additional Information").contains evt = true
  · rw [if_pos hc, pget_psetdefault]
    exact h
  · rw [if_neg hc, pget_update_append _ _ _ (psetdefault_any p _), pget_psetdefault]
    have hnm : evt ∉ pget p "Additional Information" := by
      intro hmem
      apply hc
      rw [pget_psetdefault]
      exact List.elem_eq_true_of_mem hmem
    exact List.Nodup.append h (List.nodup_singleton evt) (by simp [hnm])

set_option maxHeartbeats 2000000 in
theorem flushMisc_go_nodup (lines : List String) :
    ∀ (fuel i : Nat) (p : Parsed), (pget p "Additional Information").Nodup →
      (pget (flushMisc.go lines i fuel p) "Additional Information").Nodup := by
  intro fuel
  induction fuel with
  | zero =>
    intro i p h
    exact h
  | succ fuel ih =>
    intro i p h
    rw [flushMisc.go]
    simp only []
    by_cases c1 : i ≥ lines.length
    · rw [if_pos c1]
      exact h
    rw [if_neg c1]
    by_cases c2 : (reTest rxOtherMisc (lineAt lines i) ||
        !(pget p "Additional Information").isEmpty &&
          !reTest rxEndReportEtc (lineAt lines i) &&
          ((reMatch rxTsHead24 (lineAt lines i)).isSome ||
            (reMatch rxStartDateTimeColon (lineAt lines i)).isSome)) = true
    case neg =>
      rw [if_neg c2]
      exact ih _ _ h
    rw [if_pos c2]
    by_cases c3 : reTest rxReportLogbookGen (lineAt lines i) = true
    · rw [if_pos c3]
      exact ih _ _ h
    rw [if_neg c3]
    by_cases c4 : miscComment (miscGather lines lines.length i).1 = ""
    · rw [if_pos c4]
      exact ih _ _ h
    rw [if_neg c4]
    by_cases c5 : (decide (_fmt_date_for_line (miscStartDate lines i
        (miscGather lines lines.length i).1) = "") ||
        decide (miscComment (miscGather lines lines.length i).1 = "")) = true
    · rw [if_pos c5]
      exact ih _ _ h
    rw [if_neg c5]
    by_cases c6 : (miscGather lines lines.length i).2 > i
    · rw [if_pos c6]
      exact ih _ _ (miscUpdate_nodup p _ h)
    · rw [if_neg c6]
      exact ih _ _ (miscUpdate_nodup p _ h)

/-- Claim C9, amended : deduplication holds only for the Additional
Information category — its secondary scan never appends an entry already
present, so the scan preserves distinctness of that list; other categories
can end with identical entries (see the counterexample). -/
theorem c9_amended_dedup_additional_info (lines : List String) (p : Parsed)
    (h : (pget p "Additional Information").Nodup) :
    (pget (flushMisc lines p) "Additional Information").Nodup := by
  unfold flushMisc
  exact flushMisc_go_nodup lines _ 0 p h

/-- Claim C9, amended, witness : the secondary scan on an empty document. -/
theorem c9_amended_dedup_additional_info_witness :
    (pget (flushMisc [] initParsed) "Additional Information").Nodup :=
  c9_amended_dedup_additional_info [] initParsed (by decide)


/-! ## Stage 5 : C10 — AES default action emission.
Character-survival lemmas through `to_past_tense`, `re.sub` of `rxCloseWord`,
split/join and stripping, culminating in `flushAES_appends` and the claim
theorem. -/

theorem chars_ofChars (l : List Char) : chars (ofChars l) = l := rfl

theorem chars_append (a b : String) : chars (a ++ b) = chars a ++ chars b :=
  String.data_append a b

theorem mem_dropWhile_of_neg {p : Char → Bool} {c : Char} (hc : p c = false) :
    ∀ l : List Char, c ∈ l → c ∈ l.dropWhile p := by
  intro l
  induction l with
  | nil => intro h; exact h
  | cons a t ih =>
    intro hm
    rw [List.dropWhile_cons]
    by_cases ha : p a = true
    · rw [if_pos ha]
      rcases List.mem_cons.mp hm with rfl | hmt
      · rw [hc] at ha
        cases ha
      · exact ih hmt
    · rw [if_neg ha]
      exact hm

theorem mem_stripChars {p : Char → Bool} {c : Char} (hc : p c = false)
    (l : List Char) (h : c ∈ l) :
    c ∈ ((((l.dropWhile p).reverse).dropWhile p).reverse) := by
  rw [List.mem_reverse]
  apply mem_dropWhile_of_neg hc
  rw [List.mem_reverse]
  exact mem_dropWhile_of_neg hc l h

theorem mem_pyStrip {c : Char} (hc : isPySpace c = false) (s : String)
    (h : c ∈ chars s) : c ∈ chars (pyStrip s) := by
  unfold pyStrip
  rw [chars_ofChars]
  exact mem_stripChars hc (chars s) h

theorem mem_pyStripSet {c : Char} (set : List Char) (hc : set.contains c = false)
    (s : String) (h : c ∈ chars s) : c ∈ chars (pyStripSet set s) := by
  unfold pyStripSet
  rw [chars_ofChars]
  exact mem_stripChars hc (chars s) h

theorem ne_empty_of_mem {c : Char} {s : String} (h : c ∈ chars s) : s ≠ "" := by
  intro h0
  rw [h0] at h
  simp [chars] at h

theorem dget_cons_pos {kv : String × String} {d : Dict} {k : String}
    (h : (kv.1 == k) = true) : dget (kv :: d) k = some kv.2 := by
  simp [dget, List.find?_cons, h]

theorem dget_cons_neg {kv : String × String} {d : Dict} {k : String}
    (h : (kv.1 == k) = false) : dget (kv :: d) k = dget d k := by
  simp [dget, List.find?_cons, h]

theorem dget_map_set (k v : String) :
    ∀ d : Dict, dmem d k = true →
      dget (d.map (fun kv => if kv.1 == k then (k, v) else kv)) k = some v := by
  intro d
  induction d with
  | nil => intro h; simp [dmem] at h
  | cons kv rest ih =>
    intro h
    by_cases h1 : (kv.1 == k) = true
    · simp only [List.map_cons]
      rw [if_pos h1]
      rw [dget_cons_pos (by simp : (((k, v) : String × String).1 == k) = true)]
    · have hrest : dmem rest k = true := by
        simp only [dmem, List.any_cons, Bool.or_eq_true] at h
        rcases h with h | h
        · exact absurd h h1
        · exact h
      have htail := ih hrest
      simp only [List.map_cons]
      rw [if_neg h1]
      rw [dget_cons_neg (by simpa using h1)]
      exact htail

theorem dget_append_missing (k v : String) :
    ∀ d : Dict, dmem d k = false → dget (d ++ [(k, v)]) k = some v := by
  intro d
  induction d with
  | nil => intro h; simp [dget]
  | cons kv rest ih =>
    intro h
    simp only [dmem, List.any_cons, Bool.or_eq_false_iff] at h
    obtain ⟨h1, h2⟩ := h
    have htail := ih h2
    simp only [List.cons_append]
    rw [dget_cons_neg h1]
    exact htail

theorem dget_dset_self (d : Dict) (k v : String) : dget (dset d k v) k = some v := by
  unfold dset
  by_cases h : dmem d k = true
  · rw [if_pos h]
    exact dget_map_set k v d h
  · rw [if_neg h]
    exact dget_append_missing k v d (by simpa using h)

theorem dgetD_dset_self (d : Dict) (k v : String) : dgetD (dset d k v) k = v := by
  rw [dgetD, dget_dset_self]
  rfl

theorem splitWsGo_nonws (w : List Char) (hw : ∀ x ∈ w, isPySpace x = false) :
    ∀ (r acc : List Char), splitWsGo (w ++ r) acc = splitWsGo r (w.reverse ++ acc) := by
  induction w with
  | nil => intro r acc; simp
  | cons a t ih =>
    intro r acc
    have ha : isPySpace a = false := hw a (by simp)
    rw [List.cons_append]
    rw [show splitWsGo (a :: (t ++ r)) acc = splitWsGo (t ++ r) (a :: acc) from by
      simp [splitWsGo, ha]]
    rw [ih (fun x hx => hw x (by simp [hx])) r (a :: acc)]
    simp

theorem splitWsGo_ws_cons (c : Char) (r acc : List Char) (hc : isPySpace c = true)
    (hacc : acc ≠ []) :
    splitWsGo (c :: r) acc = acc.reverse :: splitWsGo r [] := by
  have he : acc.isEmpty = false := by
    cases acc
    · exact absurd rfl hacc
    · rfl
  simp [splitWsGo, hc, he]

theorem mem_splitWsGo (c : Char) (hc : isPySpace c = false) :
    ∀ (l acc : List Char), c ∈ l ∨ c ∈ acc →
      ∃ w ∈ splitWsGo l acc, c ∈ w := by
  intro l
  induction l with
  | nil =>
    intro acc h
    rcases h with h | h
    · simp at h
    · have hne : acc ≠ [] := by
        rintro rfl
        simp at h
      have he : acc.isEmpty = false := by
        cases acc
        · exact absurd rfl hne
        · rfl
      refine ⟨acc.reverse, ?_, ?_⟩
      · simp [splitWsGo, he]
      · simpa using h
  | cons a t ih =>
    intro acc h
    by_cases ha : isPySpace a = true
    · have hcm : c ∈ t ∨ c ∈ acc := by
        rcases h with h | h
        · rcases List.mem_cons.mp h with rfl | hmt
          · rw [ha] at hc
            cases hc
          · exact Or.inl hmt
        · exact Or.inr h
      by_cases hne : acc = []
      · subst hne
        rw [show splitWsGo (a :: t) [] = splitWsGo t [] from by simp [splitWsGo, ha]]
        rcases hcm with hcm | hcm
        · exact ih [] (Or.inl hcm)
        · simp at hcm
      · rw [splitWsGo_ws_cons a t acc ha hne]
        rcases hcm with hcm | hcm
        · obtain ⟨w, hw, hcw⟩ := ih [] (Or.inl hcm)
          exact ⟨w, List.mem_cons_of_mem _ hw, hcw⟩
        · exact ⟨acc.reverse, List.mem_cons_self _ _, by simpa using hcm⟩
    · have han : isPySpace a = false := by simpa using ha
      rw [show splitWsGo (a :: t) acc = splitWsGo t (a :: acc) from by
        simp [splitWsGo, han]]
      apply ih (a :: acc)
      rcases h with h | h
      · rcases List.mem_cons.mp h with rfl | hmt
        · exact Or.inr (by simp)
        · exact Or.inl hmt
      · exact Or.inr (by simp [h])

theorem mem_pyJoin_foldl (sep : String) (c : Char) :
    ∀ (ps : List String) (acc : String),
      (c ∈ chars acc ∨ ∃ w ∈ ps, c ∈ chars w) →
      c ∈ chars (ps.foldl (fun acc q => acc ++ sep ++ q) acc) := by
  intro ps
  induction ps with
  | nil =>
    intro acc h
    rcases h with h | ⟨w, hw, _⟩
    · exact h
    · simp at hw
  | cons q qs ih =>
    intro acc h
    simp only [List.foldl]
    apply ih
    rcases h with h | ⟨w, hw, hcw⟩
    · left
      rw [chars_append, chars_append]
      exact List.mem_append_left _ (List.mem_append_left _ h)
    · rcases List.mem_cons.mp hw with rfl | hw2
      · left
        rw [chars_append]
        exact List.mem_append_right _ hcw
      · exact Or.inr ⟨w, hw2, hcw⟩

theorem mem_pyJoin (sep w : String) (ws : List String) (c : Char)
    (hw : w ∈ ws) (hc : c ∈ chars w) : c ∈ chars (pyJoin sep ws) := by
  cases ws with
  | nil => simp at hw
  | cons p ps =>
    simp only [pyJoin]
    apply mem_pyJoin_foldl
    rcases List.mem_cons.mp hw with rfl | hw2
    · exact Or.inl hc
    · exact Or.inr ⟨w, hw2, hc⟩

theorem pyStrip_eq_self (s : String)
    (h1 : ∀ c, (chars s).head? = some c → isPySpace c = false)
    (h2 : ∀ c, (chars s).getLast? = some c → isPySpace c = false) :
    pyStrip s = s := by
  obtain ⟨l⟩ := s
  have hl : chars (String.mk l) = l := rfl
  rw [hl] at h1 h2
  unfold pyStrip
  rw [hl]
  have hd : l.dropWhile isPySpace = l := by
    cases l with
    | nil => rfl
    | cons a t =>
      rw [List.dropWhile_cons, if_neg]
      rw [h1 a rfl]
      simp
  rw [hd]
  have hr : l.reverse.dropWhile isPySpace = l.reverse := by
    cases hrl : l.reverse with
    | nil => rfl
    | cons a t =>
      rw [List.dropWhile_cons, if_neg]
      have hga : l.getLast? = some a := by
        rw [← List.head?_reverse, hrl]
        rfl
      rw [h2 a hga]
      simp
  rw [hr, List.reverse_reverse]
  rfl

theorem reM_seq_some {s : List Char} {fuel : Nat} {a b : RE} {pos : Nat} {caps : Caps}
    {k : Nat → Caps → Option (Nat × Caps)} {r : Nat × Caps}
    (h : reM s (fuel + 1) (.seq a b) pos caps k = some r) :
    reM s fuel a pos caps (fun p1 c1 => reM s fuel b p1 c1 k) = some r := h

theorem reM_eps_some {s : List Char} {fuel : Nat} {pos : Nat} {caps : Caps}
    {k : Nat → Caps → Option (Nat × Caps)} {r : Nat × Caps}
    (h : reM s (fuel + 1) .eps pos caps k = some r) :
    k pos caps = some r := h

theorem reM_cls_some {s : List Char} {fuel : Nat} {p : Char → Bool} {pos : Nat}
    {caps : Caps} {k : Nat → Caps → Option (Nat × Caps)} {r : Nat × Caps}
    (h : reM s (fuel + 1) (.cls p) pos caps k = some r) :
    ∃ c, charAt s pos = some c ∧ p c = true ∧ k (pos + 1) caps = some r := by
  simp only [reM] at h
  cases hc : charAt s pos with
  | none => rw [hc] at h; cases h
  | some c =>
    rw [hc] at h
    have h2 : (if p c = true then k (pos + 1) caps else none) = some r := h
    by_cases hp : p c = true
    · rw [if_pos hp] at h2
      exact ⟨c, rfl, hp, h2⟩
    · rw [if_neg hp] at h2
      cases h2

theorem reM_wb_some {s : List Char} {fuel : Nat} {pos : Nat} {caps : Caps}
    {k : Nat → Caps → Option (Nat × Caps)} {r : Nat × Caps}
    (h : reM s (fuel + 1) .wb pos caps k = some r) :
    k pos caps = some r := by
  simp only [reM] at h
  split at h
  · exact h
  · cases h

theorem closeWord_matchAt_shape (s : List Char) (pos e : Nat) (caps : Caps)
    (h : reMatchAt rxCloseWord s pos = some (e, caps)) :
    e = pos + 5 ∧ charAt s pos = some 'C' ∧ charAt s (pos + 1) = some 'l' ∧
      charAt s (pos + 2) = some 'o' ∧ charAt s (pos + 3) = some 's' ∧
      charAt s (pos + 4) = some 'e' := by
  have hre : rxCloseWord = RE.seq .wb (RE.seq
      (RE.seq (.cls (fun x => x == 'C')) (RE.seq (.cls (fun x => x == 'l'))
        (RE.seq (.cls (fun x => x == 'o')) (RE.seq (.cls (fun x => x == 's'))
          (RE.seq (.cls (fun x => x == 'e')) .eps)))))
      (RE.seq .wb .eps)) := rfl
  simp only [reMatchAt, hre] at h
  obtain ⟨G, hG⟩ : ∃ G, bigFuel rxCloseWord s = G + 17 := by
    refine ⟨bigFuel rxCloseWord s - 17, ?_⟩
    have h64 : 64 ≤ bigFuel rxCloseWord s := by
      unfold bigFuel
      omega
    omega
  rw [hre] at hG
  rw [hG] at h
  have h1 := reM_wb_some (reM_seq_some h)
  have h2 := reM_seq_some h1
  obtain ⟨c1, hc1, hp1, h3⟩ := reM_cls_some (reM_seq_some h2)
  obtain ⟨c2, hc2, hp2, h4⟩ := reM_cls_some (reM_seq_some h3)
  obtain ⟨c3, hc3, hp3, h5⟩ := reM_cls_some (reM_seq_some h4)
  obtain ⟨c4, hc4, hp4, h6⟩ := reM_cls_some (reM_seq_some h5)
  obtain ⟨c5, hc5, hp5, h7⟩ := reM_cls_some (reM_seq_some h6)
  have h8 := reM_eps_some h7
  have h9 := reM_eps_some (reM_wb_some (reM_seq_some h8))
  have h9x : (some ((pos + 1 + 1 + 1 + 1 + 1 : Nat), ([] : Caps)) : Option (Nat × Caps))
      = some (e, caps) := h9
  have he : e = pos + 5 := by
    injection h9x with hp
    have hfst := congrArg Prod.fst hp
    simp only at hfst
    omega
  rw [beq_iff_eq] at hp1 hp2 hp3 hp4 hp5
  subst hp1 hp2 hp3 hp4 hp5
  refine ⟨he, hc1, hc2, ?_, ?_, ?_⟩
  · simpa [show pos + 1 + 1 = pos + 2 from by omega] using hc3
  · simpa [show pos + 1 + 1 + 1 = pos + 3 from by omega] using hc4
  · simpa [show pos + 1 + 1 + 1 + 1 = pos + 4 from by omega] using hc5

theorem mem_drop_cases {s : List Char} {pos : Nat} {c : Char} (h : c ∈ s.drop pos) :
    charAt s pos = some c ∨ c ∈ s.drop (pos + 1) := by
  cases hd : s.drop pos with
  | nil => rw [hd] at h; cases h
  | cons a t =>
    have hat : charAt s pos = some a := by
      unfold charAt
      have : (s.drop pos).get? 0 = s.get? (pos + 0) := List.get?_drop s pos 0
      rw [hd] at this
      simpa using this.symm
    have ht : s.drop (pos + 1) = t := by
      have : (s.drop pos).drop 1 = s.drop (pos + 1) := by
        rw [List.drop_drop]
      rw [hd] at this
      simpa using this.symm
    rw [hd] at h
    rcases List.mem_cons.mp h with rfl | hmt
    · exact Or.inl hat
    · exact Or.inr (by rw [ht]; exact hmt)

theorem charAt_none_drop_nil {s : List Char} {pos : Nat} (h : charAt s pos = none) :
    s.drop pos = [] := by
  unfold charAt at h
  rw [List.get?_eq_none] at h
  exact List.drop_eq_nil_of_le h

theorem reSubGo_body_eq (re : RE) (repl : List Char → Nat → Nat → Caps → String)
    (s : List Char) (pos fuel : Nat) :
    reSubGo re repl s pos (fuel + 1) =
      (if pos > s.length then "" else
        match reMatchAt re s pos with
        | some (e, caps) =>
          if e > pos then
            repl s pos e caps ++ reSubGo re repl s e fuel
          else
            repl s pos e caps ++
              (match charAt s pos with
               | some c0 => ofChars [c0] ++ reSubGo re repl s (pos + 1) fuel
               | none => "")
        | none =>
          match charAt s pos with
          | some c0 => ofChars [c0] ++ reSubGo re repl s (pos + 1) fuel
          | none => "") := rfl

theorem reSubGo_step_match (re : RE) (repl : List Char → Nat → Nat → Caps → String)
    (s : List Char) (pos fuel e : Nat) (caps : Caps)
    (hbp : ¬ pos > s.length) (hm : reMatchAt re s pos = some (e, caps)) (hgt : e > pos) :
    reSubGo re repl s pos (fuel + 1) = repl s pos e caps ++ reSubGo re repl s e fuel := by
  rw [reSubGo_body_eq, if_neg hbp, hm]
  exact if_pos hgt

theorem reSubGo_step_char (re : RE) (repl : List Char → Nat → Nat → Caps → String)
    (s : List Char) (pos fuel : Nat) (c0 : Char)
    (hbp : ¬ pos > s.length) (hm : reMatchAt re s pos = none) (hc : charAt s pos = some c0) :
    reSubGo re repl s pos (fuel + 1) = ofChars [c0] ++ reSubGo re repl s (pos + 1) fuel := by
  rw [reSubGo_body_eq, if_neg hbp, hm, hc]

theorem reSubGo_close_survivor (s : List Char) (c : Char)
    (hcn : c ∉ (['C', 'l', 'o', 's', 'e'] : List Char)) :
    ∀ (fuel pos : Nat), c ∈ s.drop pos →
      c ∈ chars (reSubGo rxCloseWord (fun _ _ _ _ => "") s pos fuel) := by
  intro fuel
  induction fuel with
  | zero =>
    intro pos h
    simpa [reSubGo, chars_ofChars] using h
  | succ fuel ih =>
    intro pos h
    by_cases hbp : pos > s.length
    · exfalso
      have hnil : s.drop pos = [] := List.drop_eq_nil_of_le (Nat.le_of_lt hbp)
      rw [hnil] at h
      cases h
    · cases hm : reMatchAt rxCloseWord s pos with
      | some r =>
        obtain ⟨e, caps⟩ := r
        obtain ⟨he, hc1, hc2, hc3, hc4, hc5⟩ := closeWord_matchAt_shape s pos e caps hm
        subst he
        rw [reSubGo_step_match _ _ _ _ _ _ _ hbp hm (by omega)]
        have hdrop : c ∈ s.drop (pos + 5) := by
          rcases mem_drop_cases h with hx | h1
          · rw [hx] at hc1
            injection hc1 with hce
            subst hce
            exact absurd (by simp) hcn
          rcases mem_drop_cases h1 with hx | h2
          · rw [hx] at hc2
            injection hc2 with hce
            subst hce
            exact absurd (by simp) hcn
          rcases mem_drop_cases h2 with hx | h3
          · rw [show pos + 1 + 1 = pos + 2 from by omega] at hx
            rw [hx] at hc3
            injection hc3 with hce
            subst hce
            exact absurd (by simp) hcn
          rcases mem_drop_cases h3 with hx | h4
          · rw [show pos + 1 + 1 + 1 = pos + 3 from by omega] at hx
            rw [hx] at hc4
            injection hc4 with hce
            subst hce
            exact absurd (by simp) hcn
          rcases mem_drop_cases h4 with hx | h5
          · rw [show pos + 1 + 1 + 1 + 1 = pos + 4 from by omega] at hx
            rw [hx] at hc5
            injection hc5 with hce
            subst hce
            exact absurd (by simp) hcn
          · rw [show pos + 1 + 1 + 1 + 1 + 1 = pos + 5 from by omega] at h5
            exact h5
        rw [chars_append]
        exact List.mem_append_right _ (ih (pos + 5) hdrop)
      | none =>
        rcases mem_drop_cases h with hx | h1
        · rw [reSubGo_step_char _ _ _ _ _ _ hbp hm hx, chars_append]
          exact List.mem_append_left _ (by simp [chars_ofChars])
        · cases hca : charAt s pos with
          | none =>
            exfalso
            have hnil : s.drop pos = [] := charAt_none_drop_nil hca
            have hnil1 : s.drop (pos + 1) = [] := by
              have hdd : (s.drop pos).drop 1 = s.drop (pos + 1) := by rw [List.drop_drop]
              rw [hnil] at hdd
              simpa using hdd.symm
            rw [hnil1] at h1
            cases h1
          | some a =>
            rw [reSubGo_step_char _ _ _ _ _ _ hbp hm hca, chars_append]
            exact List.mem_append_right _ (ih (pos + 1) h1)

theorem reSub_close_survivor (s0 : String) (c : Char)
    (hcn : c ∉ (['C', 'l', 'o', 's', 'e'] : List Char))
    (h : c ∈ chars s0) : c ∈ chars (reSub rxCloseWord "" s0) := by
  unfold reSub reSubF
  exact reSubGo_close_survivor (chars s0) c hcn _ 0 (by simpa using h)

theorem pySplitWs_called (s : String) (r : List Char)
    (hs : chars s = chars "called " ++ r) :
    pySplitWs s = "called" :: (splitWsGo r []).map ofChars := by
  unfold pySplitWs pySplitWsChars
  rw [hs]
  rw [show chars "called " = chars "called" ++ [' '] from rfl]
  rw [List.append_assoc]
  rw [splitWsGo_nonws (chars "called") (by decide) ([' '] ++ r) []]
  rw [show ([' '] ++ r : List Char) = ' ' :: r from rfl]
  rw [splitWsGo_ws_cons ' ' r ((chars "called").reverse ++ []) (by decide) (by decide)]
  simp only [List.map_cons]
  congr 1

theorem tpt_called (s : String) (r : List Char)
    (hs : chars s = chars "called " ++ r) :
    to_past_tense s = pyJoin " " ("called" :: (splitWsGo r []).map ofChars) := by
  have hne : s ≠ "" := by
    intro h0
    rw [h0] at hs
    cases hs
  unfold to_past_tense
  rw [if_neg hne, pySplitWs_called s r hs]
  rfl

theorem build_event_line_ne_called (buffer : Dict) (r : List Char)
    (hch : chars (pyStrip (dgetD buffer "action")) = chars "called " ++ r)
    (hA : ('A' : Char) ∈ r) :
    build_event_line buffer ≠ "" := by
  have hmem0 : ('A' : Char) ∈ chars (pyStrip (dgetD buffer "action")) := by
    rw [hch]
    exact List.mem_append_right _ hA
  have hA0ne : pyStrip (dgetD buffer "action") ≠ "" := ne_empty_of_mem hmem0
  have hTPT := tpt_called (pyStrip (dgetD buffer "action")) r hch
  obtain ⟨w, hw, hAw⟩ := mem_splitWsGo 'A' (by decide) r [] (Or.inl hA)
  have hTmem : ('A' : Char) ∈ chars (to_past_tense (pyStrip (dgetD buffer "action"))) := by
    rw [hTPT]
    exact mem_pyJoin " " (ofChars w) _ 'A'
      (List.mem_cons_of_mem _ (List.mem_map_of_mem _ hw))
      (by rw [chars_ofChars]; exact hAw)
  have hSub : ('A' : Char) ∈
      chars (reSub rxCloseWord "" (to_past_tense (pyStrip (dgetD buffer "action")))) :=
    reSub_close_survivor _ 'A' (by decide) hTmem
  have hStr : ('A' : Char) ∈
      chars (pyStrip (reSub rxCloseWord "" (to_past_tense (pyStrip (dgetD buffer "action"))))) :=
    mem_pyStrip (by decide) _ hSub
  have hActne : pyStrip (reSub rxCloseWord "" (to_past_tense (pyStrip (dgetD buffer "action")))) ≠ "" :=
    ne_empty_of_mem hStr
  simp only [build_event_line]
  rw [if_pos hA0ne]
  rw [if_pos hActne]
  refine ne_empty_of_mem (mem_pyStripSet [' ', '–'] (by decide) _
    (mem_pyJoin " – " _ _ 'A'
      (List.mem_filter.mpr
        ⟨List.mem_append_left _ (List.mem_append_right _ (List.mem_cons_self _ _)), ?_⟩)
      ?_))
  · simp only [decide_eq_true_eq]
    intro h0
    have : ('A' : Char) ∈ chars
        (pyStrip (reSub rxCloseWord "" (to_past_tense (pyStrip (dgetD buffer "action")))) ++
          (if (if (decide (pyStrip (dgetD buffer "company") ≠ "") &&
                decide (pyStrip (reSub rxCloseWord "" (to_past_tense (pyStrip (dgetD buffer "action")))) ≠ "") &&
                strIn (pyLower (pyStrip (dgetD buffer "company")))
                  (pyLower (pyStrip (reSub rxCloseWord "" (to_past_tense (pyStrip (dgetD buffer "action")))))) ) = true
             then "" else pyStrip (dgetD buffer "company")) ≠ ""
           then " for " ++ (if (decide (pyStrip (dgetD buffer "company") ≠ "") &&
                decide (pyStrip (reSub rxCloseWord "" (to_past_tense (pyStrip (dgetD buffer "action")))) ≠ "") &&
                strIn (pyLower (pyStrip (dgetD buffer "company")))
                  (pyLower (pyStrip (reSub rxCloseWord "" (to_past_tense (pyStrip (dgetD buffer "action")))))) ) = true
             then "" else pyStrip (dgetD buffer "company"))
           else "")) := by
      rw [chars_append]
      exact List.mem_append_left _ hStr
    exact ne_empty_of_mem this h0
  · rw [chars_append]
    exact List.mem_append_left _ hStr

theorem head_append_left {α : Type} {l1 : List α} (l2 : List α) (h : l1 ≠ []) :
    (l1 ++ l2).head? = l1.head? := by
  cases l1
  · exact absurd rfl h
  · rfl

theorem getLast_append_right {α : Type} (l1 : List α) {l2 : List α} (h : l2 ≠ []) :
    (l1 ++ l2).getLast? = l2.getLast? := by
  rw [← List.head?_reverse, List.reverse_append,
    head_append_left _ (by simpa using h), List.head?_reverse]

theorem aes_like_action_ne (buffer : Dict) (t1 t2 t3 t4 t5 : String)
    (hact : dgetD buffer "action" =
      "called the AES Alarm Monitoring and placed the system on " ++ t1 ++ t2 ++ t3 ++
        "<font color=\x27green\x27>(Operator Name: <b>" ++ t4 ++
        "</b>, Operator Number: <b>" ++ t5 ++ "</b>)</font>") :
    build_event_line buffer ≠ "" := by
  have hrr : chars (dgetD buffer "action") = chars "called " ++
      (chars "the AES Alarm Monitoring and placed the system on " ++
        (chars t1 ++ (chars t2 ++ (chars t3 ++
          (chars "<font color=\x27green\x27>(Operator Name: <b>" ++
            (chars t4 ++ (chars "</b>, Operator Number: <b>" ++
              (chars t5 ++ chars "</b>)</font>")))))))) := by
    rw [hact]
    simp only [chars_append]
    rw [show chars "called the AES Alarm Monitoring and placed the system on " =
        chars "called " ++ chars "the AES Alarm Monitoring and placed the system on "
        from by decide]
    simp only [List.append_assoc]
  have hArr : ('A' : Char) ∈
      chars "the AES Alarm Monitoring and placed the system on " ++
        (chars t1 ++ (chars t2 ++ (chars t3 ++
          (chars "<font color=\x27green\x27>(Operator Name: <b>" ++
            (chars t4 ++ (chars "</b>, Operator Number: <b>" ++
              (chars t5 ++ chars "</b>)</font>"))))))) :=
    List.mem_append_left _ (by decide)
  have hh : (chars (dgetD buffer "action")).head? = some 'c' := by
    rw [hrr]
    rfl
  have hne4 : chars "</b>)</font>" ≠ [] := by decide
  have hl : (chars (dgetD buffer "action")).getLast? = some '>' := by
    rw [hact, chars_append, getLast_append_right _ hne4]
    decide
  have hstrip : pyStrip (dgetD buffer "action") = dgetD buffer "action" :=
    pyStrip_eq_self _
      (fun c hc => by
        rw [hh] at hc
        injection hc with h0
        subst h0
        decide)
      (fun c hc => by
        rw [hl] at hc
        injection hc with h0
        subst h0
        decide)
  exact build_event_line_ne_called buffer _ (by rw [hstrip]; exact hrr) hArr

theorem flushAES_appends (buffer0 : Dict) (parsed : Parsed)
    (hact : dget buffer0 "action" =
      some "handled AES phone call to put the fire system on test")
    (hk : parsed.any (fun kv => kv.1 == "AES Phone Calls") = true) :
    build_event_line (dset buffer0 "action" (aesDefaultNewAction buffer0)) ≠ "" ∧
    flushAES buffer0 parsed = .ok (parsed.map (fun kv =>
      if kv.1 == "AES Phone Calls" then
        (kv.1, kv.2 ++ [build_event_line (dset buffer0 "action" (aesDefaultNewAction buffer0))])
      else kv)) := by
  have hact2 : pyStrip (dgetD buffer0 "action") =
      "handled AES phone call to put the fire system on test" := by
    simp only [dgetD, hact, Option.getD_some]
    decide
  have hne : build_event_line (dset buffer0 "action" (aesDefaultNewAction buffer0)) ≠ "" := by
    apply aes_like_action_ne
    rw [dgetD_dset_self]
    simp only [aesDefaultNewAction]
    rfl
  refine ⟨hne, ?_⟩
  have hne2 := hne
  simp only [aesDefaultNewAction] at hne2
  have hsel1 : ¬ (strIn "extend"
      (pyLower "handled AES phone call to put the fire system on test") = true) := by decide
  have hsel2 : (["hold", "bypass", "test"].any (fun x => strIn x
      (pyLower "handled AES phone call to put the fire system on test"))) = true := by decide
  simp only [flushAES]
  rw [hact2]
  rw [if_neg hsel1, if_pos hsel2]
  simp only [aesDefaultNewAction]
  rw [if_pos hne2]
  simp only [pappend]
  rw [if_pos hk]

/-- C10: a buffer that classifies as AES Phone Calls and has no `action`
field is not dropped: `flush_event` installs the default action
`"handled AES phone call to put the fire system on test"` before synthesis,
the synthesized narrative is non-empty, and it is appended to the
AES Phone Calls category. -/
theorem c10_aes_default_action (lines : List String) (st : ScanSt)
    (hcls : classify st.buffer st.labels = "AES Phone Calls")
    (hact : truthy (dget st.buffer "action") = false)
    (hcat : truthy (dget st.buffer "category") = true)
    (hk : st.parsed.any (fun kv => kv.1 == "AES Phone Calls") = true) :
    ∃ st2 evt, flush_event lines st = .ok st2 ∧ evt ≠ "" ∧
      pget st2.parsed "AES Phone Calls" = pget st.parsed "AES Phone Calls" ++ [evt] := by
  obtain ⟨hne, hflush⟩ := flushAES_appends
    (dset st.buffer "action" "handled AES phone call to put the fire system on test")
    st.parsed (dget_dset_self _ _ _) hk
  have hbne : st.buffer.isEmpty = false := by
    cases hb : st.buffer with
    | nil =>
      rw [hb] at hcat
      simp [dget, truthy] at hcat
    | cons a l => rfl
  have hgate : ¬ ((st.buffer.isEmpty
      || (!truthy (dget st.buffer "action")
          && !truthy (dget st.buffer "incident_description")
          && !truthy (dget st.buffer "incident_comments")
          && !truthy (dget st.buffer "category"))) = true) := by
    simp [hbne, hcat]
  have hbuf : (("AES Phone Calls" == "AES Phone Calls") && !false) = true := by decide
  have hd1 : ¬ (("AES Phone Calls" == "Incident Reports (IR) / Alarms") = true) := by decide
  have hd2 : ¬ (("AES Phone Calls" == "Elevator Entrapment Incidents") = true) := by decide
  have hd3 : ¬ (("AES Phone Calls" == "Work Orders") = true) := by decide
  have hd4 : ¬ (("AES Phone Calls" == "Property Damage") = true) := by decide
  have hd5 : ¬ (("AES Phone Calls" == "Key Service (Lock & Unlock)") = true) := by decide
  have hd6 : ¬ (("AES Phone Calls" == "Loading Dock Access (Lock & Unlock)") = true) := by decide
  have hd7 : ¬ (("AES Phone Calls" == "Fire Panel Bypass/Online") = true) := by decide
  have hd8 : (("AES Phone Calls" == "AES Phone Calls") = true) := by decide
  have hmain : flush_event lines st = .ok { st with
      parsed := st.parsed.map (fun kv =>
        if kv.1 == "AES Phone Calls" then
          (kv.1, kv.2 ++ [build_event_line (dset
            (dset st.buffer "action" "handled AES phone call to put the fire system on test")
            "action" (aesDefaultNewAction
              (dset st.buffer "action" "handled AES phone call to put the fire system on test")))])
        else kv)
      transient_count := st.transient_count
      buffer := []
      labels := []
      transient_tag_seen := false
      last_field := none } := by
    simp only [flush_event]
    rw [if_neg hgate, hcls, hact]
    rw [if_pos hbuf]
    rw [if_neg hd1, if_neg hd2, if_neg hd3, if_neg hd4, if_neg hd5, if_neg hd6, if_neg hd7,
      if_pos hd8]
    rw [hflush]
    rfl
  refine ⟨_, _, hmain, hne, ?_⟩
  exact pget_update_append st.parsed "AES Phone Calls" _ hk

theorem c10_aes_default_action_witness :
    ∃ st2 evt, flush_event [] c10St = .ok st2 ∧ evt ≠ "" ∧
      pget st2.parsed "AES Phone Calls" = pget c10St.parsed "AES Phone Calls" ++ [evt] :=
  c10_aes_default_action [] c10St (by decide) rfl (by decide) (by decide)

end Dar
